import Mathlib

/-! # ImageDataLayer (caffe/layers/image_data_layer.cpp)

A shallow embedding of the image data layer: the per-image transform
`ProcessImageDatum`, the producer `ImageDataLayerPrefetch`, the list shuffle
`ShuffleImages`, the ad-hoc injection `AddImagesAndLabels` and the consumer
`Forward_cpu`, followed by the properties proved about them.

Conventions of the embedding.
* `Dtype` is an arbitrary type `D` with the operations the code uses
  (conversion from integers, subtraction, multiplication); every statement
  holds for whatever arithmetic `D` carries.
* `int` values that the code only ever uses as sizes, counts and indices are
  natural numbers; no arithmetic in the file is close to the `int` range.
* A raw buffer (`Dtype*`) is a function from indices to values, a store is a
  pointwise update.
* `CHECK...` and `LOG(FATAL)` abort the process: they are `Except.error`.
* `rand()` and the prefetch generator are streams of draws, threaded through
  the code in call order.
* A producer run that returns is performed at the point where its thread is
  created: between `pthread_create` and `pthread_join` nothing else touches
  the state it works on. `pthread_create` itself returns to its caller
  whatever the thread does: a `LOG(FATAL)` or a failed `CHECK` inside the
  thread ends the process from the thread and is not a failure of `SetUp` or
  of `Forward_cpu`, which have started the thread and gone on.
-/

namespace Caffe

/-- The check that aborted the process, by source line. -/
inductive Failure where
  /-- Line 35, `CHECK_GT(height, crop_size)`. -/
  | cropHeight
  /-- Line 36, `CHECK_GT(width, crop_size)`. -/
  | cropWidth
  /-- Line 37, `CHECK(data.size())`. -/
  | cropNoBytes
  /-- Lines 113 and 337, mirror without crop. -/
  | mirrorNoCrop
  /-- Line 126, `CHECK_GT(lines_size, lines_id_)`. -/
  | cursorRange
  /-- Line 169, new_height and new_width not set together. -/
  | newSize
  /-- Line 202, not enough points to skip. -/
  | skipRange
  /-- Line 207, the first image could not be read. -/
  | firstRead
  /-- Line 224, `CHECK_GT(datum_channels_, 0)`. -/
  | datumChannels
  /-- Line 226, `CHECK_GT(datum_height_, 0)`. -/
  | datumHeight
  /-- Line 228, `CHECK_GT(datum_width_, 0)`. -/
  | datumWidth
  /-- Line 232, `CHECK_GT(datum_height_, crop_size)`. -/
  | setupCropHeight
  /-- Line 233, `CHECK_GT(datum_width_, crop_size)`. -/
  | setupCropWidth
  /-- Lines 262 to 265, shape of the mean file. -/
  | meanShape
  /-- Line 326, no image to add. -/
  | noImage
  /-- Line 328, more images than the batch size. -/
  | tooManyImages
  /-- Line 331, fewer labels than images. -/
  | tooFewLabels
  deriving DecidableEq, Repr

/-- The global `Caffe::phase()`. -/
inductive Phase where
  | TRAIN
  | TEST
  deriving DecidableEq, Repr

/-- A stream of draws of a random generator, in call order. -/
abbrev Rand := Nat → Nat

/-- One call of the generator: the draw and the generator after it. -/
def Rand.next (r : Rand) : Nat × Rand := (r 0, fun n => r (n + 1))

/-- A raw buffer `Dtype*`. -/
abbrev Buf (D : Type) := Nat → D

/-- The store `buf[i] = v`. -/
def Buf.write {D : Type} (buf : Buf D) (i : Nat) (v : D) : Buf D :=
  fun k => if k = i then v else buf k

/-- The protobuf message `Datum`: `data` is the byte string (each element a
`char`), `float_data` the repeated float field. -/
structure Datum (D : Type) where
  channels : Nat
  height : Nat
  width : Nat
  data : List Int
  float_data : Nat → D
  label : Int

/-- The conversion `(uint8_t) ch` of a `char`. -/
def toUint8 (ch : Int) : Nat := (ch % 256).toNat

/-- The read `data[i]` of the byte string. -/
def charAt (data : List Int) (i : Nat) : Int := data.getD i 0

/-- The pair of destination buffers of `ProcessImageDatum`. -/
structure Top (D : Type) where
  top_data : Buf D
  top_label : Buf D

section Transform

variable {D : Type} [NatCast D] [IntCast D] [Sub D] [Mul D]

/-- Lines 40 to 48: the crop offsets, random in the training phase and
centered otherwise. -/
def cropOffsets (phase : Phase) (height width crop_size : Nat) (rng : Rand) :
    (Nat × Nat) × Rand :=
  match phase with
  | Phase.TRAIN =>
    let d1 := rng.next
    let d2 := d1.2.next
    ((d1.1 % (height - crop_size), d2.1 % (width - crop_size)), d2.2)
  | Phase.TEST => (((height - crop_size) / 2, (width - crop_size) / 2), rng)

/-- Line 50: `mirror && rand() % 2`; the draw is made only when `mirror` is
set. -/
def mirrorCoin (mirror : Bool) (rng : Rand) : Bool × Rand :=
  if mirror then ((rng.next.1 % 2 != 0), rng.next.2) else (false, rng)

/-- The value stored for source index `src`: lines 56 to 58, 69 to 72 and 81
to 82. -/
def byteSample (mean : Buf D) (scale : D) (data : List Int) (src : Nat) : D :=
  (((toUint8 (charAt data src) : Nat) : D) - mean src) * scale

/-- Lines 52 to 61: copy mirrored version. -/
def copyMirrored (channels height width crop_size : Nat) (mean : Buf D) (scale : D)
    (data : List Int) (item_id h_off w_off : Nat) (top_data : Buf D) : Buf D :=
  (List.range channels).foldl (fun td c =>
    (List.range crop_size).foldl (fun td h =>
      (List.range crop_size).foldl (fun td w =>
        td.write (((item_id * channels + c) * crop_size + h) * crop_size
            + crop_size - 1 - w)
          (byteSample mean scale data ((c * height + h + h_off) * width + w + w_off)))
        td) td) top_data

/-- Lines 64 to 75: normal copy. -/
def copyNormal (channels height width crop_size : Nat) (mean : Buf D) (scale : D)
    (data : List Int) (item_id h_off w_off : Nat) (top_data : Buf D) : Buf D :=
  (List.range channels).foldl (fun td c =>
    (List.range crop_size).foldl (fun td h =>
      (List.range crop_size).foldl (fun td w =>
        td.write (((item_id * channels + c) * crop_size + h) * crop_size + w)
          (byteSample mean scale data ((c * height + h + h_off) * width + w + w_off)))
        td) td) top_data

/-- Lines 80 to 83: copy of the whole byte payload. -/
def copyBytes (size : Nat) (mean : Buf D) (scale : D) (data : List Int)
    (item_id : Nat) (top_data : Buf D) : Buf D :=
  (List.range size).foldl (fun td j =>
    td.write (item_id * size + j) (byteSample mean scale data j)) top_data

/-- Lines 85 to 87: copy of the whole float payload. -/
def copyFloats (size : Nat) (mean : Buf D) (scale : D) (float_data : Nat → D)
    (item_id : Nat) (top_data : Buf D) : Buf D :=
  (List.range size).foldl (fun td j =>
    td.write (item_id * size + j) ((float_data j - mean j) * scale)) top_data

/-- The number of samples of one batch slot, as `SetUpWithDatum` shapes the
data blob (lines 234 to 245): `channels * crop_size * crop_size` with a crop,
the whole image without. -/
def slotSize (channels size crop_size : Nat) : Nat :=
  if 0 < crop_size then channels * crop_size * crop_size else size

/-- The shape shared by the two cropped copies: three nested loops that store
`val c h w` at `idx c h w`. -/
def loop3 (n1 n2 n3 : Nat) (idx : Nat → Nat → Nat → Nat) (val : Nat → Nat → Nat → D)
    (td : Buf D) : Buf D :=
  (List.range n1).foldl (fun td c =>
    (List.range n2).foldl (fun td h =>
      (List.range n3).foldl (fun td w => td.write (idx c h w) (val c h w)) td) td) td

/-- The accesses of the cropped copies in program order (lines 52 to 61 and
64 to 75): for every iteration the index stored at in `top_data` and the
index read from `data` and from `mean`. -/
def cropAccesses (mirrored : Bool) (channels height width crop_size item_id h_off w_off : Nat) :
    List (Nat × Nat) :=
  (List.range channels).flatMap (fun c =>
    (List.range crop_size).flatMap (fun h =>
      (List.range crop_size).map (fun w =>
        (if mirrored then
            ((item_id * channels + c) * crop_size + h) * crop_size + crop_size - 1 - w
          else ((item_id * channels + c) * crop_size + h) * crop_size + w,
         (c * height + h + h_off) * width + w + w_off))))

/-- The accesses of the whole-image copies in program order (lines 80 to 83
and 85 to 87): the index stored at and the index read. -/
def wholeAccesses (size item_id : Nat) : List (Nat × Nat) :=
  (List.range size).map (fun j => (item_id * size + j, j))

/-- The stores of a list of accesses, each storing the value `val src` read
at its source index. -/
def storeAll (val : Nat → D) (accesses : List (Nat × Nat)) (top_data : Buf D) : Buf D :=
  accesses.foldl (fun td a => td.write a.1 (val a.2)) top_data

/-- Lines 27 to 92, `ProcessImageDatum`. -/
def ProcessImageDatum (phase : Phase) (channels height width size crop_size : Nat)
    (mirror : Bool) (mean : Buf D) (scale : D) (datum : Datum D) (item_id : Nat)
    (top : Top D) (rng : Rand) : Except Failure (Top D × Rand) :=
  let data := datum.data
  if 0 < crop_size then
    if ¬ crop_size < height then Except.error Failure.cropHeight
    else if ¬ crop_size < width then Except.error Failure.cropWidth
    else if data.length = 0 then Except.error Failure.cropNoBytes
    else
      let off := cropOffsets phase height width crop_size rng
      let h_off := off.1.1
      let w_off := off.1.2
      let coin := mirrorCoin mirror off.2
      let td :=
        if coin.1 then
          copyMirrored channels height width crop_size mean scale data item_id h_off w_off
            top.top_data
        else
          copyNormal channels height width crop_size mean scale data item_id h_off w_off
            top.top_data
      Except.ok (⟨td, top.top_label.write item_id (datum.label : D)⟩, coin.2)
  else
    let td :=
      if data.length ≠ 0 then copyBytes size mean scale data item_id top.top_data
      else copyFloats size mean scale datum.float_data item_id top.top_data
    Except.ok (⟨td, top.top_label.write item_id (datum.label : D)⟩, rng)

/-- The value `ProcessImageDatum` stores for the source index `src`: the byte
sample when the datum has a byte payload (lines 56 to 58, 69 to 72, 81 to 82),
the float sample otherwise (line 86). -/
def sampleAt (mean : Buf D) (scale : D) (datum : Datum D) (src : Nat) : D :=
  if datum.data.length ≠ 0 then byteSample mean scale datum.data src
  else (datum.float_data src - mean src) * scale

/-- The accesses of a call of `ProcessImageDatum` that passes its checks, in
program order: those of the cropped copy selected by the mirror coin at the
offsets of `cropOffsets`, or those of the whole-image copy. -/
def dataAccesses (phase : Phase) (channels height width size crop_size : Nat)
    (mirror : Bool) (item_id : Nat) (rng : Rand) : List (Nat × Nat) :=
  if 0 < crop_size then
    cropAccesses (mirrorCoin mirror (cropOffsets phase height width crop_size rng).2).1
      channels height width crop_size item_id
      (cropOffsets phase height width crop_size rng).1.1
      (cropOffsets phase height width crop_size rng).1.2
  else wholeAccesses size item_id

end Transform

/-! ## The layer -/

/-- One line of the manifest: file name and label. -/
abbrev Entry := String × Int

/-- The configuration message `ImageDataParameter`; an absent `source` or
`mean_file` is `none`. -/
structure ImageDataParameter (D : Type) where
  source : Option String
  mean_file : Option String
  scale : D
  batch_size : Nat
  crop_size : Nat
  mirror : Bool
  rand_skip : Nat
  shuffle : Bool
  new_height : Nat
  new_width : Nat
  images_in_color : Bool

/-- A `Blob<Dtype>`: its shape and its memory. -/
structure Blob (D : Type) where
  num : Nat
  channels : Nat
  height : Nat
  width : Nat
  cpu_data : Buf D

/-- The number of elements `count()` of a blob. -/
def Blob.count {D : Type} (b : Blob D) : Nat := b.num * b.channels * b.height * b.width

/-- A blob of the given shape as `Reshape` and `new Blob` leave it: the
memory is allocated zero-filled. -/
def Blob.alloc {D : Type} [Zero D] (num channels height width : Nat) : Blob D :=
  ⟨num, channels, height, width, fun _ => 0⟩

/-- The members of `ImageDataLayer<Dtype>` the code of the file uses, and
with them the process-wide state it reads: `rand_` is the stream of `rand()`,
`seed_` the stream of `caffe_rng_rand()`, `reads_` the number of calls made
to the image decoder so far. -/
structure ImageDataLayer (D : Type) where
  layer_param_ : ImageDataParameter D
  lines_ : List Entry
  lines_id_ : Nat
  datum_channels_ : Nat
  datum_height_ : Nat
  datum_width_ : Nat
  datum_size_ : Nat
  data_mean_ : Blob D
  prefetch_data_ : Blob D
  prefetch_label_ : Blob D
  is_datum_set_up_ : Bool
  prefetch_rng_ : Option Rand
  rand_ : Rand
  seed_ : Rand
  reads_ : Nat

/-- What the layer takes from outside this file: the phase, the image decoder
(`imread n path new_height new_width color` is the outcome of the `n`-th
decoder call of the process when made on `path`), `std::random_shuffle`
(it draws from `rand()`), the generator built from a seed, and the contents
of the manifest and of the mean file. -/
structure Env (D : Type) where
  phase : Phase
  imread : Nat → String → Nat → Nat → Bool → Option (Datum D)
  random_shuffle : Rand → List Entry → List Entry × Rand
  RNG : Nat → Rand
  manifest : String → List Entry
  mean_proto : String → Blob D

/-- Modelled from the spec: `ReadImageToDatum` of caffe/util/io, which is not
in this file. It calls the external image decoder, fails when the decoder
fails, and otherwise returns the decoded image as a datum that carries the
label it was called with. -/
def ReadImageToDatum {D : Type} (env : Env D) (call : Nat) (filename : String) (label : Int)
    (new_height new_width : Nat) (color : Bool) : Option (Datum D) :=
  (env.imread call filename new_height new_width color).map
    (fun d => { d with label := label })

/-- Modelled from the spec: `OpenCVImageToDatum` of caffe/util/io, which is
not in this file. It converts an already decoded image (resized by
`toDatum`) into a datum that carries the given label. -/
def OpenCVImageToDatum {D Mat : Type} (toDatum : Mat → Nat → Nat → Datum D) (image : Mat)
    (label : Int) (new_height new_width : Nat) : Datum D :=
  { toDatum image new_height new_width with label := label }

section Layer

variable {D : Type} [NatCast D] [IntCast D] [Sub D] [Mul D]

/-- Lines 125 to 145: one iteration of the loop of `ImageDataLayerPrefetch`;
`lines_size` is the list length read before the loop. -/
def prefetchItem (env : Env D) (lines_size : Nat) (layer : ImageDataLayer D)
    (item_id : Nat) : Except Failure (ImageDataLayer D) :=
  let p := layer.layer_param_
  if ¬ layer.lines_id_ < lines_size then Except.error Failure.cursorRange
  else
    let entry := layer.lines_.getD layer.lines_id_ ("", 0)
    let call := layer.reads_
    let layer := { layer with reads_ := call + 1 }
    match ReadImageToDatum env call entry.1 entry.2 p.new_height p.new_width
        p.images_in_color with
    | none => Except.ok layer
    | some datum =>
      match ProcessImageDatum env.phase layer.datum_channels_ layer.datum_height_
          layer.datum_width_ layer.datum_size_ p.crop_size p.mirror layer.data_mean_.cpu_data
          p.scale datum item_id
          ⟨layer.prefetch_data_.cpu_data, layer.prefetch_label_.cpu_data⟩ layer.rand_ with
      | Except.error e => Except.error e
      | Except.ok (top, rng) =>
        let top_label := top.top_label.write item_id (datum.label : D)
        let layer := { layer with
          prefetch_data_ := { layer.prefetch_data_ with cpu_data := top.top_data }
          prefetch_label_ := { layer.prefetch_label_ with cpu_data := top_label }
          rand_ := rng
          lines_id_ := layer.lines_id_ + 1 }
        if lines_size ≤ layer.lines_id_ then
          let layer := { layer with lines_id_ := 0 }
          if p.shuffle then
            let sh := env.random_shuffle layer.rand_ layer.lines_
            Except.ok { layer with lines_ := sh.1, rand_ := sh.2 }
          else Except.ok layer
        else Except.ok layer

/-- Lines 94 to 149, `ImageDataLayerPrefetch`: one producer run. -/
def ImageDataLayerPrefetch (env : Env D) (layer : ImageDataLayer D) :
    Except Failure (ImageDataLayer D) :=
  let p := layer.layer_param_
  if p.mirror && p.crop_size == 0 then Except.error Failure.mirrorNoCrop
  else
    let lines_size := layer.lines_.length
    (List.range p.batch_size).foldlM (prefetchItem env lines_size) layer

/-- Lines 302 to 306: one iteration of the loop of `ShuffleImages`, on the
list and the prefetch generator (`PrefetchRand` draws from it). -/
def shuffleStep (num_images : Nat) (st : List Entry × Rand) (i : Nat) : List Entry × Rand :=
  let max_rand_index := num_images - i
  let draw := st.2.next
  let rand_index := draw.1 % max_rand_index
  let item := st.1.getD rand_index ("", 0)
  (st.1.eraseIdx rand_index ++ [item], draw.2)

/-- Lines 298 to 308, `ShuffleImages`, on the list and the prefetch
generator. -/
def ShuffleImages (rng : Rand) (lines : List Entry) : List Entry × Rand :=
  let num_images := lines.length
  (List.range num_images).foldl (shuffleStep num_images) (lines, rng)

/-- The shuffle in the words of the specification, to be compared with
`ShuffleImages`: with `n` entries remaining, pick the entry at index
`draw mod n` among them, remove it, and go on with the rest; the result lists
the picked entries in the order of picking. -/
def pickWithoutReplacement : Nat → List Entry → Rand → List Entry
  | 0, _, _ => []
  | n + 1, l, r =>
    l.getD (r 0 % (n + 1)) ("", 0)
      :: pickWithoutReplacement n (l.eraseIdx (r 0 % (n + 1))) (fun j => r (j + 1))

/-- The stream of draws that starts with the given numbers. -/
def Rand.ofList (ks : List Nat) : Rand := fun i => ks.getD i 0

/-- A sequence of picks for a list of `n` entries: `n` indices, the `i`-th
below `n - i`. -/
def IndexSeq (n : Nat) (ks : List Nat) : Prop :=
  ks.length = n ∧ ∀ i, i < n → ks.getD i 0 < n - i

variable [Zero D]

/-- Lines 219 to 279, `SetUpWithDatum`. -/
def SetUpWithDatum (env : Env D) (crop_size : Nat) (datum : Datum D)
    (layer : ImageDataLayer D) : Except Failure (ImageDataLayer D) :=
  let p := layer.layer_param_
  if ¬ 0 < datum.channels then Except.error Failure.datumChannels
  else if ¬ 0 < datum.height then Except.error Failure.datumHeight
  else if ¬ 0 < datum.width then Except.error Failure.datumWidth
  else if 0 < crop_size ∧ ¬ crop_size < datum.height then
    Except.error Failure.setupCropHeight
  else if 0 < crop_size ∧ ¬ crop_size < datum.width then
    Except.error Failure.setupCropWidth
  else
    let prefetch_data : Blob D :=
      if 0 < crop_size then Blob.alloc p.batch_size datum.channels crop_size crop_size
      else Blob.alloc p.batch_size datum.channels datum.height datum.width
    let layer := { layer with
      datum_channels_ := datum.channels
      datum_height_ := datum.height
      datum_width_ := datum.width
      datum_size_ := datum.channels * datum.height * datum.width
      prefetch_data_ := prefetch_data
      prefetch_label_ := Blob.alloc p.batch_size 1 1 1 }
    match p.mean_file with
    | some mean_file =>
      let m := env.mean_proto mean_file
      if m.num = 1 ∧ m.channels = datum.channels ∧ m.height = datum.height
          ∧ m.width = datum.width then
        Except.ok { layer with data_mean_ := m, is_datum_set_up_ := true }
      else Except.error Failure.meanShape
    | none =>
      Except.ok { layer with
        data_mean_ := Blob.alloc 1 datum.channels datum.height datum.width
        is_datum_set_up_ := true }

/-- The call `pthread_create(&thread_, NULL, ImageDataLayerPrefetch<Dtype>,
this)` of lines 213 and 294, as its caller sees it: the thread is started and
the caller goes on. A producer run that returns is performed here, and the
caller goes on with the layer the run leaves. A producer run that aborts ends
the process from inside the thread and is no failure of the caller, which goes
on with the layer the thread was started on. -/
def pthread_create (env : Env D) (layer : ImageDataLayer D) : ImageDataLayer D :=
  match ImageDataLayerPrefetch env layer with
  | Except.ok layer' => layer'
  | Except.error _ => layer

/-- Lines 281 to 296, `CreatePrefetchThread`: the generator is re-seeded when
shuffle or crop is configured and dropped otherwise, then the producer thread
is started. -/
def CreatePrefetchThread (env : Env D) (layer : ImageDataLayer D) :
    Except Failure (ImageDataLayer D) :=
  let p := layer.layer_param_
  let layer :=
    if p.shuffle || p.crop_size != 0 then
      let seed := layer.seed_.next
      { layer with prefetch_rng_ := some (env.RNG seed.1), seed_ := seed.2 }
    else { layer with prefetch_rng_ := none }
  Except.ok (pthread_create env layer)

/-- Lines 195 to 204 of `SetUp`: the cursor is reset, and moved by a random
number of points when `rand_skip` is configured. -/
def skipPoints (layer : ImageDataLayer D) : Except Failure (ImageDataLayer D) :=
  let p := layer.layer_param_
  let layer := { layer with lines_id_ := 0 }
  if p.rand_skip ≠ 0 then
    let draw := layer.rand_.next
    let skip := draw.1 % p.rand_skip
    if ¬ skip < layer.lines_.length then Except.error Failure.skipRange
    else Except.ok { layer with rand_ := draw.2, lines_id_ := skip }
  else Except.ok layer

/-- Lines 205 to 215 of `SetUp`: the entry under the cursor is read, the
geometry is set up from it, and the thread of the first producer run is
started, after which `SetUp` returns; `new_height` and `new_width` are the
locals of lines 165 and 166. -/
def finishSetUp (env : Env D) (new_height new_width : Nat) (layer : ImageDataLayer D) :
    Except Failure (ImageDataLayer D) :=
  let p := layer.layer_param_
  let entry := layer.lines_.getD layer.lines_id_ ("", 0)
  let call := layer.reads_
  let layer := { layer with reads_ := call + 1 }
  match ReadImageToDatum env call entry.1 entry.2 new_height new_width
      p.images_in_color with
  | none => Except.error Failure.firstRead
  | some datum =>
    match SetUpWithDatum env p.crop_size datum layer with
    | Except.error e => Except.error e
    | Except.ok layer => Except.ok (pthread_create env layer)

/-- Lines 159 to 217, `SetUp`. -/
def SetUp (env : Env D) (layer : ImageDataLayer D) : Except Failure (ImageDataLayer D) :=
  let p := layer.layer_param_
  let layer := { layer with is_datum_set_up_ := false }
  let new_height := p.new_height
  let new_width := p.new_height
  if ¬ ((new_height = 0 ∧ new_width = 0) ∨ (0 < new_height ∧ 0 < new_width)) then
    Except.error Failure.newSize
  else
    match p.source with
    | none => Except.ok layer
    | some source =>
      let layer := { layer with lines_ := layer.lines_ ++ env.manifest source }
      let layer :=
        if p.shuffle then
          let seed := layer.seed_.next
          let sh := ShuffleImages (env.RNG seed.1) layer.lines_
          { layer with lines_ := sh.1, prefetch_rng_ := some sh.2, seed_ := seed.2 }
        else layer
      match skipPoints layer with
      | Except.error e => Except.error e
      | Except.ok layer => finishSetUp env new_height new_width layer

/-- Lines 351 to 353: the geometry is established from the first supplied
image unless it is already set up. -/
def ensureSetUp (env : Env D) (crop_size : Nat) (datum : Datum D)
    (layer : ImageDataLayer D) : Except Failure (ImageDataLayer D) :=
  if ! layer.is_datum_set_up_ then SetUpWithDatum env crop_size datum layer
  else Except.ok layer

/-- Lines 363 to 364 and 368 to 371: the conversion of the image `image_id`
and its transform into slot `item_id`, on the destination buffers and the
`rand()` stream; `crop_size`, `mirror` and `new_height` are the locals read
at lines 335, 336 and 341 to 342. -/
def addItem {Mat : Type} [Inhabited Mat] (env : Env D) (toDatum : Mat → Nat → Nat → Datum D)
    (images : List Mat) (labels : List Int) (new_height crop_size : Nat) (mirror : Bool)
    (layer : ImageDataLayer D) (st : Top D × Rand) (item_id image_id : Nat) :
    Except Failure (Top D × Rand) :=
  let datum := OpenCVImageToDatum toDatum (images.getD image_id default)
    (labels.getD image_id 0) new_height new_height
  ProcessImageDatum env.phase layer.datum_channels_ layer.datum_height_ layer.datum_width_
    layer.datum_size_ crop_size mirror layer.data_mean_.cpu_data layer.layer_param_.scale
    datum item_id st.1 st.2

/-- Lines 322 to 373, `AddImagesAndLabels`. -/
def AddImagesAndLabels {Mat : Type} [Inhabited Mat] (env : Env D)
    (toDatum : Mat → Nat → Nat → Datum D) (images : List Mat) (labels : List Int)
    (layer : ImageDataLayer D) : Except Failure (ImageDataLayer D) :=
  let p := layer.layer_param_
  let num_images := images.length
  if ¬ 0 < num_images then Except.error Failure.noImage
  else if ¬ num_images ≤ p.batch_size then Except.error Failure.tooManyImages
  else if ¬ num_images ≤ labels.length then Except.error Failure.tooFewLabels
  else if p.mirror && p.crop_size == 0 then Except.error Failure.mirrorNoCrop
  else
    let datum := OpenCVImageToDatum toDatum (images.getD 0 default) (labels.getD 0 0)
      p.new_height p.new_height
    match ensureSetUp env p.crop_size datum layer with
    | Except.error e => Except.error e
    | Except.ok layer =>
      let st0 : Top D × Rand :=
        (⟨layer.prefetch_data_.cpu_data, layer.prefetch_label_.cpu_data⟩, layer.rand_)
      match
        (addItem env toDatum images labels p.new_height p.crop_size p.mirror layer st0 0 0).bind
          (fun st1 =>
            (List.range' 1 (p.batch_size - 1)).foldlM (fun st item_id =>
              addItem env toDatum images labels p.new_height p.crop_size p.mirror layer st
                item_id (item_id % num_images)) st1)
      with
      | Except.error e => Except.error e
      | Except.ok st =>
        Except.ok { layer with
          prefetch_data_ := { layer.prefetch_data_ with cpu_data := st.1.top_data }
          prefetch_label_ := { layer.prefetch_label_ with cpu_data := st.1.top_label }
          rand_ := st.2 }

/-- Lines 375 to 392, `Forward_cpu`: the pending producer run has completed
(join), the prefetch buffers are copied out element by element, and the next
producer run is started. The result is the copy of the data tensor and of the
label tensor, with the layer after the call. -/
def Forward_cpu (env : Env D) (layer : ImageDataLayer D) :
    Except Failure ((List D × List D) × ImageDataLayer D) :=
  let top0 := (List.range layer.prefetch_data_.count).map layer.prefetch_data_.cpu_data
  let top1 := (List.range layer.prefetch_label_.count).map layer.prefetch_label_.cpu_data
  if layer.layer_param_.source.isSome then
    match CreatePrefetchThread env layer with
    | Except.error e => Except.error e
    | Except.ok layer => Except.ok ((top0, top1), layer)
  else Except.ok ((top0, top1), layer)

end Layer

/-- The layer with the members a producer run works on replaced: the two
prefetch buffers, the `rand()` stream, the list, the cursor and the decoder
call count. Everything else, the shapes of the blobs included, is kept. -/
def ImageDataLayer.after {D : Type} (layer : ImageDataLayer D) (td lab : Buf D) (rng : Rand)
    (lines : List Entry) (id reads : Nat) : ImageDataLayer D :=
  { layer with
    prefetch_data_ := { layer.prefetch_data_ with cpu_data := td }
    prefetch_label_ := { layer.prefetch_label_ with cpu_data := lab }
    rand_ := rng
    lines_ := lines
    lines_id_ := id
    reads_ := reads }

/-! ## Example inputs -/

section Examples

/-- A one-channel 3 x 3 image with the bytes 0 to 8 and label 4. -/
def exDatum3 : Datum Int := ⟨1, 3, 3, [0, 1, 2, 3, 4, 5, 6, 7, 8], fun _ => 0, 4⟩

/-- A one-channel 4 x 4 image with the bytes 0 to 15 and label 3. -/
def exDatum4 : Datum Int :=
  ⟨1, 4, 4, [0, 1, 2, 3, 4, 5, 6, 7, 8, 9, 10, 11, 12, 13, 14, 15], fun _ => 0, 3⟩

/-- A mean buffer whose value at index `j` is `j`. -/
def exMean : Buf Int := fun j => (j : Int)

/-- Destination buffers filled with -1. -/
def exTop : Top Int := ⟨fun _ => -1, fun _ => -1⟩

/-- A stream of draws: 5, 6, 7, ... -/
def exRand : Rand := fun n => n + 5

/-- The manifest of the end-to-end scenario. -/
def exManifest : List Entry := [("a.jpg", 1), ("b.jpg", 2), ("c.jpg", 0)]

/-- An environment in the evaluation phase whose decoder returns a one-pixel
image for every file but "bad.jpg", on which it fails, and whose
`std::random_shuffle` is the shuffle of this file. -/
def exEnv : Env Int where
  phase := Phase.TEST
  imread := fun _ path _ _ _ =>
    if path = "bad.jpg" then none else some ⟨1, 1, 1, [9], fun _ => 0, 0⟩
  random_shuffle := fun r l => ShuffleImages r l
  RNG := fun seed n => seed + n
  manifest := fun _ => exManifest
  mean_proto := fun _ => Blob.alloc 1 1 1 1

/-- The configuration of the end-to-end scenario: batch size 2, no crop, no
mirror, no shuffle, scale 1, no mean file. -/
def exParam : ImageDataParameter Int where
  source := some "list.txt"
  mean_file := none
  scale := 1
  batch_size := 2
  crop_size := 0
  mirror := false
  rand_skip := 0
  shuffle := false
  new_height := 0
  new_width := 0
  images_in_color := false

/-- A layer with the given configuration before `SetUp`. -/
def exLayer0 (param : ImageDataParameter Int) : ImageDataLayer Int where
  layer_param_ := param
  lines_ := []
  lines_id_ := 0
  datum_channels_ := 0
  datum_height_ := 0
  datum_width_ := 0
  datum_size_ := 0
  data_mean_ := Blob.alloc 0 0 0 0
  prefetch_data_ := Blob.alloc 0 0 0 0
  prefetch_label_ := Blob.alloc 0 0 0 0
  is_datum_set_up_ := false
  prefetch_rng_ := none
  rand_ := exRand
  seed_ := exRand
  reads_ := 0

/-- A layer set up for one-pixel images with the given configuration, list
and cursor, before any producer run. -/
def exLayer (param : ImageDataParameter Int) (lines : List Entry) (cursor : Nat) :
    ImageDataLayer Int where
  layer_param_ := param
  lines_ := lines
  lines_id_ := cursor
  datum_channels_ := 1
  datum_height_ := 1
  datum_width_ := 1
  datum_size_ := 1
  data_mean_ := Blob.alloc 1 1 1 1
  prefetch_data_ := Blob.alloc param.batch_size 1 1 1
  prefetch_label_ := Blob.alloc param.batch_size 1 1 1
  is_datum_set_up_ := true
  prefetch_rng_ := none
  rand_ := exRand
  seed_ := exRand
  reads_ := 0

/-- An already decoded image is handed over as the datum it converts to. -/
instance : Inhabited (Datum Int) := ⟨⟨0, 0, 0, [], fun _ => 0, 0⟩⟩

/-- Two one-pixel images with the bytes 50 and 90. -/
def exImages : List (Datum Int) :=
  [⟨1, 1, 1, [50], fun _ => 0, 0⟩, ⟨1, 1, 1, [90], fun _ => 0, 0⟩]

/-- The configuration of the ad-hoc injection scenario: no manifest source,
batch size 4. -/
def exParamAdHoc : ImageDataParameter Int :=
  { exParam with source := none, batch_size := 4 }

/-- A manifest whose second file cannot be decoded. -/
def exListBad : List Entry := [("a.jpg", 1), ("bad.jpg", 2), ("c.jpg", 0)]

/-- A layer with batch size 3 on the list `exListBad`, cursor 0, whose
prefetch buffers hold the samples 77 and the labels 88 of an earlier run. -/
def exLayerStale : ImageDataLayer Int :=
  { exLayer { exParam with batch_size := 3 } exListBad 0 with
    prefetch_data_ := ⟨3, 1, 1, 1, fun _ => 77⟩
    prefetch_label_ := ⟨3, 1, 1, 1, fun _ => 88⟩ }

/-- The cursor of a layer that a call returned. -/
def cursorOf {D : Type} (r : Except Failure (ImageDataLayer D)) : Option Nat :=
  match r with
  | Except.ok layer => some layer.lines_id_
  | Except.error _ => none

/-- The label tensor a call of `Forward_cpu` returned. -/
def labelsOf {D : Type} (r : Except Failure ((List D × List D) × ImageDataLayer D)) :
    Option (List D) :=
  match r with
  | Except.ok out => some out.1.2
  | Except.error _ => none

/-- The layer after a call of `Forward_cpu`, when it returned. -/
def layerOf {D : Type} (r : Except Failure ((List D × List D) × ImageDataLayer D)) :
    Except Failure (ImageDataLayer D) :=
  match r with
  | Except.ok out => Except.ok out.2
  | Except.error e => Except.error e

end Examples

/-! ## Loops that store into a buffer -/

section Loops

variable {D : Type}

theorem Buf.write_same (buf : Buf D) (i : Nat) (v : D) : buf.write i v i = v := by
  simp [Buf.write]

theorem Buf.write_other (buf : Buf D) {i k : Nat} (v : D) (h : k ≠ i) :
    buf.write i v k = buf k := by
  simp [Buf.write, h]

theorem Buf.write_write (buf : Buf D) (i : Nat) (v w : D) :
    (buf.write i w).write i v = buf.write i v := by
  funext k
  unfold Buf.write
  split <;> rfl

/-- A loop none of whose iterations stores at `k` leaves `k` as it was. -/
theorem range_foldl_keep (body : Buf D → Nat → Buf D) (k : Nat) :
    ∀ (n : Nat), (∀ i, i < n → ∀ td, body td i k = td k) →
      ∀ td, (List.range n).foldl body td k = td k := by
  intro n
  induction n with
  | zero => intro _ td; rfl
  | succ n ih =>
    intro h td
    rw [List.range_succ, List.foldl_append]
    simp only [List.foldl_cons, List.foldl_nil]
    rw [h n (Nat.lt_succ_self n)]
    exact ih (fun i hi => h i (Nat.lt_succ_of_lt hi)) td

/-- A loop whose iteration `i0` stores `v` at `k`, and whose later iterations
do not store at `k`, leaves `v` at `k`. -/
theorem range_foldl_set (body : Buf D → Nat → Buf D) (k i0 : Nat) (v : D)
    (hset : ∀ td, body td i0 k = v) :
    ∀ (n : Nat), i0 < n → (∀ i, i0 < i → i < n → ∀ td, body td i k = td k) →
      ∀ td, (List.range n).foldl body td k = v := by
  intro n
  induction n with
  | zero => intro h; exact absurd h (Nat.not_lt_zero _)
  | succ n ih =>
    intro hi hkeep td
    rw [List.range_succ, List.foldl_append]
    simp only [List.foldl_cons, List.foldl_nil]
    by_cases hn : i0 = n
    · subst hn
      exact hset _
    · have hlt : i0 < n := by omega
      rw [hkeep n hlt (Nat.lt_succ_self n)]
      exact ih hlt (fun i h1 h2 => hkeep i h1 (Nat.lt_succ_of_lt h2)) td

theorem loop3_keep (n1 n2 n3 : Nat) (idx : Nat → Nat → Nat → Nat)
    (val : Nat → Nat → Nat → D) (k : Nat)
    (hk : ∀ c h w, c < n1 → h < n2 → w < n3 → idx c h w ≠ k) (td : Buf D) :
    loop3 n1 n2 n3 idx val td k = td k := by
  unfold loop3
  apply range_foldl_keep
  intro c hc td
  apply range_foldl_keep
  intro h hh td
  apply range_foldl_keep
  intro w hw td
  exact Buf.write_other _ _ (Ne.symm (hk c h w hc hh hw))

theorem loop3_set (n1 n2 n3 : Nat) (idx : Nat → Nat → Nat → Nat)
    (val : Nat → Nat → Nat → D) (c0 h0 w0 : Nat) (hc0 : c0 < n1) (hh0 : h0 < n2)
    (hw0 : w0 < n3)
    (hinj : ∀ c h w, c < n1 → h < n2 → w < n3 → idx c h w = idx c0 h0 w0 →
      c = c0 ∧ h = h0 ∧ w = w0) (td : Buf D) :
    loop3 n1 n2 n3 idx val td (idx c0 h0 w0) = val c0 h0 w0 := by
  unfold loop3
  refine range_foldl_set _ _ c0 _ ?_ n1 hc0 ?_ td
  · intro td
    refine range_foldl_set _ _ h0 _ ?_ n2 hh0 ?_ td
    · intro td
      refine range_foldl_set _ _ w0 _ ?_ n3 hw0 ?_ td
      · intro td
        exact Buf.write_same _ _ _
      · intro w hlt hw td
        apply Buf.write_other
        intro he
        have := hinj c0 h0 w hc0 hh0 hw he.symm
        omega
    · intro h hlt hh td
      apply range_foldl_keep
      intro w hw td
      apply Buf.write_other
      intro he
      have := hinj c0 h w hc0 hh hw he.symm
      omega
  · intro c hlt hc td
    apply range_foldl_keep
    intro h hh td
    apply range_foldl_keep
    intro w hw td
    apply Buf.write_other
    intro he
    have := hinj c h w hc hh hw he.symm
    omega

/-- Replacing the working members twice is replacing them once. -/
@[simp]
theorem ImageDataLayer.after_after (layer : ImageDataLayer D) (td lab : Buf D)
    (rng : Rand) (lines : List Entry) (id reads : Nat) (td' lab' : Buf D) (rng' : Rand)
    (lines' : List Entry) (id' reads' : Nat) :
    (layer.after td lab rng lines id reads).after td' lab' rng' lines' id' reads'
      = layer.after td' lab' rng' lines' id' reads' := rfl

/-- Replacing the working members by themselves changes nothing. -/
theorem ImageDataLayer.after_self (layer : ImageDataLayer D) :
    layer.after layer.prefetch_data_.cpu_data layer.prefetch_label_.cpu_data layer.rand_
      layer.lines_ layer.lines_id_ layer.reads_ = layer := rfl

/-- Row-major indices with the same stride agree only on equal coordinates. -/
theorem stride_inj {n a b a' b' : Nat} (hb : b < n) (hb' : b' < n)
    (h : a * n + b = a' * n + b') : a = a' ∧ b = b' := by
  have hn : 0 < n := by omega
  have h1 : (a * n + b) / n = a := by
    rw [Nat.mul_comm, Nat.mul_add_div hn, Nat.div_eq_of_lt hb, Nat.add_zero]
  have h2 : (a' * n + b') / n = a' := by
    rw [Nat.mul_comm, Nat.mul_add_div hn, Nat.div_eq_of_lt hb', Nat.add_zero]
  have ha : a = a' := by rw [← h1, ← h2, h]
  subst ha
  exact ⟨rfl, by omega⟩

/-- The index map of the cropped slot is injective on the crop window. -/
theorem slot_index_inj {base n c h w c0 h0 w0 : Nat} (hh : h < n) (hw : w < n)
    (hh0 : h0 < n) (hw0 : w0 < n)
    (he : ((base + c) * n + h) * n + w = ((base + c0) * n + h0) * n + w0) :
    c = c0 ∧ h = h0 ∧ w = w0 := by
  obtain ⟨h1, h2⟩ := stride_inj hw hw0 he
  obtain ⟨h3, h4⟩ := stride_inj hh hh0 h1
  exact ⟨by omega, h4, h2⟩

end Loops

section TransformLemmas

variable {D : Type} [NatCast D] [Sub D] [Mul D]

theorem copyNormal_eq_loop3 (channels height width crop_size : Nat) (mean : Buf D)
    (scale : D) (data : List Int) (item_id h_off w_off : Nat) (td : Buf D) :
    copyNormal channels height width crop_size mean scale data item_id h_off w_off td
      = loop3 channels crop_size crop_size
          (fun c h w => ((item_id * channels + c) * crop_size + h) * crop_size + w)
          (fun c h w => byteSample mean scale data
            ((c * height + h + h_off) * width + w + w_off)) td := rfl

theorem copyMirrored_eq_loop3 (channels height width crop_size : Nat) (mean : Buf D)
    (scale : D) (data : List Int) (item_id h_off w_off : Nat) (td : Buf D) :
    copyMirrored channels height width crop_size mean scale data item_id h_off w_off td
      = loop3 channels crop_size crop_size
          (fun c h w => ((item_id * channels + c) * crop_size + h) * crop_size
            + crop_size - 1 - w)
          (fun c h w => byteSample mean scale data
            ((c * height + h + h_off) * width + w + w_off)) td := rfl

/-- What the normal copy leaves at position `(c, h, w)` of slot `item_id`. -/
theorem copyNormal_at (channels height width crop_size : Nat) (mean : Buf D)
    (scale : D) (data : List Int) (item_id h_off w_off : Nat) (td : Buf D)
    {c h w : Nat} (hc : c < channels) (hh : h < crop_size) (hw : w < crop_size) :
    copyNormal channels height width crop_size mean scale data item_id h_off w_off td
        (((item_id * channels + c) * crop_size + h) * crop_size + w)
      = byteSample mean scale data ((c * height + h + h_off) * width + w + w_off) := by
  rw [copyNormal_eq_loop3]
  exact loop3_set channels crop_size crop_size
    (fun c h w => ((item_id * channels + c) * crop_size + h) * crop_size + w)
    (fun c h w => byteSample mean scale data ((c * height + h + h_off) * width + w + w_off))
    c h w hc hh hw
    (fun c1 h1 w1 _ hh1 hw1 he => slot_index_inj hh1 hw1 hh hw he) td

/-- What the mirrored copy leaves at position `(c, h, crop_size - 1 - w)` of
slot `item_id`. -/
theorem copyMirrored_at (channels height width crop_size : Nat) (mean : Buf D)
    (scale : D) (data : List Int) (item_id h_off w_off : Nat) (td : Buf D)
    {c h w : Nat} (hc : c < channels) (hh : h < crop_size) (hw : w < crop_size) :
    copyMirrored channels height width crop_size mean scale data item_id h_off w_off td
        (((item_id * channels + c) * crop_size + h) * crop_size + (crop_size - 1 - w))
      = byteSample mean scale data ((c * height + h + h_off) * width + w + w_off) := by
  rw [copyMirrored_eq_loop3]
  have hidx : ((item_id * channels + c) * crop_size + h) * crop_size + (crop_size - 1 - w)
      = (fun c h w => ((item_id * channels + c) * crop_size + h) * crop_size
            + crop_size - 1 - w) c h w := by
    show _ = ((item_id * channels + c) * crop_size + h) * crop_size + crop_size - 1 - w
    omega
  rw [hidx]
  refine loop3_set channels crop_size crop_size _ _ c h w hc hh hw ?_ td
  intro c1 h1 w1 _ hh1 hw1 he
  have he2 : ((item_id * channels + c1) * crop_size + h1) * crop_size + (crop_size - 1 - w1)
      = ((item_id * channels + c) * crop_size + h) * crop_size + (crop_size - 1 - w) := by
    have he3 : ((item_id * channels + c1) * crop_size + h1) * crop_size + crop_size - 1 - w1
      = ((item_id * channels + c) * crop_size + h) * crop_size + crop_size - 1 - w := he
    omega
  have := slot_index_inj hh1 (by omega) hh (by omega) he2
  omega

/-- What the whole-image byte copy leaves at sample `j` of slot `item_id`. -/
theorem copyBytes_at (size : Nat) (mean : Buf D) (scale : D) (data : List Int)
    (item_id : Nat) (td : Buf D) {j : Nat} (hj : j < size) :
    copyBytes size mean scale data item_id td (item_id * size + j)
      = byteSample mean scale data j := by
  unfold copyBytes
  refine range_foldl_set _ _ j _ ?_ size hj ?_ td
  · intro td
    exact Buf.write_same _ _ _
  · intro i hlt _ td
    apply Buf.write_other
    omega

/-- With a crop, valid geometry and a byte payload `ProcessImageDatum`
returns, and its result is the copy selected by the mirror coin, at the
offsets of `cropOffsets`. -/
theorem ProcessImageDatum_crop [IntCast D] (phase : Phase)
    (channels height width size crop_size : Nat) (mirror : Bool) (mean : Buf D) (scale : D)
    (datum : Datum D) (item_id : Nat) (top : Top D) (rng : Rand)
    (hcrop : 0 < crop_size) (hh : crop_size < height) (hw : crop_size < width)
    (hbytes : datum.data.length ≠ 0) :
    ProcessImageDatum phase channels height width size crop_size mirror mean scale datum
        item_id top rng
      = Except.ok
          (⟨if (mirrorCoin mirror (cropOffsets phase height width crop_size rng).2).1 then
              copyMirrored channels height width crop_size mean scale datum.data item_id
                (cropOffsets phase height width crop_size rng).1.1
                (cropOffsets phase height width crop_size rng).1.2 top.top_data
            else
              copyNormal channels height width crop_size mean scale datum.data item_id
                (cropOffsets phase height width crop_size rng).1.1
                (cropOffsets phase height width crop_size rng).1.2 top.top_data,
            top.top_label.write item_id (datum.label : D)⟩,
           (mirrorCoin mirror (cropOffsets phase height width crop_size rng).2).2) := by
  unfold ProcessImageDatum
  simp only [hcrop, hh, hw, hbytes, if_true, not_true_eq_false, if_false]

end TransformLemmas

/-! ## The transform -/

section TransformClaims

variable {D : Type} [NatCast D] [IntCast D] [Sub D] [Mul D]

/-- C4. For every image, crop size `crop > 0` and offsets, the slot `M`
written by the mirrored branch is the slot `C` written by the normal branch
with the columns reversed: `M[c, h, w] = C[c, h, crop - 1 - w]` for every
channel `c`, row `h` and column `w` of the crop. This holds for the two loops
at any common offsets, and for two calls of `ProcessImageDatum` that draw the
same offsets, one taking the mirrored and one the normal branch; both calls
return. -/
theorem ProcessImageDatum_mirror_reverses_columns (phase : Phase)
    (channels height width size crop_size : Nat) (mean : Buf D) (scale : D)
    (datum : Datum D) (item_id : Nat) (mirrorM mirrorN : Bool) (topM topN : Top D)
    (rngM rngN : Rand)
    (hcrop : 0 < crop_size) (hh : crop_size < height) (hw : crop_size < width)
    (hbytes : datum.data.length ≠ 0)
    (hoff : (cropOffsets phase height width crop_size rngM).1
      = (cropOffsets phase height width crop_size rngN).1)
    (hM : (mirrorCoin mirrorM (cropOffsets phase height width crop_size rngM).2).1 = true)
    (hN : (mirrorCoin mirrorN (cropOffsets phase height width crop_size rngN).2).1 = false) :
    (∀ (h_off w_off : Nat) (tdM tdN : Buf D) (c h w : Nat),
        c < channels → h < crop_size → w < crop_size →
        copyMirrored channels height width crop_size mean scale datum.data item_id
            h_off w_off tdM (((item_id * channels + c) * crop_size + h) * crop_size + w)
          = copyNormal channels height width crop_size mean scale datum.data item_id
              h_off w_off tdN
              (((item_id * channels + c) * crop_size + h) * crop_size + (crop_size - 1 - w)))
    ∧ ∃ (M C : Top D) (rM rN : Rand),
        ProcessImageDatum phase channels height width size crop_size mirrorM mean scale datum
            item_id topM rngM = Except.ok (M, rM)
        ∧ ProcessImageDatum phase channels height width size crop_size mirrorN mean scale
            datum item_id topN rngN = Except.ok (C, rN)
        ∧ ∀ c h w, c < channels → h < crop_size → w < crop_size →
            M.top_data (((item_id * channels + c) * crop_size + h) * crop_size + w)
              = C.top_data
                  (((item_id * channels + c) * crop_size + h) * crop_size
                    + (crop_size - 1 - w)) := by
  have key : ∀ (h_off w_off : Nat) (tdM tdN : Buf D) (c h w : Nat),
      c < channels → h < crop_size → w < crop_size →
      copyMirrored channels height width crop_size mean scale datum.data item_id
          h_off w_off tdM (((item_id * channels + c) * crop_size + h) * crop_size + w)
        = copyNormal channels height width crop_size mean scale datum.data item_id
            h_off w_off tdN
            (((item_id * channels + c) * crop_size + h) * crop_size + (crop_size - 1 - w)) := by
    intro h_off w_off tdM tdN c h w hc hh1 hw1
    have hw2 : crop_size - 1 - w < crop_size := by omega
    have h1 := copyMirrored_at channels height width crop_size mean scale datum.data item_id
      h_off w_off tdM hc hh1 hw2
    have h2 := copyNormal_at channels height width crop_size mean scale datum.data item_id
      h_off w_off tdN hc hh1 hw2
    have hww : crop_size - 1 - (crop_size - 1 - w) = w := by omega
    rw [hww] at h1
    rw [h1, h2]
  refine ⟨key, _, _, _, _,
    ProcessImageDatum_crop phase channels height width size crop_size mirrorM mean scale
      datum item_id topM rngM hcrop hh hw hbytes,
    ProcessImageDatum_crop phase channels height width size crop_size mirrorN mean scale
      datum item_id topN rngN hcrop hh hw hbytes, ?_⟩
  intro c h w hc hh1 hw1
  simp only [hM, hN, if_true, Bool.false_eq_true, if_false, hoff]
  exact key _ _ _ _ c h w hc hh1 hw1

/-- The statement of C4 on the 4 x 4 image `exDatum4` with a 2 x 2 crop in the
training phase, both calls on the draws 5, 6, 7: the offsets are (1, 0), and
the call with the mirror flag set draws the odd coin 7. -/
theorem ProcessImageDatum_mirror_reverses_columns_witness :
    (∀ (h_off w_off : Nat) (tdM tdN : Buf Int) (c h w : Nat), c < 1 → h < 2 → w < 2 →
        copyMirrored 1 4 4 2 exMean 2 exDatum4.data 1 h_off w_off tdM
            (((1 * 1 + c) * 2 + h) * 2 + w)
          = copyNormal 1 4 4 2 exMean 2 exDatum4.data 1 h_off w_off tdN
              (((1 * 1 + c) * 2 + h) * 2 + (2 - 1 - w)))
    ∧ ∃ (M C : Top Int) (rM rN : Rand),
        ProcessImageDatum Phase.TRAIN 1 4 4 16 2 true exMean 2 exDatum4 1 exTop exRand
          = Except.ok (M, rM)
        ∧ ProcessImageDatum Phase.TRAIN 1 4 4 16 2 false exMean 2 exDatum4 1 exTop exRand
          = Except.ok (C, rN)
        ∧ ∀ c h w, c < 1 → h < 2 → w < 2 →
            M.top_data (((1 * 1 + c) * 2 + h) * 2 + w)
              = C.top_data (((1 * 1 + c) * 2 + h) * 2 + (2 - 1 - w)) :=
  ProcessImageDatum_mirror_reverses_columns Phase.TRAIN 1 4 4 16 2 exMean 2 exDatum4 1
    true false exTop exTop exRand exRand (by decide) (by decide) (by decide) (by decide)
    rfl (by decide) rfl

/-- C6. With a crop and valid geometry, in the evaluation phase
`ProcessImageDatum` uses the offsets `(height - crop) / 2` and
`(width - crop) / 2` whatever the random draws are, and takes no draw for
them; in the training phase it uses the first draw modulo `height - crop`
and the second modulo `width - crop`, which lie below `height - crop` and
`width - crop`. -/
theorem ProcessImageDatum_crop_offsets (channels height width size crop_size : Nat)
    (mirror : Bool) (mean : Buf D) (scale : D) (datum : Datum D) (item_id : Nat)
    (top : Top D)
    (hcrop : 0 < crop_size) (hh : crop_size < height) (hw : crop_size < width)
    (hbytes : datum.data.length ≠ 0) :
    (∀ rng : Rand,
      cropOffsets Phase.TEST height width crop_size rng
        = (((height - crop_size) / 2, (width - crop_size) / 2), rng)
      ∧ ProcessImageDatum Phase.TEST channels height width size crop_size mirror mean scale
          datum item_id top rng
        = Except.ok
          (⟨if (mirrorCoin mirror rng).1 then
              copyMirrored channels height width crop_size mean scale datum.data item_id
                ((height - crop_size) / 2) ((width - crop_size) / 2) top.top_data
            else
              copyNormal channels height width crop_size mean scale datum.data item_id
                ((height - crop_size) / 2) ((width - crop_size) / 2) top.top_data,
            top.top_label.write item_id (datum.label : D)⟩, (mirrorCoin mirror rng).2))
    ∧ (∀ rng : Rand,
      cropOffsets Phase.TRAIN height width crop_size rng
        = ((rng 0 % (height - crop_size), rng 1 % (width - crop_size)),
            fun n => rng (n + 1 + 1))
      ∧ rng 0 % (height - crop_size) < height - crop_size
      ∧ rng 1 % (width - crop_size) < width - crop_size
      ∧ ProcessImageDatum Phase.TRAIN channels height width size crop_size mirror mean scale
          datum item_id top rng
        = Except.ok
          (⟨if (mirrorCoin mirror (fun n => rng (n + 1 + 1))).1 then
              copyMirrored channels height width crop_size mean scale datum.data item_id
                (rng 0 % (height - crop_size)) (rng 1 % (width - crop_size)) top.top_data
            else
              copyNormal channels height width crop_size mean scale datum.data item_id
                (rng 0 % (height - crop_size)) (rng 1 % (width - crop_size)) top.top_data,
            top.top_label.write item_id (datum.label : D)⟩,
           (mirrorCoin mirror (fun n => rng (n + 1 + 1))).2)) := by
  refine ⟨fun rng => ⟨rfl, ?_⟩, fun rng => ⟨rfl, ?_, ?_, ?_⟩⟩
  · exact ProcessImageDatum_crop Phase.TEST channels height width size crop_size mirror mean
      scale datum item_id top rng hcrop hh hw hbytes
  · exact Nat.mod_lt _ (by omega)
  · exact Nat.mod_lt _ (by omega)
  · exact ProcessImageDatum_crop Phase.TRAIN channels height width size crop_size mirror mean
      scale datum item_id top rng hcrop hh hw hbytes


/-- The statement of C6 on the 4 x 4 image `exDatum4` with a 2 x 2 crop: the
centered offsets are (1, 1). -/
theorem ProcessImageDatum_crop_offsets_witness :
    (∀ rng : Rand,
      cropOffsets Phase.TEST 4 4 2 rng = (((4 - 2) / 2, (4 - 2) / 2), rng)
      ∧ ProcessImageDatum Phase.TEST 1 4 4 16 2 true exMean 2 exDatum4 1 exTop rng
        = Except.ok
          (⟨if (mirrorCoin true rng).1 then
              copyMirrored 1 4 4 2 exMean 2 exDatum4.data 1 ((4 - 2) / 2) ((4 - 2) / 2)
                exTop.top_data
            else
              copyNormal 1 4 4 2 exMean 2 exDatum4.data 1 ((4 - 2) / 2) ((4 - 2) / 2)
                exTop.top_data,
            exTop.top_label.write 1 (exDatum4.label : Int)⟩, (mirrorCoin true rng).2))
    ∧ (∀ rng : Rand,
      cropOffsets Phase.TRAIN 4 4 2 rng
        = ((rng 0 % (4 - 2), rng 1 % (4 - 2)), fun n => rng (n + 1 + 1))
      ∧ rng 0 % (4 - 2) < 4 - 2
      ∧ rng 1 % (4 - 2) < 4 - 2
      ∧ ProcessImageDatum Phase.TRAIN 1 4 4 16 2 true exMean 2 exDatum4 1 exTop rng
        = Except.ok
          (⟨if (mirrorCoin true (fun n => rng (n + 1 + 1))).1 then
              copyMirrored 1 4 4 2 exMean 2 exDatum4.data 1 (rng 0 % (4 - 2))
                (rng 1 % (4 - 2)) exTop.top_data
            else
              copyNormal 1 4 4 2 exMean 2 exDatum4.data 1 (rng 0 % (4 - 2))
                (rng 1 % (4 - 2)) exTop.top_data,
            exTop.top_label.write 1 (exDatum4.label : Int)⟩,
           (mirrorCoin true (fun n => rng (n + 1 + 1))).2)) :=
  ProcessImageDatum_crop_offsets 1 4 4 16 2 true exMean 2 exDatum4 1 exTop
    (by decide) (by decide) (by decide) (by decide)

end TransformClaims

/-! ## Batch slots -/

section Slots

variable {D : Type} [NatCast D] [Sub D] [Mul D]

/-- Every index the cropped copies store at lies at or above the start of the
slot. -/
theorem slot_index_ge (item_id channels n c h w : Nat) :
    item_id * (channels * n * n) ≤ ((item_id * channels + c) * n + h) * n + w := by
  have h1 : item_id * channels * n ≤ (item_id * channels + c) * n + h :=
    Nat.le_trans (Nat.mul_le_mul_right n (Nat.le_add_right _ c)) (Nat.le_add_right _ h)
  have h2 : item_id * channels * n * n ≤ ((item_id * channels + c) * n + h) * n :=
    Nat.mul_le_mul_right n h1
  have h3 : item_id * (channels * n * n) = item_id * channels * n * n := by
    simp only [Nat.mul_assoc]
  omega

/-- Every index of a slot is the index of one position of the crop window. -/
theorem slot_index_cover (item_id channels n k : Nat)
    (hlo : item_id * (channels * n * n) ≤ k) (hhi : k < (item_id + 1) * (channels * n * n)) :
    ∃ c h w, c < channels ∧ h < n ∧ w < n ∧ k = ((item_id * channels + c) * n + h) * n + w := by
  have hn : 0 < n := by
    rcases Nat.eq_zero_or_pos n with h0 | h0
    · subst h0
      simp at hhi
    · exact h0
  have hlo' : item_id * channels * n * n ≤ k := by
    simpa only [Nat.mul_assoc] using hlo
  have hhi' : k < (item_id + 1) * channels * n * n := by
    simpa only [Nat.mul_assoc] using hhi
  have hq1 : item_id * channels * n ≤ k / n := (Nat.le_div_iff_mul_le hn).mpr hlo'
  have hq2 : k / n < (item_id + 1) * channels * n := (Nat.div_lt_iff_lt_mul hn).mpr hhi'
  have hc1 : item_id * channels ≤ k / n / n := (Nat.le_div_iff_mul_le hn).mpr hq1
  have hc2 : k / n / n < (item_id + 1) * channels := (Nat.div_lt_iff_lt_mul hn).mpr hq2
  have hsucc : (item_id + 1) * channels = item_id * channels + channels := Nat.succ_mul _ _
  refine ⟨k / n / n - item_id * channels, k / n % n, k % n, by omega, Nat.mod_lt _ hn,
    Nat.mod_lt _ hn, ?_⟩
  have hcc : item_id * channels + (k / n / n - item_id * channels) = k / n / n := by omega
  rw [hcc]
  have e1 : k / n / n * n + k / n % n = k / n := by
    rw [Nat.mul_comm]
    exact Nat.div_add_mod (k / n) n
  rw [e1, Nat.mul_comm]
  exact (Nat.div_add_mod k n).symm

theorem copyNormal_below (channels height width crop_size : Nat) (mean : Buf D)
    (scale : D) (data : List Int) (item_id h_off w_off : Nat) (td : Buf D) {k : Nat}
    (hk : k < item_id * (channels * crop_size * crop_size)) :
    copyNormal channels height width crop_size mean scale data item_id h_off w_off td k
      = td k := by
  rw [copyNormal_eq_loop3]
  apply loop3_keep
  intro c h w _ _ _
  have := slot_index_ge item_id channels crop_size c h w
  show ((item_id * channels + c) * crop_size + h) * crop_size + w ≠ k
  omega

theorem copyMirrored_below (channels height width crop_size : Nat) (mean : Buf D)
    (scale : D) (data : List Int) (item_id h_off w_off : Nat) (td : Buf D) {k : Nat}
    (hk : k < item_id * (channels * crop_size * crop_size)) :
    copyMirrored channels height width crop_size mean scale data item_id h_off w_off td k
      = td k := by
  rw [copyMirrored_eq_loop3]
  apply loop3_keep
  intro c h w _ _ hw
  have := slot_index_ge item_id channels crop_size c h 0
  show ((item_id * channels + c) * crop_size + h) * crop_size + crop_size - 1 - w ≠ k
  omega

theorem copyBytes_below (size : Nat) (mean : Buf D) (scale : D) (data : List Int)
    (item_id : Nat) (td : Buf D) {k : Nat} (hk : k < item_id * size) :
    copyBytes size mean scale data item_id td k = td k := by
  unfold copyBytes
  apply range_foldl_keep
  intro j _ td
  apply Buf.write_other
  omega

omit [NatCast D] in
theorem copyFloats_below (size : Nat) (mean : Buf D) (scale : D) (float_data : Nat → D)
    (item_id : Nat) (td : Buf D) {k : Nat} (hk : k < item_id * size) :
    copyFloats size mean scale float_data item_id td k = td k := by
  unfold copyFloats
  apply range_foldl_keep
  intro j _ td
  apply Buf.write_other
  omega

omit [NatCast D] in
/-- What the whole-image float copy leaves at sample `j` of slot `item_id`. -/
theorem copyFloats_at (size : Nat) (mean : Buf D) (scale : D) (float_data : Nat → D)
    (item_id : Nat) (td : Buf D) {j : Nat} (hj : j < size) :
    copyFloats size mean scale float_data item_id td (item_id * size + j)
      = (float_data j - mean j) * scale := by
  unfold copyFloats
  refine range_foldl_set _ _ j _ ?_ size hj ?_ td
  · intro td
    exact Buf.write_same _ _ _
  · intro i hlt _ td
    apply Buf.write_other
    omega

/-- The normal copy determines the whole slot: two destination buffers agree
on it afterwards. -/
theorem copyNormal_slot (channels height width crop_size : Nat) (mean : Buf D)
    (scale : D) (data : List Int) (item_id h_off w_off : Nat) (td td' : Buf D) {k : Nat}
    (hlo : item_id * (channels * crop_size * crop_size) ≤ k)
    (hhi : k < (item_id + 1) * (channels * crop_size * crop_size)) :
    copyNormal channels height width crop_size mean scale data item_id h_off w_off td' k
      = copyNormal channels height width crop_size mean scale data item_id h_off w_off td k := by
  obtain ⟨c, h, w, hc, hh, hw, rfl⟩ := slot_index_cover item_id channels crop_size k hlo hhi
  rw [copyNormal_at _ _ _ _ _ _ _ _ _ _ td' hc hh hw,
    copyNormal_at _ _ _ _ _ _ _ _ _ _ td hc hh hw]

/-- The mirrored copy determines the whole slot. -/
theorem copyMirrored_slot (channels height width crop_size : Nat) (mean : Buf D)
    (scale : D) (data : List Int) (item_id h_off w_off : Nat) (td td' : Buf D) {k : Nat}
    (hlo : item_id * (channels * crop_size * crop_size) ≤ k)
    (hhi : k < (item_id + 1) * (channels * crop_size * crop_size)) :
    copyMirrored channels height width crop_size mean scale data item_id h_off w_off td' k
      = copyMirrored channels height width crop_size mean scale data item_id h_off w_off td k := by
  obtain ⟨c, h, w, hc, hh, hw, rfl⟩ := slot_index_cover item_id channels crop_size k hlo hhi
  have hw2 : crop_size - 1 - w < crop_size := by omega
  have hww : crop_size - 1 - (crop_size - 1 - w) = w := by omega
  have h1 := copyMirrored_at channels height width crop_size mean scale data item_id
    h_off w_off td' hc hh hw2
  have h2 := copyMirrored_at channels height width crop_size mean scale data item_id
    h_off w_off td hc hh hw2
  rw [hww] at h1 h2
  rw [h1, h2]

/-- The whole-image copies determine the whole slot. -/
theorem copyBytes_slot (size : Nat) (mean : Buf D) (scale : D) (data : List Int)
    (item_id : Nat) (td td' : Buf D) {k : Nat} (hlo : item_id * size ≤ k)
    (hhi : k < (item_id + 1) * size) :
    copyBytes size mean scale data item_id td' k = copyBytes size mean scale data item_id td k := by
  have hsucc : (item_id + 1) * size = item_id * size + size := Nat.succ_mul _ _
  have hk : k = item_id * size + (k - item_id * size) := by omega
  rw [hk, copyBytes_at size mean scale data item_id td' (by omega),
    copyBytes_at size mean scale data item_id td (by omega)]

omit [NatCast D] in
theorem copyFloats_slot (size : Nat) (mean : Buf D) (scale : D) (float_data : Nat → D)
    (item_id : Nat) (td td' : Buf D) {k : Nat} (hlo : item_id * size ≤ k)
    (hhi : k < (item_id + 1) * size) :
    copyFloats size mean scale float_data item_id td' k
      = copyFloats size mean scale float_data item_id td k := by
  have hsucc : (item_id + 1) * size = item_id * size + size := Nat.succ_mul _ _
  have hk : k = item_id * size + (k - item_id * size) := by omega
  rw [hk, copyFloats_at size mean scale float_data item_id td' (by omega),
    copyFloats_at size mean scale float_data item_id td (by omega)]

/-- Whenever the crop checks pass, `ProcessImageDatum` returns; it stores the
label at `item_id`, leaves the data below slot `item_id` as it was, and what
it leaves in slot `item_id` does not depend on the destination buffers it is
given. -/
theorem ProcessImageDatum_slot [IntCast D] (phase : Phase)
    (channels height width size crop_size : Nat) (mirror : Bool) (mean : Buf D) (scale : D)
    (datum : Datum D) (item_id : Nat) (top : Top D) (rng : Rand)
    (hgeo : 0 < crop_size → crop_size < height ∧ crop_size < width ∧ datum.data.length ≠ 0) :
    ∃ (td : Buf D) (rng' : Rand),
      ProcessImageDatum phase channels height width size crop_size mirror mean scale datum
          item_id top rng
        = Except.ok (⟨td, top.top_label.write item_id (datum.label : D)⟩, rng')
      ∧ (∀ k, k < item_id * slotSize channels size crop_size → td k = top.top_data k)
      ∧ ∀ top' : Top D, ∃ td' : Buf D,
          ProcessImageDatum phase channels height width size crop_size mirror mean scale datum
              item_id top' rng
            = Except.ok (⟨td', top'.top_label.write item_id (datum.label : D)⟩, rng')
          ∧ ∀ k, item_id * slotSize channels size crop_size ≤ k →
              k < (item_id + 1) * slotSize channels size crop_size → td' k = td k := by
  by_cases hc : 0 < crop_size
  · obtain ⟨h1, h2, h3⟩ := hgeo hc
    have hS : slotSize channels size crop_size = channels * crop_size * crop_size := by
      simp [slotSize, hc]
    rw [hS]
    refine ⟨_, _, ProcessImageDatum_crop phase channels height width size crop_size mirror mean
      scale datum item_id top rng hc h1 h2 h3, ?_, ?_⟩
    · intro k hk
      split
      · exact copyMirrored_below _ _ _ _ _ _ _ _ _ _ _ hk
      · exact copyNormal_below _ _ _ _ _ _ _ _ _ _ _ hk
    · intro top'
      refine ⟨_, ProcessImageDatum_crop phase channels height width size crop_size mirror mean
        scale datum item_id top' rng hc h1 h2 h3, ?_⟩
      intro k hlo hhi
      split
      · exact copyMirrored_slot _ _ _ _ _ _ _ _ _ _ _ _ hlo hhi
      · exact copyNormal_slot _ _ _ _ _ _ _ _ _ _ _ _ hlo hhi
  · have hS : slotSize channels size crop_size = size := by
      simp [slotSize, hc]
    rw [hS]
    have hrun : ∀ t : Top D,
        ProcessImageDatum phase channels height width size crop_size mirror mean scale datum
          item_id t rng
        = Except.ok (⟨if datum.data.length ≠ 0 then
              copyBytes size mean scale datum.data item_id t.top_data
            else copyFloats size mean scale datum.float_data item_id t.top_data,
            t.top_label.write item_id (datum.label : D)⟩, rng) := by
      intro t
      unfold ProcessImageDatum
      simp only [hc, if_false]
    refine ⟨_, _, hrun top, ?_, ?_⟩
    · intro k hk
      split
      · exact copyBytes_below _ _ _ _ _ _ hk
      · exact copyFloats_below _ _ _ _ _ _ hk
    · intro top'
      refine ⟨_, hrun top', ?_⟩
      intro k hlo hhi
      split
      · exact copyBytes_slot _ _ _ _ _ _ _ hlo hhi
      · exact copyFloats_slot _ _ _ _ _ _ _ hlo hhi

end Slots

/-! ## The producer -/

section Producer

variable {D : Type} [NatCast D] [IntCast D] [Sub D] [Mul D]

theorem Except.ok_bind {ε α β : Type} (x : α) (f : α → Except ε β) :
    (Except.ok x >>= f) = f x := rfl

theorem Except.error_bind {ε α β : Type} (e : ε) (f : α → Except ε β) :
    ((Except.error e : Except ε α) >>= f) = Except.error e := rfl

/-- Whenever the crop checks pass, `ProcessImageDatum` returns, and its label
buffer is the one it was given with the label stored at `item_id`. -/
theorem ProcessImageDatum_ok (phase : Phase) (channels height width size crop_size : Nat)
    (mirror : Bool) (mean : Buf D) (scale : D) (datum : Datum D) (item_id : Nat)
    (top : Top D) (rng : Rand)
    (hgeo : 0 < crop_size → crop_size < height ∧ crop_size < width ∧ datum.data.length ≠ 0) :
    ∃ (td : Buf D) (rng' : Rand),
      ProcessImageDatum phase channels height width size crop_size mirror mean scale datum
          item_id top rng
        = Except.ok (⟨td, top.top_label.write item_id (datum.label : D)⟩, rng') := by
  by_cases hc : 0 < crop_size
  · obtain ⟨h1, h2, h3⟩ := hgeo hc
    exact ⟨_, _, ProcessImageDatum_crop phase channels height width size crop_size mirror mean
      scale datum item_id top rng hc h1 h2 h3⟩
  · refine ⟨if datum.data.length ≠ 0 then
        copyBytes size mean scale datum.data item_id top.top_data
      else copyFloats size mean scale datum.float_data item_id top.top_data, rng, ?_⟩
    unfold ProcessImageDatum
    simp only [hc, if_false]

/-- The effect of a loop iteration whose decode succeeds: the slot is filled,
the label of the list entry under the cursor is stored, the cursor advances
and wraps, and the list is reshuffled at most on a wrap with shuffle on. -/
theorem prefetchItem_fill (env : Env D) (lines_size : Nat) (layer : ImageDataLayer D)
    (item_id : Nat) (d : Datum D)
    (hid : layer.lines_id_ < lines_size)
    (hdec : env.imread layer.reads_ (layer.lines_.getD layer.lines_id_ ("", 0)).1
      layer.layer_param_.new_height layer.layer_param_.new_width
      layer.layer_param_.images_in_color = some d)
    (hgeo : 0 < layer.layer_param_.crop_size →
      layer.layer_param_.crop_size < layer.datum_height_
      ∧ layer.layer_param_.crop_size < layer.datum_width_ ∧ d.data.length ≠ 0) :
    ∃ (td : Buf D) (rng : Rand) (lines : List Entry),
      prefetchItem env lines_size layer item_id
        = Except.ok (layer.after td
            (layer.prefetch_label_.cpu_data.write item_id
              (((layer.lines_.getD layer.lines_id_ ("", 0)).2 : Int) : D))
            rng lines ((layer.lines_id_ + 1) % lines_size) (layer.reads_ + 1))
      ∧ (lines = layer.lines_
          ∨ (layer.layer_param_.shuffle = true ∧ layer.lines_id_ + 1 = lines_size
              ∧ ∃ r, lines = (env.random_shuffle r layer.lines_).1)) := by
  obtain ⟨td, rng', hpid⟩ := ProcessImageDatum_ok env.phase layer.datum_channels_
    layer.datum_height_ layer.datum_width_ layer.datum_size_ layer.layer_param_.crop_size
    layer.layer_param_.mirror layer.data_mean_.cpu_data layer.layer_param_.scale
    ({ d with label := (layer.lines_.getD layer.lines_id_ ("", 0)).2 } : Datum D) item_id
    ⟨layer.prefetch_data_.cpu_data, layer.prefetch_label_.cpu_data⟩ layer.rand_ hgeo
  unfold prefetchItem ImageDataLayer.after
  simp only [hid, not_true_eq_false, if_false, ReadImageToDatum, hdec, Option.map_some', hpid,
    Buf.write_write]
  by_cases hwrap : lines_size ≤ layer.lines_id_ + 1
  · have hmod : (layer.lines_id_ + 1) % lines_size = 0 := by
      have : layer.lines_id_ + 1 = lines_size := by omega
      rw [this, Nat.mod_self]
    simp only [hwrap, if_true, hmod]
    by_cases hsh : layer.layer_param_.shuffle = true
    · simp only [hsh, if_true]
      exact ⟨td, _, _, rfl, Or.inr ⟨trivial, by omega, rng', rfl⟩⟩
    · simp only [hsh, Bool.false_eq_true, if_false]
      exact ⟨td, _, _, rfl, Or.inl rfl⟩
  · have hmod : (layer.lines_id_ + 1) % lines_size = layer.lines_id_ + 1 :=
      Nat.mod_eq_of_lt (by omega)
    simp only [hwrap, if_false, hmod]
    exact ⟨td, _, _, rfl, Or.inl rfl⟩

/-- The effect of a loop iteration whose decode fails: only the decoder call
is counted. -/
theorem prefetchItem_skip (env : Env D) (lines_size : Nat) (layer : ImageDataLayer D)
    (item_id : Nat) (hid : layer.lines_id_ < lines_size)
    (hdec : env.imread layer.reads_ (layer.lines_.getD layer.lines_id_ ("", 0)).1
      layer.layer_param_.new_height layer.layer_param_.new_width
      layer.layer_param_.images_in_color = none) :
    prefetchItem env lines_size layer item_id
      = Except.ok (layer.after layer.prefetch_data_.cpu_data layer.prefetch_label_.cpu_data
          layer.rand_ layer.lines_ layer.lines_id_ (layer.reads_ + 1)) := by
  unfold prefetchItem ImageDataLayer.after
  simp only [hid, not_true_eq_false, if_false, ReadImageToDatum, hdec, Option.map_none']

/-- Every loop iteration that returns leaves the list as it was or as
`std::random_shuffle` returned it. -/
theorem prefetchItem_lines (env : Env D) (lines_size : Nat) (layer layer' : ImageDataLayer D)
    (item_id : Nat) (h : prefetchItem env lines_size layer item_id = Except.ok layer') :
    layer'.lines_ = layer.lines_
      ∨ ∃ r, layer'.lines_ = (env.random_shuffle r layer.lines_).1 := by
  by_cases hid : layer.lines_id_ < lines_size
  · cases hdec : env.imread layer.reads_ (layer.lines_.getD layer.lines_id_ ("", 0)).1
        layer.layer_param_.new_height layer.layer_param_.new_width
        layer.layer_param_.images_in_color with
    | none =>
      rw [prefetchItem_skip env lines_size layer item_id hid hdec] at h
      injection h with h
      subst h
      exact Or.inl rfl
    | some d =>
      by_cases hgeo : 0 < layer.layer_param_.crop_size →
          layer.layer_param_.crop_size < layer.datum_height_
          ∧ layer.layer_param_.crop_size < layer.datum_width_ ∧ d.data.length ≠ 0
      · obtain ⟨td, rng, lines, heq, hl⟩ :=
          prefetchItem_fill env lines_size layer item_id d hid hdec hgeo
        rw [heq] at h
        injection h with h
        subst h
        rcases hl with hl | ⟨_, _, r, hr⟩
        · exact Or.inl hl
        · exact Or.inr ⟨r, hr⟩
      · exfalso
        have hc : 0 < layer.layer_param_.crop_size := by
          by_contra hn
          exact hgeo (fun h0 => absurd h0 hn)
        unfold prefetchItem ProcessImageDatum at h
        simp only [hid, not_true_eq_false, if_false, ReadImageToDatum, hdec, Option.map_some',
          hc, if_true] at h
        by_cases h1 : layer.layer_param_.crop_size < layer.datum_height_
        · by_cases h2 : layer.layer_param_.crop_size < layer.datum_width_
          · by_cases h3 : d.data.length = 0
            · simp [h1, h2, h3] at h
            · exact hgeo (fun _ => ⟨h1, h2, h3⟩)
          · simp [h1, h2] at h
        · simp [h1] at h
  · unfold prefetchItem at h
    simp [hid] at h


/-- A run of loop iterations with shuffle off whose decodes all succeed: the
list is kept, the cursor has advanced by the number of iterations modulo the
list length, and label slot `i` holds the label of entry `(p + i) mod L`. -/
theorem prefetch_labels (env : Env D) (lines_size : Nat) (layer : ImageDataLayer D)
    (hsh : layer.layer_param_.shuffle = false) (hp : layer.lines_id_ < lines_size)
    (hgeo : 0 < layer.layer_param_.crop_size →
      layer.layer_param_.crop_size < layer.datum_height_
      ∧ layer.layer_param_.crop_size < layer.datum_width_) :
    ∀ k : Nat,
      (∀ i, i < k → ∃ d : Datum D,
        env.imread (layer.reads_ + i)
            (layer.lines_.getD ((layer.lines_id_ + i) % lines_size) ("", 0)).1
            layer.layer_param_.new_height layer.layer_param_.new_width
            layer.layer_param_.images_in_color = some d
          ∧ (0 < layer.layer_param_.crop_size → d.data.length ≠ 0)) →
      ∃ (td lab : Buf D) (rng : Rand),
        (List.range k).foldlM (prefetchItem env lines_size) layer
          = Except.ok (layer.after td lab rng layer.lines_
              ((layer.lines_id_ + k) % lines_size) (layer.reads_ + k))
        ∧ (∀ i, i < k → lab i
            = (((layer.lines_.getD ((layer.lines_id_ + i) % lines_size) ("", 0)).2 : Int) : D))
        ∧ (∀ i, k ≤ i → lab i = layer.prefetch_label_.cpu_data i) := by
  intro k
  induction k with
  | zero =>
    intro _
    refine ⟨layer.prefetch_data_.cpu_data, layer.prefetch_label_.cpu_data, layer.rand_, ?_,
      fun i hi => absurd hi (Nat.not_lt_zero i), fun i _ => rfl⟩
    simp only [List.range_zero, List.foldlM_nil, Nat.add_zero, Nat.mod_eq_of_lt hp]
    rfl
  | succ k ih =>
    intro hdec
    obtain ⟨td, lab, rng, hrun, hlab, hrest⟩ := ih (fun i hi => hdec i (Nat.lt_succ_of_lt hi))
    obtain ⟨d, hd, hbytes⟩ := hdec k (Nat.lt_succ_self k)
    have hL : 0 < lines_size := by omega
    obtain ⟨td', rng', lines', hstep, hlines⟩ := prefetchItem_fill env lines_size
      (layer.after td lab rng layer.lines_ ((layer.lines_id_ + k) % lines_size)
        (layer.reads_ + k)) k d (Nat.mod_lt _ hL) hd
      (fun hc => ⟨(hgeo hc).1, (hgeo hc).2, hbytes hc⟩)
    have hl : lines' = layer.lines_ := by
      rcases hlines with h | ⟨h, _⟩
      · exact h
      · have h' : layer.layer_param_.shuffle = true := h
        rw [hsh] at h'
        exact absurd h' (by decide)
    subst hl
    refine ⟨td', lab.write k
      (((layer.lines_.getD ((layer.lines_id_ + k) % lines_size) ("", 0)).2 : Int) : D),
      rng', ?_, ?_, ?_⟩
    · rw [List.range_succ, List.foldlM_append, hrun, Except.ok_bind, List.foldlM_cons, hstep,
        Except.ok_bind, List.foldlM_nil, ImageDataLayer.after_after]
      have hm : ((layer.lines_id_ + k) % lines_size + 1) % lines_size
          = (layer.lines_id_ + (k + 1)) % lines_size := by
        rw [Nat.mod_add_mod, Nat.add_assoc]
      show pure (layer.after td' _ rng' layer.lines_
        (((layer.lines_id_ + k) % lines_size + 1) % lines_size) (layer.reads_ + k + 1)) = _
      rw [hm]
      rfl
    · intro i hi
      by_cases hik : i = k
      · subst hik
        exact Buf.write_same _ _ _
      · rw [Buf.write_other _ _ hik]
        exact hlab i (by omega)
    · intro i hi
      rw [Buf.write_other _ _ (by omega)]
      exact hrest i (by omega)

/-- With the mirror guard passed, a producer run is the loop over the slot
indices `0 .. batch_size - 1`. -/
theorem ImageDataLayerPrefetch_eq_loop (env : Env D) (layer : ImageDataLayer D)
    (hmir : ¬ (layer.layer_param_.mirror = true ∧ layer.layer_param_.crop_size = 0)) :
    ImageDataLayerPrefetch env layer
      = (List.range layer.layer_param_.batch_size).foldlM
          (prefetchItem env layer.lines_.length) layer := by
  unfold ImageDataLayerPrefetch
  have : (layer.layer_param_.mirror && layer.layer_param_.crop_size == 0) = false := by
    cases hm : layer.layer_param_.mirror
    · rfl
    · have : ¬ layer.layer_param_.crop_size = 0 := fun h => hmir ⟨hm, h⟩
      simp [this]
  simp only [this, Bool.false_eq_true, if_false]


/-- One producer run with shuffle off whose decodes all succeed. -/
theorem ImageDataLayerPrefetch_run (env : Env D) (layer : ImageDataLayer D)
    (hmir : ¬ (layer.layer_param_.mirror = true ∧ layer.layer_param_.crop_size = 0))
    (hsh : layer.layer_param_.shuffle = false)
    (hp : layer.lines_id_ < layer.lines_.length)
    (hgeo : 0 < layer.layer_param_.crop_size →
      layer.layer_param_.crop_size < layer.datum_height_
      ∧ layer.layer_param_.crop_size < layer.datum_width_)
    (hdec : ∀ i, i < layer.layer_param_.batch_size → ∃ d : Datum D,
      env.imread (layer.reads_ + i)
          (layer.lines_.getD ((layer.lines_id_ + i) % layer.lines_.length) ("", 0)).1
          layer.layer_param_.new_height layer.layer_param_.new_width
          layer.layer_param_.images_in_color = some d
        ∧ (0 < layer.layer_param_.crop_size → d.data.length ≠ 0)) :
    ∃ (td lab : Buf D) (rng : Rand),
      ImageDataLayerPrefetch env layer
        = Except.ok (layer.after td lab rng layer.lines_
            ((layer.lines_id_ + layer.layer_param_.batch_size) % layer.lines_.length)
            (layer.reads_ + layer.layer_param_.batch_size))
      ∧ ∀ i, i < layer.layer_param_.batch_size → lab i
          = (((layer.lines_.getD ((layer.lines_id_ + i) % layer.lines_.length) ("", 0)).2
              : Int) : D) := by
  obtain ⟨td, lab, rng, hrun, hlab, _⟩ := prefetch_labels env layer.lines_.length layer hsh hp
    hgeo layer.layer_param_.batch_size hdec
  exact ⟨td, lab, rng, by rw [ImageDataLayerPrefetch_eq_loop env layer hmir, hrun], hlab⟩

/-- A thread whose producer run returns leaves the layer of that run. -/
theorem pthread_create_of_ok (env : Env D) (layer layer' : ImageDataLayer D)
    (hrun : ImageDataLayerPrefetch env layer = Except.ok layer') :
    pthread_create env layer = layer' := by
  unfold pthread_create
  rw [hrun]

/-- The producer thread started by `CreatePrefetchThread` works on the layer
with the prefetch generator and the seed stream replaced. -/
theorem CreatePrefetchThread_eq (env : Env D) (layer : ImageDataLayer D) :
    ∃ (g : Option Rand) (seed : Rand),
      CreatePrefetchThread env layer
        = Except.ok (pthread_create env { layer with prefetch_rng_ := g, seed_ := seed }) := by
  unfold CreatePrefetchThread
  by_cases h : (layer.layer_param_.shuffle || layer.layer_param_.crop_size != 0) = true
  · simp only [h, if_true]
    exact ⟨_, _, rfl⟩
  · simp only [h, Bool.false_eq_true, if_false]
    exact ⟨_, _, rfl⟩

/-- With a manifest source, `Forward_cpu` returns the contents of the prefetch
buffers and the layer after the producer run it starts. -/
theorem Forward_cpu_of_run (env : Env D) (layer layer' : ImageDataLayer D)
    (hsrc : layer.layer_param_.source.isSome = true)
    (hrun : CreatePrefetchThread env layer = Except.ok layer') :
    Forward_cpu env layer
      = Except.ok
          (((List.range layer.prefetch_data_.count).map layer.prefetch_data_.cpu_data,
            (List.range layer.prefetch_label_.count).map layer.prefetch_label_.cpu_data),
           layer') := by
  unfold Forward_cpu
  simp only [hsrc, if_true, hrun]

/-- C2. With a manifest source, shuffle off, a valid configuration and no
decode failure, the producer run started at cursor `p` of a list of length
`L` returns and has stored in label slot `i`, for every `i < B`, the label of
list entry `(p + i) mod L`, and has moved the cursor to `(p + B) mod L`; the
call of `Forward_cpu` that follows returns exactly these `B` labels in slot
order, and the run it starts stores the labels of the entries
`(p + B + i) mod L`. -/
theorem ImageDataLayerPrefetch_batch_labels (env : Env D) (layer : ImageDataLayer D)
    (hsrc : layer.layer_param_.source.isSome = true)
    (hmir : ¬ (layer.layer_param_.mirror = true ∧ layer.layer_param_.crop_size = 0))
    (hsh : layer.layer_param_.shuffle = false)
    (hp : layer.lines_id_ < layer.lines_.length)
    (hgeo : 0 < layer.layer_param_.crop_size →
      layer.layer_param_.crop_size < layer.datum_height_
      ∧ layer.layer_param_.crop_size < layer.datum_width_)
    (hcount : layer.prefetch_label_.count = layer.layer_param_.batch_size)
    (hdec : ∀ i, i < 2 * layer.layer_param_.batch_size → ∃ d : Datum D,
      env.imread (layer.reads_ + i)
          (layer.lines_.getD ((layer.lines_id_ + i) % layer.lines_.length) ("", 0)).1
          layer.layer_param_.new_height layer.layer_param_.new_width
          layer.layer_param_.images_in_color = some d
        ∧ (0 < layer.layer_param_.crop_size → d.data.length ≠ 0)) :
    ∃ (layer' : ImageDataLayer D) (out : List D × List D) (layer'' : ImageDataLayer D),
      ImageDataLayerPrefetch env layer = Except.ok layer'
      ∧ (∀ i, i < layer.layer_param_.batch_size → layer'.prefetch_label_.cpu_data i
          = (((layer.lines_.getD ((layer.lines_id_ + i) % layer.lines_.length) ("", 0)).2
              : Int) : D))
      ∧ layer'.lines_id_
          = (layer.lines_id_ + layer.layer_param_.batch_size) % layer.lines_.length
      ∧ Forward_cpu env layer' = Except.ok (out, layer'')
      ∧ out.2 = (List.range layer.layer_param_.batch_size).map (fun i =>
          (((layer.lines_.getD ((layer.lines_id_ + i) % layer.lines_.length) ("", 0)).2
            : Int) : D))
      ∧ (∀ i, i < layer.layer_param_.batch_size → layer''.prefetch_label_.cpu_data i
          = (((layer.lines_.getD
                ((layer.lines_id_ + (layer.layer_param_.batch_size + i))
                  % layer.lines_.length) ("", 0)).2 : Int) : D)) := by
  have hL : 0 < layer.lines_.length := by omega
  obtain ⟨td, lab, rng, hrun, hlab⟩ := ImageDataLayerPrefetch_run env layer hmir hsh hp hgeo
    (fun i hi => hdec i (by omega))
  obtain ⟨g, seed, hcreate⟩ := CreatePrefetchThread_eq env
    (layer.after td lab rng layer.lines_
      ((layer.lines_id_ + layer.layer_param_.batch_size) % layer.lines_.length)
      (layer.reads_ + layer.layer_param_.batch_size))
  have hmod : ∀ i, ((layer.lines_id_ + layer.layer_param_.batch_size) % layer.lines_.length
      + i) % layer.lines_.length
      = (layer.lines_id_ + (layer.layer_param_.batch_size + i)) % layer.lines_.length := by
    intro i
    rw [Nat.mod_add_mod, Nat.add_assoc]
  obtain ⟨td2, lab2, rng2, hrun2, hlab2⟩ := ImageDataLayerPrefetch_run env
    { layer.after td lab rng layer.lines_
        ((layer.lines_id_ + layer.layer_param_.batch_size) % layer.lines_.length)
        (layer.reads_ + layer.layer_param_.batch_size) with
      prefetch_rng_ := g, seed_ := seed }
    hmir hsh (Nat.mod_lt _ hL) hgeo
    (fun i hi => by
      have hi' : i < layer.layer_param_.batch_size := hi
      obtain ⟨d, hd, hb⟩ := hdec (layer.layer_param_.batch_size + i) (by omega)
      refine ⟨d, ?_, hb⟩
      show env.imread (layer.reads_ + layer.layer_param_.batch_size + i)
        (layer.lines_.getD
          (((layer.lines_id_ + layer.layer_param_.batch_size) % layer.lines_.length + i)
            % layer.lines_.length) ("", 0)).1 _ _ _ = some d
      rw [hmod i, Nat.add_assoc]
      exact hd)
  refine ⟨_, ((List.range layer.prefetch_data_.count).map td,
    (List.range layer.prefetch_label_.count).map lab), _, hrun, hlab, rfl,
    Forward_cpu_of_run env _ _ hsrc
      (hcreate.trans (congrArg Except.ok (pthread_create_of_ok env _ _ hrun2))), ?_, ?_⟩
  · show (List.range layer.prefetch_label_.count).map lab = _
    rw [hcount]
    exact List.map_congr_left (fun i hi => hlab i (List.mem_range.mp hi))
  · intro i hi
    show lab2 i = _
    rw [hlab2 i hi]
    show ((((layer.lines_.getD
      (((layer.lines_id_ + layer.layer_param_.batch_size) % layer.lines_.length + i)
        % layer.lines_.length) ("", 0)).2 : Int) : D)) = _
    rw [hmod i]

/-- The statement of C2 on the end-to-end scenario: the manifest
`[(a.jpg, 1), (b.jpg, 2), (c.jpg, 0)]`, batch size 2, cursor 0. After `SetUp`
the first call of `Forward_cpu` returns the labels 1, 2 and the second the
labels 0, 1. -/
theorem ImageDataLayerPrefetch_batch_labels_witness :
    (∃ (layer' : ImageDataLayer Int) (out : List Int × List Int)
        (layer'' : ImageDataLayer Int),
      ImageDataLayerPrefetch exEnv (exLayer exParam exManifest 0) = Except.ok layer'
      ∧ (∀ i, i < 2 → layer'.prefetch_label_.cpu_data i
          = (((exManifest.getD ((0 + i) % 3) ("", 0)).2 : Int) : Int))
      ∧ layer'.lines_id_ = (0 + 2) % 3
      ∧ Forward_cpu exEnv layer' = Except.ok (out, layer'')
      ∧ out.2 = (List.range 2).map (fun i =>
          (((exManifest.getD ((0 + i) % 3) ("", 0)).2 : Int) : Int))
      ∧ (∀ i, i < 2 → layer''.prefetch_label_.cpu_data i
          = (((exManifest.getD ((0 + (2 + i)) % 3) ("", 0)).2 : Int) : Int)))
    ∧ labelsOf (SetUp exEnv (exLayer0 exParam) >>= Forward_cpu exEnv) = some [1, 2]
    ∧ labelsOf (SetUp exEnv (exLayer0 exParam) >>= fun l =>
        layerOf (Forward_cpu exEnv l) >>= Forward_cpu exEnv) = some [0, 1] :=
  ⟨ImageDataLayerPrefetch_batch_labels exEnv (exLayer exParam exManifest 0) rfl (by decide) rfl
      (by decide) (by decide) (by decide)
      (fun i hi => by
        have hi4 : i < 4 := hi
        interval_cases i <;> exact ⟨_, rfl, by decide⟩),
    by decide, by decide⟩


/-- C10, the behaviour of the code on a decode failure. On the list
`[(a.jpg, 1), (bad.jpg, 2), (c.jpg, 0)]` with batch size 3 and cursor 0, the
decoder failing on "bad.jpg": after the iterations 0 and 1 (the second one is
the failed decode at position 1) the cursor is still 1, so iteration 2 reads
position 1 again and not position 2; the run returns with the cursor at 1
after three decoder calls, only label slot 0 written, and the next run makes
three more decoder calls and leaves the cursor at 1 again. -/
theorem prefetch_decode_failure_repeats_position :
    (∃ l2 : ImageDataLayer Int,
      (List.range 2).foldlM (prefetchItem exEnv 3)
          (exLayer { exParam with batch_size := 3 }
            [("a.jpg", 1), ("bad.jpg", 2), ("c.jpg", 0)] 0) = Except.ok l2
      ∧ l2.lines_id_ = 1 ∧ l2.lines_id_ ≠ (1 + 1) % 3)
    ∧ ∃ l3 l6 : ImageDataLayer Int,
      ImageDataLayerPrefetch exEnv
          (exLayer { exParam with batch_size := 3 }
            [("a.jpg", 1), ("bad.jpg", 2), ("c.jpg", 0)] 0) = Except.ok l3
      ∧ l3.lines_id_ = 1 ∧ l3.reads_ = 3
      ∧ (List.range 3).map l3.prefetch_label_.cpu_data = [1, 0, 0]
      ∧ ImageDataLayerPrefetch exEnv l3 = Except.ok l6
      ∧ l6.lines_id_ = 1 ∧ l6.reads_ = 6 :=
  ⟨⟨_, rfl, by decide, by decide⟩,
   ⟨_, _, rfl, by decide, by decide, by decide, rfl, by decide, by decide⟩⟩

end Producer

/-! ## The shuffle -/

section Shuffle

/-- Removing the entry at a valid index and putting it in front permutes the
list. -/
theorem getD_cons_eraseIdx_perm (l : List Entry) (k : Nat) (hk : k < l.length) :
    (l.getD k ("", 0) :: l.eraseIdx k).Perm l := by
  rw [List.getD_eq_getElem l ("", 0) hk, List.eraseIdx_eq_take_drop_succ]
  have h : l = List.take k l ++ l[k] :: List.drop (k + 1) l := by
    rw [← List.drop_eq_getElem_cons hk, List.take_append_drop]
  exact (List.perm_middle.symm).trans (List.Perm.of_eq h.symm)

/-- The loop of `ShuffleImages` from step `i` on, with `k` entries not yet
picked: the picked entries stay at the end in the order of picking, and the
remaining ones are picked without replacement. -/
theorem shuffle_loop (n : Nat) :
    ∀ (k i : Nat) (rest done : List Entry) (rng : Rand), rest.length = k → i + k = n →
      ((List.range' i k).foldl (shuffleStep n) (rest ++ done, rng)).1
        = done ++ pickWithoutReplacement k rest rng := by
  intro k
  induction k with
  | zero =>
    intro i rest done rng hlen _
    have : rest = [] := List.length_eq_zero.mp hlen
    subst this
    simp [pickWithoutReplacement]
  | succ k ih =>
    intro i rest done rng hlen hn
    have hmax : n - i = k + 1 := by omega
    have hidx : rng 0 % (k + 1) < rest.length := by
      rw [hlen]
      exact Nat.mod_lt _ (Nat.succ_pos k)
    have hstep : shuffleStep n (rest ++ done, rng) i
        = (rest.eraseIdx (rng 0 % (k + 1))
            ++ (done ++ [rest.getD (rng 0 % (k + 1)) ("", 0)]), fun j => rng (j + 1)) := by
      unfold shuffleStep
      simp only [hmax, Rand.next, List.eraseIdx_append_of_lt_length hidx,
        List.getD_append _ _ _ _ hidx, List.append_assoc]
    rw [List.range'_succ, List.foldl_cons, hstep,
      ih (i + 1) _ _ _ (by rw [List.length_eraseIdx_of_lt hidx, hlen]; rfl) (by omega)]
    simp [pickWithoutReplacement]

/-- `ShuffleImages` returns the entries picked without replacement, in the
order of picking. -/
theorem ShuffleImages_eq_pick (rng : Rand) (lines : List Entry) :
    (ShuffleImages rng lines).1 = pickWithoutReplacement lines.length lines rng := by
  unfold ShuffleImages
  have h := shuffle_loop lines.length lines.length 0 lines [] rng rfl (Nat.zero_add _)
  rw [List.append_nil, List.nil_append] at h
  show ((List.range lines.length).foldl (shuffleStep lines.length) (lines, rng)).1 = _
  rw [List.range_eq_range']
  exact h

theorem pickWithoutReplacement_perm :
    ∀ (n : Nat) (l : List Entry) (r : Rand), l.length = n →
      (pickWithoutReplacement n l r).Perm l := by
  intro n
  induction n with
  | zero =>
    intro l r hlen
    have : l = [] := List.length_eq_zero.mp hlen
    subst this
    exact List.Perm.refl _
  | succ n ih =>
    intro l r hlen
    have hidx : r 0 % (n + 1) < l.length := by
      rw [hlen]
      exact Nat.mod_lt _ (Nat.succ_pos n)
    unfold pickWithoutReplacement
    refine List.Perm.trans (List.Perm.cons _ (ih _ _ ?_)) (getD_cons_eraseIdx_perm l _ hidx)
    rw [List.length_eraseIdx_of_lt hidx, hlen]
    rfl

/-- `ShuffleImages` permutes the list. -/
theorem ShuffleImages_perm (rng : Rand) (lines : List Entry) :
    (ShuffleImages rng lines).1.Perm lines := by
  rw [ShuffleImages_eq_pick]
  exact pickWithoutReplacement_perm _ _ _ rfl


theorem Rand.ofList_tail (k : Nat) (kt : List Nat) :
    (fun j => Rand.ofList (k :: kt) (j + 1)) = Rand.ofList kt := by
  funext j
  simp [Rand.ofList]

theorem IndexSeq.tail {n k : Nat} {kt : List Nat} (h : IndexSeq (n + 1) (k :: kt)) :
    k < n + 1 ∧ IndexSeq n kt := by
  obtain ⟨hlen, hlt⟩ := h
  refine ⟨?_, ?_, ?_⟩
  · have := hlt 0 (Nat.succ_pos n)
    simpa using this
  · simpa using hlen
  · intro i hi
    have := hlt (i + 1) (by omega)
    simp only [List.getD_cons_succ] at this
    omega

theorem IndexSeq.cons {n k : Nat} {kt : List Nat} (hk : k < n + 1) (h : IndexSeq n kt) :
    IndexSeq (n + 1) (k :: kt) := by
  obtain ⟨hlen, hlt⟩ := h
  refine ⟨by simp [hlen], ?_⟩
  intro i hi
  cases i with
  | zero => simpa using hk
  | succ i =>
    have := hlt i (by omega)
    simp only [List.getD_cons_succ]
    omega

theorem pickWithoutReplacement_cons (n : Nat) (l : List Entry) {k : Nat} (kt : List Nat)
    (hk : k < n + 1) :
    pickWithoutReplacement (n + 1) l (Rand.ofList (k :: kt))
      = l.getD k ("", 0) :: pickWithoutReplacement n (l.eraseIdx k) (Rand.ofList kt) := by
  have h0 : Rand.ofList (k :: kt) 0 % (n + 1) = k := by
    simp [Rand.ofList, Nat.mod_eq_of_lt hk]
  rw [pickWithoutReplacement, h0, Rand.ofList_tail]

/-- On a list without repetition, different sequences of picks give different
orders. -/
theorem pickWithoutReplacement_injective :
    ∀ (n : Nat) (l : List Entry) (ks ks' : List Nat), l.Nodup → l.length = n →
      IndexSeq n ks → IndexSeq n ks' →
      pickWithoutReplacement n l (Rand.ofList ks) = pickWithoutReplacement n l (Rand.ofList ks')
      → ks = ks' := by
  intro n
  induction n with
  | zero =>
    intro l ks ks' _ _ h h' _
    rw [List.length_eq_zero.mp h.1, List.length_eq_zero.mp h'.1]
  | succ n ih =>
    intro l ks ks' hnd hlen h h' heq
    cases ks with
    | nil => exact absurd h.1 (by simp)
    | cons k kt =>
      cases ks' with
      | nil => exact absurd h'.1 (by simp)
      | cons k' kt' =>
        obtain ⟨hk, ht⟩ := h.tail
        obtain ⟨hk', ht'⟩ := h'.tail
        rw [pickWithoutReplacement_cons n l kt hk, pickWithoutReplacement_cons n l kt' hk']
          at heq
        injection heq with hhead htail
        have hkl : k < l.length := by omega
        have hkl' : k' < l.length := by omega
        rw [List.getD_eq_getElem l _ hkl, List.getD_eq_getElem l _ hkl'] at hhead
        have hkk : k = k' := (List.Nodup.getElem_inj_iff hnd).mp hhead
        subst hkk
        have := ih (l.eraseIdx k) kt kt' (List.Nodup.eraseIdx k hnd)
          (by rw [List.length_eraseIdx_of_lt hkl, hlen]; rfl) ht ht' htail
        rw [this]

/-- Every order of the list is the result of some sequence of picks. -/
theorem pickWithoutReplacement_surjective :
    ∀ (n : Nat) (l l' : List Entry), l.length = n → l'.Perm l →
      ∃ ks, IndexSeq n ks ∧ pickWithoutReplacement n l (Rand.ofList ks) = l' := by
  intro n
  induction n with
  | zero =>
    intro l l' hlen hperm
    have hl : l = [] := List.length_eq_zero.mp hlen
    subst hl
    refine ⟨[], ⟨rfl, fun i hi => absurd hi (Nat.not_lt_zero i)⟩, ?_⟩
    rw [List.Perm.eq_nil hperm]
    rfl
  | succ n ih =>
    intro l l' hlen hperm
    cases l' with
    | nil =>
      have := hperm.length_eq
      simp [hlen] at this
    | cons x t =>
      have hx : x ∈ l := hperm.subset (List.mem_cons_self x t)
      obtain ⟨k, hk, hgetk⟩ := List.mem_iff_getElem.mp hx
      have hget : l.getD k ("", 0) = x := by
        rw [List.getD_eq_getElem l _ hk]
        exact hgetk
      have hp1 := getD_cons_eraseIdx_perm l k hk
      rw [hget] at hp1
      have ht : t.Perm (l.eraseIdx k) := List.Perm.cons_inv (hperm.trans hp1.symm)
      obtain ⟨kt, hkt, hpick⟩ := ih (l.eraseIdx k) t
        (by rw [List.length_eraseIdx_of_lt hk, hlen]; rfl) ht
      refine ⟨k :: kt, IndexSeq.cons (by omega) hkt, ?_⟩
      rw [pickWithoutReplacement_cons n l kt (by omega), hget, hpick]

/-- C8. `ShuffleImages` is the selection without replacement of the
specification: at step `i < n` it takes the index `r_i mod (n - i)`, which
lies among the first `n - i` entries, removes that entry and appends it at
the end, and its result lists the picked entries in the order of picking.
On a list of `n` pairwise distinct entries the map from the index sequences
`(k_0, ..., k_{n-1})` with `k_i < n - i` to the resulting order is injective
and onto the permutations of the list. -/
theorem ShuffleImages_fisher_yates (lines : List Entry) (hnd : lines.Nodup) :
    (∀ (st : List Entry × Rand) (i : Nat), i < lines.length →
        st.2 0 % (lines.length - i) < lines.length - i
        ∧ shuffleStep lines.length st i
          = (st.1.eraseIdx (st.2 0 % (lines.length - i))
              ++ [st.1.getD (st.2 0 % (lines.length - i)) ("", 0)], fun j => st.2 (j + 1)))
    ∧ (∀ rng : Rand,
        (ShuffleImages rng lines).1 = pickWithoutReplacement lines.length lines rng)
    ∧ (∀ ks, IndexSeq lines.length ks →
        (ShuffleImages (Rand.ofList ks) lines).1.Perm lines)
    ∧ (∀ ks ks', IndexSeq lines.length ks → IndexSeq lines.length ks' →
        (ShuffleImages (Rand.ofList ks) lines).1 = (ShuffleImages (Rand.ofList ks') lines).1 →
        ks = ks')
    ∧ (∀ l' : List Entry, l'.Perm lines →
        ∃ ks, IndexSeq lines.length ks ∧ (ShuffleImages (Rand.ofList ks) lines).1 = l') := by
  refine ⟨?_, fun rng => ShuffleImages_eq_pick rng lines,
    fun ks _ => ShuffleImages_perm _ lines, ?_, ?_⟩
  · intro st i hi
    exact ⟨Nat.mod_lt _ (by omega), rfl⟩
  · intro ks ks' h h' heq
    rw [ShuffleImages_eq_pick, ShuffleImages_eq_pick] at heq
    exact pickWithoutReplacement_injective _ lines ks ks' hnd rfl h h' heq
  · intro l' hperm
    obtain ⟨ks, hks, hpick⟩ := pickWithoutReplacement_surjective _ lines l' rfl hperm
    exact ⟨ks, hks, by rw [ShuffleImages_eq_pick, hpick]⟩

/-- The statement of C8 on the three-entry manifest. -/
theorem ShuffleImages_fisher_yates_witness :
    exManifest.Nodup
    ∧ (∀ (st : List Entry × Rand) (i : Nat), i < exManifest.length →
        st.2 0 % (exManifest.length - i) < exManifest.length - i
        ∧ shuffleStep exManifest.length st i
          = (st.1.eraseIdx (st.2 0 % (exManifest.length - i))
              ++ [st.1.getD (st.2 0 % (exManifest.length - i)) ("", 0)],
              fun j => st.2 (j + 1)))
    ∧ (∀ rng : Rand,
        (ShuffleImages rng exManifest).1
          = pickWithoutReplacement exManifest.length exManifest rng)
    ∧ (∀ ks, IndexSeq exManifest.length ks →
        (ShuffleImages (Rand.ofList ks) exManifest).1.Perm exManifest)
    ∧ (∀ ks ks', IndexSeq exManifest.length ks → IndexSeq exManifest.length ks' →
        (ShuffleImages (Rand.ofList ks) exManifest).1
          = (ShuffleImages (Rand.ofList ks') exManifest).1 →
        ks = ks')
    ∧ (∀ l' : List Entry, l'.Perm exManifest →
        ∃ ks, IndexSeq exManifest.length ks
          ∧ (ShuffleImages (Rand.ofList ks) exManifest).1 = l') :=
  ⟨by decide, ShuffleImages_fisher_yates exManifest (by decide)⟩

end Shuffle

section Reshuffle

variable {D : Type} [NatCast D] [IntCast D] [Sub D] [Mul D]

/-- A run of loop iterations that returns leaves a permutation of the list,
when `std::random_shuffle` permutes. -/
theorem prefetch_lines_perm (env : Env D) (lines_size : Nat)
    (hstd : ∀ (r : Rand) (l : List Entry), (env.random_shuffle r l).1.Perm l)
    (ids : List Nat) :
    ∀ (layer layer' : ImageDataLayer D),
      ids.foldlM (prefetchItem env lines_size) layer = Except.ok layer' →
      layer'.lines_.Perm layer.lines_ := by
  induction ids with
  | nil =>
    intro layer layer' h
    have h' : (Except.ok layer : Except Failure (ImageDataLayer D)) = Except.ok layer' := h
    injection h' with h'
    subst h'
    exact List.Perm.refl _
  | cons item ids ih =>
    intro layer layer' h
    rw [List.foldlM_cons] at h
    cases hstep : prefetchItem env lines_size layer item with
    | error e =>
      rw [hstep, Except.error_bind] at h
      exact absurd h (by simp)
    | ok l1 =>
      rw [hstep, Except.ok_bind] at h
      have h1 : l1.lines_.Perm layer.lines_ := by
        rcases prefetchItem_lines env lines_size layer l1 item hstep with h1 | ⟨r, h1⟩
        · rw [h1]
        · rw [h1]
          exact hstd r _
      exact (ih l1 layer' h).trans h1

/-- C7. For every list and every stream of draws `ShuffleImages` returns a
permutation of the list: the length is the same and every (path, label) pair
occurs as often as before. The same holds for the list after a producer run,
reshuffle on wraparound included, `std::random_shuffle` being a permutation
of its argument. -/
theorem shuffle_is_permutation (env : Env D) (layer layer' : ImageDataLayer D)
    (hstd : ∀ (r : Rand) (l : List Entry), (env.random_shuffle r l).1.Perm l)
    (hrun : ImageDataLayerPrefetch env layer = Except.ok layer') :
    (∀ (rng : Rand) (lines : List Entry),
      (ShuffleImages rng lines).1.Perm lines
      ∧ (ShuffleImages rng lines).1.length = lines.length
      ∧ ∀ e : Entry, (ShuffleImages rng lines).1.countP (fun x => decide (x = e))
          = lines.countP (fun x => decide (x = e)))
    ∧ layer'.lines_.Perm layer.lines_
    ∧ layer'.lines_.length = layer.lines_.length
    ∧ ∀ e : Entry, layer'.lines_.countP (fun x => decide (x = e))
        = layer.lines_.countP (fun x => decide (x = e)) := by
  have hperm : layer'.lines_.Perm layer.lines_ := by
    unfold ImageDataLayerPrefetch at hrun
    by_cases hg : (layer.layer_param_.mirror && layer.layer_param_.crop_size == 0) = true
    · simp [hg] at hrun
    · simp only [hg, Bool.false_eq_true, if_false] at hrun
      exact prefetch_lines_perm env _ hstd _ layer layer' hrun
  exact ⟨fun rng lines => ⟨ShuffleImages_perm rng lines, (ShuffleImages_perm rng lines).length_eq,
      fun e => (ShuffleImages_perm rng lines).countP_eq _⟩,
    hperm, hperm.length_eq, fun e => hperm.countP_eq _⟩

/-- The statement of C7 on a producer run that wraps around and reshuffles:
the three-entry manifest with shuffle on, batch size 2 and cursor 2; the list
after the run is `[c, a, b]`. -/
theorem shuffle_is_permutation_witness :
    ∃ layer' : ImageDataLayer Int,
      ImageDataLayerPrefetch exEnv (exLayer { exParam with shuffle := true } exManifest 2)
        = Except.ok layer'
      ∧ layer'.lines_ = [("c.jpg", 0), ("a.jpg", 1), ("b.jpg", 2)]
      ∧ ((∀ (rng : Rand) (lines : List Entry),
          (ShuffleImages rng lines).1.Perm lines
          ∧ (ShuffleImages rng lines).1.length = lines.length
          ∧ ∀ e : Entry, (ShuffleImages rng lines).1.countP (fun x => decide (x = e))
          = lines.countP (fun x => decide (x = e)))
        ∧ layer'.lines_.Perm exManifest
        ∧ layer'.lines_.length = exManifest.length
        ∧ ∀ e : Entry, layer'.lines_.countP (fun x => decide (x = e))
          = exManifest.countP (fun x => decide (x = e))) :=
  ⟨_, rfl, by decide,
    shuffle_is_permutation exEnv (exLayer { exParam with shuffle := true } exManifest 2) _
      (fun r l => ShuffleImages_perm r l) rfl⟩

end Reshuffle

/-! ## Ad-hoc injection -/

section AdHoc

variable {D : Type} [NatCast D] [IntCast D] [Sub D] [Mul D]

/-- The loop of `AddImagesAndLabels` over the slots `0 .. k - 1`, each filled
from the image `i mod n`: it returns, label slot `i` holds the label
`i mod n`, and data slot `i` holds what the transform of that image leaves in
slot `i`. -/
theorem addItem_loop {Mat : Type} [Inhabited Mat] (env : Env D)
    (toDatum : Mat → Nat → Nat → Datum D) (images : List Mat) (labels : List Int)
    (new_height crop_size : Nat) (mirror : Bool) (layer : ImageDataLayer D)
    (st0 : Top D × Rand) (hn : 0 < images.length)
    (hgeo : 0 < crop_size →
      crop_size < layer.datum_height_ ∧ crop_size < layer.datum_width_)
    (hbytes : 0 < crop_size → ∀ j, j < images.length →
      (toDatum (images.getD j default) new_height new_height).data.length ≠ 0) :
    ∀ k : Nat, ∃ (top : Top D) (rng : Rand),
      (List.range k).foldlM (fun st item_id =>
          addItem env toDatum images labels new_height crop_size mirror layer st item_id
            (item_id % images.length)) st0 = Except.ok (top, rng)
      ∧ (∀ i, i < k → top.top_label i = ((labels.getD (i % images.length) 0 : Int) : D))
      ∧ ∀ i, i < k → ∃ rng_i : Rand, ∀ top0 : Top D, ∃ (out : Top D) (r' : Rand),
          addItem env toDatum images labels new_height crop_size mirror layer (top0, rng_i) i
              (i % images.length) = Except.ok (out, r')
          ∧ ∀ j, i * slotSize layer.datum_channels_ layer.datum_size_ crop_size ≤ j →
              j < (i + 1) * slotSize layer.datum_channels_ layer.datum_size_ crop_size →
              top.top_data j = out.top_data j := by
  intro k
  induction k with
  | zero =>
    exact ⟨st0.1, st0.2, rfl, fun i hi => absurd hi (Nat.not_lt_zero i),
      fun i hi => absurd hi (Nat.not_lt_zero i)⟩
  | succ k ih =>
    obtain ⟨top, rng, hrun, hlab, hdata⟩ := ih
    have himg : k % images.length < images.length := Nat.mod_lt _ hn
    obtain ⟨td, rng', hstep, hbelow, hslot⟩ := ProcessImageDatum_slot env.phase
      layer.datum_channels_ layer.datum_height_ layer.datum_width_ layer.datum_size_
      crop_size mirror layer.data_mean_.cpu_data layer.layer_param_.scale
      (OpenCVImageToDatum toDatum (images.getD (k % images.length) default)
        (labels.getD (k % images.length) 0) new_height new_height) k top rng
      (fun hc => ⟨(hgeo hc).1, (hgeo hc).2, hbytes hc _ himg⟩)
    refine ⟨⟨td, top.top_label.write k ((labels.getD (k % images.length) 0 : Int) : D)⟩, rng',
      ?_, ?_, ?_⟩
    · rw [List.range_succ, List.foldlM_append, hrun, Except.ok_bind, List.foldlM_cons]
      have : addItem env toDatum images labels new_height crop_size mirror layer (top, rng) k
          (k % images.length)
          = Except.ok (⟨td, top.top_label.write k
              ((labels.getD (k % images.length) 0 : Int) : D)⟩, rng') := hstep
      rw [this, Except.ok_bind, List.foldlM_nil]
      rfl
    · intro i hi
      by_cases hik : i = k
      · subst hik
        exact Buf.write_same _ _ _
      · show (top.top_label.write k _) i = _
        rw [Buf.write_other _ _ hik]
        exact hlab i (by omega)
    · intro i hi
      by_cases hik : i = k
      · subst hik
        refine ⟨rng, fun top0 => ?_⟩
        obtain ⟨td', hrun', hagree⟩ := hslot top0
        exact ⟨_, rng', hrun', fun j hlo hhi => (hagree j hlo hhi).symm⟩
      · obtain ⟨rng_i, hi'⟩ := hdata i (by omega)
        refine ⟨rng_i, fun top0 => ?_⟩
        obtain ⟨out, r', hout, hagree⟩ := hi' top0
        refine ⟨out, r', hout, fun j hlo hhi => ?_⟩
        have hle : (i + 1) * slotSize layer.datum_channels_ layer.datum_size_ crop_size
            ≤ k * slotSize layer.datum_channels_ layer.datum_size_ crop_size :=
          Nat.mul_le_mul_right _ (by omega)
        show td j = _
        rw [hbelow j (by omega)]
        exact hagree j hlo hhi


variable [Zero D]

/-- C3. A call of `AddImagesAndLabels` with `n` images, `1 <= n <= batchSize`,
at least `n` labels, a configuration that passes the mirror guard and images
that pass the crop checks returns. After it label slot `i` holds
`labels[i mod n]` for every `i < batchSize`, and data slot `i` holds the
transform of `images[i mod n]`: for some state of the random source, the
samples of slot `i` are the ones `ProcessImageDatum` stores for that image
and slot `i`, whatever the destination buffers it is given. -/
theorem AddImagesAndLabels_cycles {Mat : Type} [Inhabited Mat] (env : Env D)
    (toDatum : Mat → Nat → Nat → Datum D) (images : List Mat) (labels : List Int)
    (layer layer1 : ImageDataLayer D)
    (hn : 0 < images.length) (hB : images.length ≤ layer.layer_param_.batch_size)
    (hl : images.length ≤ labels.length)
    (hmir : ¬ (layer.layer_param_.mirror = true ∧ layer.layer_param_.crop_size = 0))
    (hprep : ensureSetUp env layer.layer_param_.crop_size
      (OpenCVImageToDatum toDatum (images.getD 0 default) (labels.getD 0 0)
        layer.layer_param_.new_height layer.layer_param_.new_height) layer = Except.ok layer1)
    (hgeo : 0 < layer.layer_param_.crop_size →
      layer.layer_param_.crop_size < layer1.datum_height_
      ∧ layer.layer_param_.crop_size < layer1.datum_width_)
    (hbytes : 0 < layer.layer_param_.crop_size → ∀ j, j < images.length →
      (toDatum (images.getD j default) layer.layer_param_.new_height
        layer.layer_param_.new_height).data.length ≠ 0) :
    ∃ layer' : ImageDataLayer D,
      AddImagesAndLabels env toDatum images labels layer = Except.ok layer'
      ∧ (∀ i, i < layer.layer_param_.batch_size →
          layer'.prefetch_label_.cpu_data i
            = ((labels.getD (i % images.length) 0 : Int) : D))
      ∧ ∀ i, i < layer.layer_param_.batch_size →
          ∃ rng_i : Rand, ∀ top0 : Top D, ∃ (out : Top D) (r' : Rand),
            ProcessImageDatum env.phase layer1.datum_channels_ layer1.datum_height_
                layer1.datum_width_ layer1.datum_size_ layer.layer_param_.crop_size
                layer.layer_param_.mirror layer1.data_mean_.cpu_data
                layer1.layer_param_.scale
                (OpenCVImageToDatum toDatum (images.getD (i % images.length) default)
                  (labels.getD (i % images.length) 0) layer.layer_param_.new_height
                  layer.layer_param_.new_height) i top0 rng_i = Except.ok (out, r')
            ∧ ∀ j,
                i * slotSize layer1.datum_channels_ layer1.datum_size_
                    layer.layer_param_.crop_size ≤ j →
                j < (i + 1) * slotSize layer1.datum_channels_ layer1.datum_size_
                    layer.layer_param_.crop_size →
                layer'.prefetch_data_.cpu_data j = out.top_data j := by
  obtain ⟨top, rng, hrun, hlab, hdata⟩ := addItem_loop env toDatum images labels
    layer.layer_param_.new_height layer.layer_param_.crop_size layer.layer_param_.mirror
    layer1 (⟨layer1.prefetch_data_.cpu_data, layer1.prefetch_label_.cpu_data⟩, layer1.rand_)
    hn hgeo hbytes layer.layer_param_.batch_size
  have hguard : (layer.layer_param_.mirror && layer.layer_param_.crop_size == 0) = false := by
    cases hm : layer.layer_param_.mirror
    · rfl
    · have : ¬ layer.layer_param_.crop_size = 0 := fun h => hmir ⟨hm, h⟩
      simp [this]
  have hBpos : layer.layer_param_.batch_size
      = (layer.layer_param_.batch_size - 1) + 1 := by omega
  have hloop :
      (addItem env toDatum images labels layer.layer_param_.new_height
          layer.layer_param_.crop_size layer.layer_param_.mirror layer1
          (⟨layer1.prefetch_data_.cpu_data, layer1.prefetch_label_.cpu_data⟩, layer1.rand_)
          0 0).bind
        (fun st1 =>
          (List.range' 1 (layer.layer_param_.batch_size - 1)).foldlM (fun st item_id =>
            addItem env toDatum images labels layer.layer_param_.new_height
              layer.layer_param_.crop_size layer.layer_param_.mirror layer1 st item_id
              (item_id % images.length)) st1)
      = Except.ok (top, rng) := by
    rw [← hrun, List.range_eq_range']
    conv_rhs => rw [hBpos, List.range'_succ, List.foldlM_cons, Nat.zero_mod]
    rfl
  refine ⟨{ layer1 with
      prefetch_data_ := { layer1.prefetch_data_ with cpu_data := top.top_data }
      prefetch_label_ := { layer1.prefetch_label_ with cpu_data := top.top_label }
      rand_ := rng }, ?_, hlab, hdata⟩
  unfold AddImagesAndLabels
  simp only [hn, hB, hl, hguard, not_true_eq_false, if_false, Bool.false_eq_true, hprep, hloop]

/-- The statement of C3 on the ad-hoc injection scenario: two images with the
labels 5 and 9 and batch size 4, on a layer that is not set up yet; the label
tensor after the call is `[5, 9, 5, 9]`. -/
theorem AddImagesAndLabels_cycles_witness :
    (∃ layer' : ImageDataLayer Int,
      AddImagesAndLabels exEnv (fun m _ _ => m) exImages [5, 9] (exLayer0 exParamAdHoc)
        = Except.ok layer'
      ∧ (∀ i, i < 4 → layer'.prefetch_label_.cpu_data i
          = ((([5, 9] : List Int).getD (i % 2) 0 : Int) : Int))
      ∧ ∀ i, i < 4 →
          ∃ rng_i : Rand, ∀ top0 : Top Int, ∃ (out : Top Int) (r' : Rand),
            ProcessImageDatum Phase.TEST 1 1 1 1 0 false (fun _ => 0) 1
                (OpenCVImageToDatum (fun (m : Datum Int) _ _ => m)
                  (exImages.getD (i % 2) default) (([5, 9] : List Int).getD (i % 2) 0) 0 0)
                i top0 rng_i = Except.ok (out, r')
            ∧ ∀ j, i * slotSize 1 1 0 ≤ j → j < (i + 1) * slotSize 1 1 0 →
                layer'.prefetch_data_.cpu_data j = out.top_data j)
    ∧ ∃ layer' : ImageDataLayer Int,
      AddImagesAndLabels exEnv (fun m _ _ => m) exImages [5, 9] (exLayer0 exParamAdHoc)
        = Except.ok layer'
      ∧ (List.range 4).map layer'.prefetch_label_.cpu_data = [5, 9, 5, 9]
      ∧ (List.range 4).map layer'.prefetch_data_.cpu_data = [50, 90, 50, 90] :=
  ⟨AddImagesAndLabels_cycles exEnv (fun m _ _ => m) exImages [5, 9] (exLayer0 exParamAdHoc)
      (exLayer exParamAdHoc [] 0) (by decide) (by decide) (by decide) (by decide) rfl
      (by decide) (fun h => absurd h (by decide)),
    ⟨_, rfl, by decide, by decide⟩⟩

end AdHoc

/-! ## Rejected calls -/

section Rejected

variable {D : Type} [NatCast D] [IntCast D] [Sub D] [Mul D]

/-- The failures of `ProcessImageDatum` are the three crop checks, each with
its condition. -/
theorem ProcessImageDatum_error (phase : Phase) (channels height width size crop_size : Nat)
    (mirror : Bool) (mean : Buf D) (scale : D) (datum : Datum D) (item_id : Nat)
    (top : Top D) (rng : Rand) (e : Failure)
    (h : ProcessImageDatum phase channels height width size crop_size mirror mean scale datum
      item_id top rng = Except.error e) :
    0 < crop_size
    ∧ ((e = Failure.cropHeight ∧ height ≤ crop_size)
      ∨ (e = Failure.cropWidth ∧ crop_size < height ∧ width ≤ crop_size)
      ∨ (e = Failure.cropNoBytes ∧ crop_size < height ∧ crop_size < width
          ∧ datum.data.length = 0)) := by
  unfold ProcessImageDatum at h
  by_cases hc : 0 < crop_size
  · refine ⟨hc, ?_⟩
    simp only [hc, if_true] at h
    by_cases h1 : crop_size < height
    · by_cases h2 : crop_size < width
      · by_cases h3 : datum.data.length = 0
        · simp only [h1, h2, h3, not_true_eq_false, if_false, if_true] at h
          injection h with h
          exact Or.inr (Or.inr ⟨h.symm, h1, h2, h3⟩)
        · simp [h1, h2, h3] at h
      · simp only [h1, h2, not_true_eq_false, not_false_eq_true, if_false, if_true] at h
        injection h with h
        exact Or.inr (Or.inl ⟨h.symm, h1, by omega⟩)
    · simp only [h1, not_false_eq_true, if_true] at h
      injection h with h
      exact Or.inl ⟨h.symm, by omega⟩
  · simp [hc] at h

/-- C12. With `crop_size > 0`, `ProcessImageDatum` fails if and only if
`height <= crop_size`, or `width <= crop_size`, or the byte payload is empty.
A failure is one of the three checks of lines 35 to 37, which come before the
first store: it is the same whatever the mean, the scale, the slot, the
destination buffers and the random stream are, and no buffer is returned. -/
theorem ProcessImageDatum_fails_iff (phase : Phase)
    (channels height width size crop_size : Nat) (mirror : Bool) (mean : Buf D) (scale : D)
    (datum : Datum D) (item_id : Nat) (top : Top D) (rng : Rand) (hcrop : 0 < crop_size) :
    ((∃ e, ProcessImageDatum phase channels height width size crop_size mirror mean scale
        datum item_id top rng = Except.error e)
      ↔ (height ≤ crop_size ∨ width ≤ crop_size ∨ datum.data.length = 0))
    ∧ (height ≤ crop_size →
        ProcessImageDatum phase channels height width size crop_size mirror mean scale
          datum item_id top rng = Except.error Failure.cropHeight)
    ∧ (crop_size < height → width ≤ crop_size →
        ProcessImageDatum phase channels height width size crop_size mirror mean scale
          datum item_id top rng = Except.error Failure.cropWidth)
    ∧ (crop_size < height → crop_size < width → datum.data.length = 0 →
        ProcessImageDatum phase channels height width size crop_size mirror mean scale
          datum item_id top rng = Except.error Failure.cropNoBytes)
    ∧ ∀ e, ProcessImageDatum phase channels height width size crop_size mirror mean scale
          datum item_id top rng = Except.error e →
        (e = Failure.cropHeight ∨ e = Failure.cropWidth ∨ e = Failure.cropNoBytes)
        ∧ ∀ (mean' : Buf D) (scale' : D) (item_id' : Nat) (top' : Top D) (rng' : Rand),
            ProcessImageDatum phase channels height width size crop_size mirror mean' scale'
              datum item_id' top' rng' = Except.error e := by
  have hH : ∀ (m : Buf D) (sc : D) (it : Nat) (t : Top D) (r : Rand), height ≤ crop_size →
      ProcessImageDatum phase channels height width size crop_size mirror m sc datum it t r
        = Except.error Failure.cropHeight := by
    intro m sc it t r h
    unfold ProcessImageDatum
    have : ¬ crop_size < height := by omega
    simp only [hcrop, this, if_true, not_false_eq_true]
  have hW : ∀ (m : Buf D) (sc : D) (it : Nat) (t : Top D) (r : Rand), crop_size < height →
      width ≤ crop_size →
      ProcessImageDatum phase channels height width size crop_size mirror m sc datum it t r
        = Except.error Failure.cropWidth := by
    intro m sc it t r h1 h
    unfold ProcessImageDatum
    have : ¬ crop_size < width := by omega
    simp only [hcrop, h1, this, if_true, not_false_eq_true, not_true_eq_false, if_false]
  have hB : ∀ (m : Buf D) (sc : D) (it : Nat) (t : Top D) (r : Rand), crop_size < height →
      crop_size < width → datum.data.length = 0 →
      ProcessImageDatum phase channels height width size crop_size mirror m sc datum it t r
        = Except.error Failure.cropNoBytes := by
    intro m sc it t r h1 h2 h
    unfold ProcessImageDatum
    simp only [hcrop, h1, h2, h, if_true, not_true_eq_false, if_false]
  refine ⟨⟨?_, ?_⟩, hH mean scale item_id top rng, hW mean scale item_id top rng,
    hB mean scale item_id top rng, ?_⟩
  · rintro ⟨e, he⟩
    obtain ⟨_, h | h | h⟩ := ProcessImageDatum_error phase channels height width size
      crop_size mirror mean scale datum item_id top rng e he
    · exact Or.inl h.2
    · exact Or.inr (Or.inl h.2.2)
    · exact Or.inr (Or.inr h.2.2.2)
  · intro h
    by_cases h1 : crop_size < height
    · by_cases h2 : crop_size < width
      · have h3 : datum.data.length = 0 := by
          rcases h with h | h | h
          · omega
          · omega
          · exact h
        exact ⟨_, hB mean scale item_id top rng h1 h2 h3⟩
      · exact ⟨_, hW mean scale item_id top rng h1 (by omega)⟩
    · exact ⟨_, hH mean scale item_id top rng (by omega)⟩
  · intro e he
    obtain ⟨_, h | h | h⟩ := ProcessImageDatum_error phase channels height width size
      crop_size mirror mean scale datum item_id top rng e he
    · exact ⟨Or.inl h.1, fun m sc it t r => h.1 ▸ hH m sc it t r h.2⟩
    · exact ⟨Or.inr (Or.inl h.1), fun m sc it t r => h.1 ▸ hW m sc it t r h.2.1 h.2.2⟩
    · exact ⟨Or.inr (Or.inr h.1),
        fun m sc it t r => h.1 ▸ hB m sc it t r h.2.1 h.2.2.1 h.2.2.2⟩

/-- The statement of C12 on three calls with a 2 x 2 crop that fail: a 2 x 4
geometry, a 4 x 2 geometry, and a 4 x 4 image without bytes; the call on the
4 x 4 image `exDatum4` returns. -/
theorem ProcessImageDatum_fails_iff_witness :
    ProcessImageDatum Phase.TEST 1 2 4 8 2 false exMean 2 exDatum4 1 exTop exRand
      = Except.error Failure.cropHeight
    ∧ ProcessImageDatum Phase.TEST 1 4 2 8 2 false exMean 2 exDatum4 1 exTop exRand
      = Except.error Failure.cropWidth
    ∧ ProcessImageDatum Phase.TEST 1 4 4 16 2 false exMean 2
        { exDatum4 with data := [] } 1 exTop exRand
      = Except.error Failure.cropNoBytes
    ∧ ¬ (∃ e, ProcessImageDatum Phase.TEST 1 4 4 16 2 false exMean 2 exDatum4 1 exTop exRand
        = Except.error e) :=
  ⟨(ProcessImageDatum_fails_iff Phase.TEST 1 2 4 8 2 false exMean 2 exDatum4 1 exTop exRand
      (by decide)).2.1 (by decide),
   (ProcessImageDatum_fails_iff Phase.TEST 1 4 2 8 2 false exMean 2 exDatum4 1 exTop exRand
      (by decide)).2.2.1 (by decide) (by decide),
   (ProcessImageDatum_fails_iff Phase.TEST 1 4 4 16 2 false exMean 2
      { exDatum4 with data := [] } 1 exTop exRand (by decide)).2.2.2.1 (by decide)
      (by decide) rfl,
   fun h => absurd
     ((ProcessImageDatum_fails_iff Phase.TEST 1 4 4 16 2 false exMean 2 exDatum4 1 exTop
        exRand (by decide)).1.mp h) (by decide)⟩


variable [Zero D]

/-- C11. `AddImagesAndLabels` with `n` images, `m` labels and batch size `B`
fails at line 326 when `n = 0`, at line 328 when `n > B`, and at line 331
when `m < n`, and it returns only if `1 <= n <= B` and `n <= m`. These three
checks come before the first image is converted and before the first store:
when one of them fails the result is the same for every environment, every
conversion, every list of `n` images and every layer with batch size `B`, and
no layer is returned. -/
theorem AddImagesAndLabels_argument_checks {Mat : Type} [Inhabited Mat] (env : Env D)
    (toDatum : Mat → Nat → Nat → Datum D) (images : List Mat) (labels : List Int)
    (layer : ImageDataLayer D) :
    (images.length = 0 →
      AddImagesAndLabels env toDatum images labels layer = Except.error Failure.noImage)
    ∧ (0 < images.length → layer.layer_param_.batch_size < images.length →
      AddImagesAndLabels env toDatum images labels layer
        = Except.error Failure.tooManyImages)
    ∧ (0 < images.length → images.length ≤ layer.layer_param_.batch_size →
      labels.length < images.length →
      AddImagesAndLabels env toDatum images labels layer
        = Except.error Failure.tooFewLabels)
    ∧ (∀ layer', AddImagesAndLabels env toDatum images labels layer = Except.ok layer' →
      1 ≤ images.length ∧ images.length ≤ layer.layer_param_.batch_size
        ∧ images.length ≤ labels.length)
    ∧ ((images.length = 0 ∨ layer.layer_param_.batch_size < images.length
          ∨ labels.length < images.length) →
      ∀ (env' : Env D) (toDatum' : Mat → Nat → Nat → Datum D) (images' : List Mat)
        (layer' : ImageDataLayer D),
        images'.length = images.length →
        layer'.layer_param_.batch_size = layer.layer_param_.batch_size →
        AddImagesAndLabels env' toDatum' images' labels layer'
          = AddImagesAndLabels env toDatum images labels layer
        ∧ ∃ e, AddImagesAndLabels env toDatum images labels layer = Except.error e
          ∧ (e = Failure.noImage ∨ e = Failure.tooManyImages ∨ e = Failure.tooFewLabels)) := by
  have h0 : ∀ (env : Env D) (toDatum : Mat → Nat → Nat → Datum D) (images : List Mat)
      (layer : ImageDataLayer D), images.length = 0 →
      AddImagesAndLabels env toDatum images labels layer = Except.error Failure.noImage := by
    intro env toDatum images layer h
    unfold AddImagesAndLabels
    simp only [h, Nat.lt_irrefl, not_false_eq_true, if_true]
  have h1 : ∀ (env : Env D) (toDatum : Mat → Nat → Nat → Datum D) (images : List Mat)
      (layer : ImageDataLayer D), 0 < images.length →
      layer.layer_param_.batch_size < images.length →
      AddImagesAndLabels env toDatum images labels layer
        = Except.error Failure.tooManyImages := by
    intro env toDatum images layer hn h
    unfold AddImagesAndLabels
    have : ¬ images.length ≤ layer.layer_param_.batch_size := by omega
    simp only [hn, this, not_true_eq_false, not_false_eq_true, if_true, if_false]
  have h2 : ∀ (env : Env D) (toDatum : Mat → Nat → Nat → Datum D) (images : List Mat)
      (layer : ImageDataLayer D), 0 < images.length →
      images.length ≤ layer.layer_param_.batch_size → labels.length < images.length →
      AddImagesAndLabels env toDatum images labels layer
        = Except.error Failure.tooFewLabels := by
    intro env toDatum images layer hn hB h
    unfold AddImagesAndLabels
    have : ¬ images.length ≤ labels.length := by omega
    simp only [hn, hB, this, not_true_eq_false, not_false_eq_true, if_true, if_false]
  refine ⟨h0 env toDatum images layer, h1 env toDatum images layer,
    h2 env toDatum images layer, ?_, ?_⟩
  · intro layer' hok
    by_cases hn : 0 < images.length
    · by_cases hB : images.length ≤ layer.layer_param_.batch_size
      · by_cases hl : images.length ≤ labels.length
        · exact ⟨hn, hB, hl⟩
        · rw [h2 env toDatum images layer hn hB (by omega)] at hok
          exact absurd hok (by simp)
      · rw [h1 env toDatum images layer hn (by omega)] at hok
        exact absurd hok (by simp)
    · rw [h0 env toDatum images layer (by omega)] at hok
      exact absurd hok (by simp)
  · intro hbad env' toDatum' images' layer' hlen hbs
    by_cases hn : 0 < images.length
    · by_cases hB : images.length ≤ layer.layer_param_.batch_size
      · have hl : labels.length < images.length := by
          rcases hbad with h | h | h
          · omega
          · omega
          · exact h
        rw [h2 env toDatum images layer hn hB hl,
          h2 env' toDatum' images' layer' (by omega) (by omega) (by omega)]
        exact ⟨rfl, _, rfl, Or.inr (Or.inr rfl)⟩
      · rw [h1 env toDatum images layer hn (by omega),
          h1 env' toDatum' images' layer' (by omega) (by omega)]
        exact ⟨rfl, _, rfl, Or.inr (Or.inl rfl)⟩
    · rw [h0 env toDatum images layer (by omega), h0 env' toDatum' images' layer' (by omega)]
      exact ⟨rfl, _, rfl, Or.inl rfl⟩

/-- The statement of C11 on the injection scenario with batch size 4: no
image, six images, and two images with one label are refused; two images with
two labels are accepted. -/
theorem AddImagesAndLabels_argument_checks_witness :
    AddImagesAndLabels exEnv (fun (m : Datum Int) _ _ => m) [] [5, 9] (exLayer0 exParamAdHoc)
      = Except.error Failure.noImage
    ∧ AddImagesAndLabels exEnv (fun (m : Datum Int) _ _ => m)
        (exImages ++ exImages ++ exImages) [1, 2, 3, 4, 5, 6] (exLayer0 exParamAdHoc)
      = Except.error Failure.tooManyImages
    ∧ AddImagesAndLabels exEnv (fun (m : Datum Int) _ _ => m) exImages [5]
        (exLayer0 exParamAdHoc)
      = Except.error Failure.tooFewLabels
    ∧ (∀ layer', AddImagesAndLabels exEnv (fun (m : Datum Int) _ _ => m) exImages [5, 9]
          (exLayer0 exParamAdHoc) = Except.ok layer' →
        1 ≤ exImages.length ∧ exImages.length ≤ 4 ∧ exImages.length ≤ [5, 9].length)
    ∧ ∃ layer', AddImagesAndLabels exEnv (fun (m : Datum Int) _ _ => m) exImages [5, 9]
          (exLayer0 exParamAdHoc) = Except.ok layer' :=
  ⟨(AddImagesAndLabels_argument_checks exEnv (fun (m : Datum Int) _ _ => m) [] [5, 9]
      (exLayer0 exParamAdHoc)).1 rfl,
   (AddImagesAndLabels_argument_checks exEnv (fun (m : Datum Int) _ _ => m)
      (exImages ++ exImages ++ exImages) [1, 2, 3, 4, 5, 6]
      (exLayer0 exParamAdHoc)).2.1 (by decide) (by decide),
   (AddImagesAndLabels_argument_checks exEnv (fun (m : Datum Int) _ _ => m) exImages [5]
      (exLayer0 exParamAdHoc)).2.2.1 (by decide) (by decide) (by decide),
   (AddImagesAndLabels_argument_checks exEnv (fun (m : Datum Int) _ _ => m) exImages [5, 9]
      (exLayer0 exParamAdHoc)).2.2.2.1,
   ⟨_, rfl⟩⟩


omit [NatCast D] [IntCast D] [Sub D] [Mul D] [Zero D] in
/-- The skip step of `SetUp`, by cases on `rand_skip` and on the draw. -/
theorem skipPoints_cases (layer : ImageDataLayer D) :
    (layer.layer_param_.rand_skip = 0 →
      skipPoints layer = Except.ok { layer with lines_id_ := 0 })
    ∧ (0 < layer.layer_param_.rand_skip →
      layer.lines_.length ≤ layer.rand_ 0 % layer.layer_param_.rand_skip →
      skipPoints layer = Except.error Failure.skipRange)
    ∧ (0 < layer.layer_param_.rand_skip →
      layer.rand_ 0 % layer.layer_param_.rand_skip < layer.lines_.length →
      skipPoints layer = Except.ok { layer with
        rand_ := fun n => layer.rand_ (n + 1)
        lines_id_ := layer.rand_ 0 % layer.layer_param_.rand_skip }) := by
  refine ⟨?_, ?_, ?_⟩
  · intro h
    unfold skipPoints
    simp only [h, ne_eq, not_true_eq_false, if_false]
  · intro hs hk
    unfold skipPoints
    have h1 : layer.layer_param_.rand_skip ≠ 0 := by omega
    have h2 : ¬ layer.rand_ 0 % layer.layer_param_.rand_skip < layer.lines_.length := by omega
    simp only [h1, ne_eq, not_false_eq_true, if_true, Rand.next, h2]
  · intro hs hk
    unfold skipPoints
    have h1 : layer.layer_param_.rand_skip ≠ 0 := by omega
    simp only [h1, ne_eq, not_false_eq_true, if_true, Rand.next, hk, not_true_eq_false,
      if_false]

/-- With a manifest source, `SetUp` is the skip step on the layer with the
list loaded (and shuffled when configured), followed by the rest of the
setup. -/
theorem SetUp_steps (env : Env D) (layer : ImageDataLayer D) (source : String)
    (hsrc : layer.layer_param_.source = some source) :
    ∃ loaded : ImageDataLayer D,
      loaded.layer_param_ = layer.layer_param_
      ∧ loaded.rand_ = layer.rand_
      ∧ loaded.lines_.length = (layer.lines_ ++ env.manifest source).length
      ∧ (layer.layer_param_.shuffle = false →
          loaded.lines_ = layer.lines_ ++ env.manifest source)
      ∧ SetUp env layer
        = match skipPoints loaded with
          | Except.error e => Except.error e
          | Except.ok skipped =>
            finishSetUp env layer.layer_param_.new_height layer.layer_param_.new_height
              skipped := by
  have hcheck : (layer.layer_param_.new_height = 0 ∧ layer.layer_param_.new_height = 0)
      ∨ (0 < layer.layer_param_.new_height ∧ 0 < layer.layer_param_.new_height) := by
    rcases Nat.eq_zero_or_pos layer.layer_param_.new_height with h | h
    · exact Or.inl ⟨h, h⟩
    · exact Or.inr ⟨h, h⟩
  unfold SetUp
  simp only [hcheck, not_true_eq_false, if_false, hsrc]
  by_cases hsh : layer.layer_param_.shuffle = true
  · refine ⟨{ layer with
        is_datum_set_up_ := false
        lines_ := (ShuffleImages (env.RNG layer.seed_.next.1)
          (layer.lines_ ++ env.manifest source)).1
        prefetch_rng_ := some (ShuffleImages (env.RNG layer.seed_.next.1)
          (layer.lines_ ++ env.manifest source)).2
        seed_ := layer.seed_.next.2 }, rfl, rfl, (ShuffleImages_perm _ _).length_eq, ?_, ?_⟩
    · intro h
      rw [hsh] at h
      exact absurd h (by decide)
    · simp only [hsh, if_true]
  · refine ⟨{ layer with
        is_datum_set_up_ := false
        lines_ := layer.lines_ ++ env.manifest source }, rfl, rfl, rfl, fun _ => rfl, ?_⟩
    simp only [hsh, Bool.false_eq_true, if_false]


omit [Zero D] in
/-- The producer run of a configuration with mirror and without crop fails
at the guard of line 113. -/
theorem ImageDataLayerPrefetch_mirror_guard (env : Env D) (layer : ImageDataLayer D)
    (hm : layer.layer_param_.mirror = true) (hc : layer.layer_param_.crop_size = 0) :
    ImageDataLayerPrefetch env layer = Except.error Failure.mirrorNoCrop := by
  unfold ImageDataLayerPrefetch
  simp [hm, hc]

/-- C13, the behaviour of the code. Line 166 reads `new_height` into
`new_width`, so the check of line 169 compares `new_height` with itself and
passes for every configuration: without a manifest source `SetUp` returns
whatever `new_height` and `new_width` are, and with the scenario manifest it
returns for `new_height = 0, new_width = 5` and for
`new_height = 5, new_width = 0`, the first producer run done (cursor 2). -/
theorem SetUp_accepts_mismatched_new_size :
    (∀ (env : Env Int) (layer : ImageDataLayer Int), ∃ l,
      SetUp env { layer with layer_param_ := { layer.layer_param_ with source := none } }
        = Except.ok l)
    ∧ cursorOf (SetUp exEnv (exLayer0 { exParam with new_height := 0, new_width := 5 }))
        = some 2
    ∧ cursorOf (SetUp exEnv (exLayer0 { exParam with new_height := 5, new_width := 0 }))
        = some 2 := by
  refine ⟨?_, by decide, by decide⟩
  intro env layer
  have hcheck : (layer.layer_param_.new_height = 0 ∧ layer.layer_param_.new_height = 0)
      ∨ (0 < layer.layer_param_.new_height ∧ 0 < layer.layer_param_.new_height) := by
    rcases Nat.eq_zero_or_pos layer.layer_param_.new_height with h | h
    · exact Or.inl ⟨h, h⟩
    · exact Or.inr ⟨h, h⟩
  unfold SetUp
  simp only [hcheck, not_true_eq_false, if_false]
  exact ⟨_, rfl⟩

/-- C15. In `SetUp` with a manifest source, a list of length `L` after
loading, `rand_skip = s` and first `rand()` draw `r`: for `s > 0` the skip
count is `k = r mod s < s`; if `k >= L` the skip step and with it `SetUp` fail
at the check of line 202; if `k < L` the skip step returns with the cursor at
exactly `k` and `SetUp` goes on from there; for `s = 0` it returns with the
cursor at 0. -/
theorem SetUp_rand_skip (env : Env D) (layer : ImageDataLayer D) (source : String)
    (hsrc : layer.layer_param_.source = some source) :
    ∃ loaded : ImageDataLayer D,
      loaded.lines_.length = (layer.lines_ ++ env.manifest source).length
      ∧ (0 < layer.layer_param_.rand_skip →
          layer.rand_ 0 % layer.layer_param_.rand_skip < layer.layer_param_.rand_skip)
      ∧ (0 < layer.layer_param_.rand_skip →
          loaded.lines_.length ≤ layer.rand_ 0 % layer.layer_param_.rand_skip →
          skipPoints loaded = Except.error Failure.skipRange
          ∧ SetUp env layer = Except.error Failure.skipRange)
      ∧ (0 < layer.layer_param_.rand_skip →
          layer.rand_ 0 % layer.layer_param_.rand_skip < loaded.lines_.length →
          ∃ skipped, skipPoints loaded = Except.ok skipped
            ∧ skipped.lines_id_ = layer.rand_ 0 % layer.layer_param_.rand_skip
            ∧ skipped.lines_ = loaded.lines_
            ∧ SetUp env layer
              = finishSetUp env layer.layer_param_.new_height
                  layer.layer_param_.new_height skipped)
      ∧ (layer.layer_param_.rand_skip = 0 →
          ∃ skipped, skipPoints loaded = Except.ok skipped
            ∧ skipped.lines_id_ = 0
            ∧ skipped.lines_ = loaded.lines_
            ∧ SetUp env layer
              = finishSetUp env layer.layer_param_.new_height
                  layer.layer_param_.new_height skipped) := by
  obtain ⟨loaded, hparam, hrand, hlen, _, hsetup⟩ := SetUp_steps env layer source hsrc
  obtain ⟨h0, h1, h2⟩ := skipPoints_cases loaded
  rw [hparam, hrand] at h0 h1 h2
  refine ⟨loaded, hlen, fun hs => Nat.mod_lt _ hs, ?_, ?_, ?_⟩
  · intro hs hk
    refine ⟨h1 hs hk, ?_⟩
    rw [hsetup, h1 hs hk]
  · intro hs hk
    refine ⟨_, h2 hs hk, rfl, rfl, ?_⟩
    rw [hsetup, h2 hs hk]
  · intro hs
    refine ⟨_, h0 hs, rfl, rfl, ?_⟩
    rw [hsetup, h0 hs]

/-- The statement of C15 on the three-entry manifest with the first draw 5:
with `rand_skip = 4` the skip count 1 is below the length and the first
producer run starts at entry 1 (labels 2, 0); with `rand_skip = 6` the skip
count 5 is not, and the setup fails. -/
theorem SetUp_rand_skip_witness :
    (∃ loaded : ImageDataLayer Int,
      loaded.lines_.length = (([] : List Entry) ++ exManifest).length
      ∧ (0 < 4 → exRand 0 % 4 < 4)
      ∧ (0 < 4 → loaded.lines_.length ≤ exRand 0 % 4 →
          skipPoints loaded = Except.error Failure.skipRange
          ∧ SetUp exEnv (exLayer0 { exParam with rand_skip := 4 })
            = Except.error Failure.skipRange)
      ∧ (0 < 4 → exRand 0 % 4 < loaded.lines_.length →
          ∃ skipped, skipPoints loaded = Except.ok skipped
            ∧ skipped.lines_id_ = exRand 0 % 4
            ∧ skipped.lines_ = loaded.lines_
            ∧ SetUp exEnv (exLayer0 { exParam with rand_skip := 4 })
              = finishSetUp exEnv 0 0 skipped)
      ∧ (4 = 0 →
          ∃ skipped, skipPoints loaded = Except.ok skipped
            ∧ skipped.lines_id_ = 0
            ∧ skipped.lines_ = loaded.lines_
            ∧ SetUp exEnv (exLayer0 { exParam with rand_skip := 4 })
              = finishSetUp exEnv 0 0 skipped))
    ∧ labelsOf (SetUp exEnv (exLayer0 { exParam with rand_skip := 4 }) >>= Forward_cpu exEnv)
        = some [2, 0]
    ∧ SetUp exEnv (exLayer0 { exParam with rand_skip := 6 })
        = Except.error Failure.skipRange
    ∧ cursorOf (SetUp exEnv (exLayer0 exParam)) = some 2 :=
  ⟨SetUp_rand_skip exEnv (exLayer0 { exParam with rand_skip := 4 }) "list.txt" rfl,
    by decide, rfl, by decide⟩

end Rejected

/-! ## Accesses of the transform -/

section Accesses

variable {D : Type}

theorem storeAll_nil (val : Nat → D) (td : Buf D) : storeAll val [] td = td := rfl

theorem storeAll_cons (val : Nat → D) (a : Nat × Nat) (as : List (Nat × Nat)) (td : Buf D) :
    storeAll val (a :: as) td = storeAll val as (td.write a.1 (val a.2)) := rfl

/-- Stores leave every index that is not stored at as it was. -/
theorem storeAll_not_mem (val : Nat → D) (as : List (Nat × Nat)) (k : Nat) :
    ∀ td : Buf D, k ∉ as.map Prod.fst → storeAll val as td k = td k := by
  induction as with
  | nil => intro td _; rfl
  | cons a as ih =>
    intro td hk
    rw [storeAll_cons, ih _ (fun h => hk (by simp [h]))]
    apply Buf.write_other
    intro he
    exact hk (by simp [he])

/-- A loop whose iterations run inner loops is the loop over the concatenated
inner lists. -/
theorem foldl_flatMap_eq {σ α β : Type} (step : σ → β → σ) (g : α → List β) (l : List α) :
    ∀ s : σ, l.foldl (fun s i => (g i).foldl step s) s = (l.flatMap g).foldl step s := by
  induction l with
  | nil => intro s; rfl
  | cons a l ih =>
    intro s
    rw [List.foldl_cons, List.flatMap_cons, List.foldl_append, ih]

/-- Rows that are permutations of consecutive blocks of `m` indices make up a
permutation of the whole range. -/
theorem flatMap_perm_range' (b m : Nat) (f : Nat → List Nat) :
    ∀ n : Nat, (∀ a, a < n → (f a).Perm (List.range' ((b + a) * m) m)) →
      ((List.range n).flatMap f).Perm (List.range' (b * m) (n * m)) := by
  intro n
  induction n with
  | zero =>
    intro _
    simp
  | succ n ih =>
    intro hf
    rw [List.range_succ, List.flatMap_append, List.flatMap_cons, List.flatMap_nil,
      List.append_nil]
    have h1 := ih (fun a ha => hf a (Nat.lt_succ_of_lt ha))
    have h2 := hf n (Nat.lt_succ_self n)
    have h3 : List.range' (b * m) ((n + 1) * m)
        = List.range' (b * m) (n * m) ++ List.range' ((b + n) * m) m := by
      rw [Nat.add_mul b n m, Nat.succ_mul]
      have := List.range'_append (b * m) (n * m) m 1
      rw [Nat.one_mul] at this
      rw [this, Nat.add_comm m (n * m)]
    rw [h3]
    exact List.Perm.append h1 h2

/-- The indices stored at by the cropped copies, row by row. -/
theorem cropAccesses_dst (mirrored : Bool)
    (channels height width crop_size item_id h_off w_off : Nat) :
    (cropAccesses mirrored channels height width crop_size item_id h_off w_off).map Prod.fst
      = (List.range channels).flatMap (fun c =>
          (List.range crop_size).flatMap (fun h =>
            (List.range crop_size).map (fun w =>
              if mirrored then
                ((item_id * channels + c) * crop_size + h) * crop_size + crop_size - 1 - w
              else ((item_id * channels + c) * crop_size + h) * crop_size + w))) := by
  unfold cropAccesses
  simp only [List.map_flatMap, List.map_map]
  rfl

/-- The cropped copies store at exactly the indices of the slot, at each of
them once. -/
theorem cropAccesses_perm (mirrored : Bool)
    (channels height width crop_size item_id h_off w_off : Nat) :
    ((cropAccesses mirrored channels height width crop_size item_id h_off w_off).map
        Prod.fst).Perm
      (List.range' (item_id * (channels * crop_size * crop_size))
        (channels * crop_size * crop_size)) := by
  rw [cropAccesses_dst]
  have hrow : ∀ x : Nat,
      ((List.range crop_size).map (fun w =>
        if mirrored then x * crop_size + crop_size - 1 - w else x * crop_size + w)).Perm
        (List.range' (x * crop_size) crop_size) := by
    intro x
    cases mirrored with
    | false =>
      simp only [Bool.false_eq_true, if_false]
      rw [List.range'_eq_map_range]
    | true =>
      simp only [if_true]
      rw [← List.reverse_range']
      exact List.reverse_perm _
  have hchan : ∀ c : Nat,
      ((List.range crop_size).flatMap (fun h =>
        (List.range crop_size).map (fun w =>
          if mirrored then
            ((item_id * channels + c) * crop_size + h) * crop_size + crop_size - 1 - w
          else ((item_id * channels + c) * crop_size + h) * crop_size + w))).Perm
        (List.range' ((item_id * channels + c) * (crop_size * crop_size))
          (crop_size * crop_size)) := by
    intro c
    have := flatMap_perm_range' ((item_id * channels + c) * crop_size) crop_size
      (fun h => (List.range crop_size).map (fun w =>
        if mirrored then
          ((item_id * channels + c) * crop_size + h) * crop_size + crop_size - 1 - w
        else ((item_id * channels + c) * crop_size + h) * crop_size + w))
      crop_size (fun h _ => hrow _)
    rw [Nat.mul_assoc] at this
    exact this
  have hall := flatMap_perm_range' (item_id * channels) (crop_size * crop_size) _ channels
    (fun c _ => hchan c)
  have e1 : item_id * channels * (crop_size * crop_size)
      = item_id * (channels * crop_size * crop_size) := by
    simp only [Nat.mul_assoc]
  have e2 : channels * (crop_size * crop_size) = channels * crop_size * crop_size := by
    simp only [Nat.mul_assoc]
  rw [e1, e2] at hall
  exact hall

/-- The whole-image copies store at exactly the indices of the slot, in
increasing order. -/
theorem wholeAccesses_dst (size item_id : Nat) :
    (wholeAccesses size item_id).map Prod.fst = List.range' (item_id * size) size := by
  unfold wholeAccesses
  rw [List.map_map, List.range'_eq_map_range]
  rfl

/-- The accesses of the cropped copies, one for each position of the crop
window. -/
theorem mem_cropAccesses (mirrored : Bool)
    (channels height width crop_size item_id h_off w_off : Nat) (a : Nat × Nat) :
    a ∈ cropAccesses mirrored channels height width crop_size item_id h_off w_off
      ↔ ∃ c h w, c < channels ∧ h < crop_size ∧ w < crop_size
          ∧ a = (if mirrored then
                ((item_id * channels + c) * crop_size + h) * crop_size + crop_size - 1 - w
              else ((item_id * channels + c) * crop_size + h) * crop_size + w,
              (c * height + h + h_off) * width + w + w_off) := by
  unfold cropAccesses
  simp only [List.mem_flatMap, List.mem_map, List.mem_range]
  constructor
  · rintro ⟨c, hc, h, hh, w, hw, rfl⟩
    exact ⟨c, h, w, hc, hh, hw, rfl⟩
  · rintro ⟨c, h, w, hc, hh, hw, rfl⟩
    exact ⟨c, hc, h, hh, w, hw, rfl⟩

end Accesses

section AccessClaims

variable {D : Type} [NatCast D] [Sub D] [Mul D]

/-- The normal copy performs the accesses of `cropAccesses false`, in order. -/
theorem copyNormal_eq_storeAll (channels height width crop_size : Nat) (mean : Buf D)
    (scale : D) (data : List Int) (item_id h_off w_off : Nat) (td : Buf D) :
    copyNormal channels height width crop_size mean scale data item_id h_off w_off td
      = storeAll (byteSample mean scale data)
          (cropAccesses false channels height width crop_size item_id h_off w_off) td := by
  unfold copyNormal storeAll cropAccesses
  simp only [← foldl_flatMap_eq, List.foldl_map, Bool.false_eq_true, if_false]

/-- The mirrored copy performs the accesses of `cropAccesses true`, in
order. -/
theorem copyMirrored_eq_storeAll (channels height width crop_size : Nat) (mean : Buf D)
    (scale : D) (data : List Int) (item_id h_off w_off : Nat) (td : Buf D) :
    copyMirrored channels height width crop_size mean scale data item_id h_off w_off td
      = storeAll (byteSample mean scale data)
          (cropAccesses true channels height width crop_size item_id h_off w_off) td := by
  unfold copyMirrored storeAll cropAccesses
  simp only [← foldl_flatMap_eq, List.foldl_map, if_true]

/-- The whole-image byte copy performs the accesses of `wholeAccesses`. -/
theorem copyBytes_eq_storeAll (size : Nat) (mean : Buf D) (scale : D) (data : List Int)
    (item_id : Nat) (td : Buf D) :
    copyBytes size mean scale data item_id td
      = storeAll (byteSample mean scale data) (wholeAccesses size item_id) td := by
  unfold copyBytes storeAll wholeAccesses
  simp only [List.foldl_map]

omit [NatCast D] in
/-- The whole-image float copy performs the accesses of `wholeAccesses`. -/
theorem copyFloats_eq_storeAll (size : Nat) (mean : Buf D) (scale : D)
    (float_data : Nat → D) (item_id : Nat) (td : Buf D) :
    copyFloats size mean scale float_data item_id td
      = storeAll (fun j => (float_data j - mean j) * scale) (wholeAccesses size item_id) td := by
  unfold copyFloats storeAll wholeAccesses
  simp only [List.foldl_map]

/-- A call of `ProcessImageDatum` that passes the crop checks returns the data
buffer with the accesses of `dataAccesses` performed, and the label buffer
with the label stored at `item_id`. -/
theorem ProcessImageDatum_eq_storeAll [IntCast D] (phase : Phase)
    (channels height width size crop_size : Nat) (mirror : Bool) (mean : Buf D) (scale : D)
    (datum : Datum D) (item_id : Nat) (top : Top D) (rng : Rand)
    (hgeo : 0 < crop_size → crop_size < height ∧ crop_size < width ∧ datum.data.length ≠ 0) :
    ∃ rng' : Rand,
      ProcessImageDatum phase channels height width size crop_size mirror mean scale datum
          item_id top rng
        = Except.ok (⟨storeAll (sampleAt mean scale datum)
              (dataAccesses phase channels height width size crop_size mirror item_id rng)
              top.top_data,
            top.top_label.write item_id (datum.label : D)⟩, rng') := by
  by_cases hc : 0 < crop_size
  · obtain ⟨h1, h2, h3⟩ := hgeo hc
    refine ⟨(mirrorCoin mirror (cropOffsets phase height width crop_size rng).2).2, ?_⟩
    rw [ProcessImageDatum_crop phase channels height width size crop_size mirror mean scale
      datum item_id top rng hc h1 h2 h3]
    have hs : sampleAt mean scale datum = byteSample mean scale datum.data := by
      funext src
      simp [sampleAt, h3]
    rw [hs]
    unfold dataAccesses
    simp only [hc, if_true]
    cases hcoin : (mirrorCoin mirror (cropOffsets phase height width crop_size rng).2).1
    · simp only [Bool.false_eq_true, if_false, copyNormal_eq_storeAll]
    · simp only [if_true, copyMirrored_eq_storeAll]
  · refine ⟨rng, ?_⟩
    unfold ProcessImageDatum dataAccesses
    simp only [hc, if_false]
    by_cases hb : datum.data.length ≠ 0
    · have hs : sampleAt mean scale datum = byteSample mean scale datum.data := by
        funext src
        simp [sampleAt, hb]
      simp only [hb, ne_eq, not_false_eq_true, if_true, copyBytes_eq_storeAll, hs]
    · have hs : sampleAt mean scale datum
          = fun j => (datum.float_data j - mean j) * scale := by
        funext src
        simp [sampleAt, hb]
      simp only [hb, if_false, copyFloats_eq_storeAll, hs]

/-- The accesses of a call store at exactly the indices of its slot, at each
of them once. -/
theorem dataAccesses_perm (phase : Phase) (channels height width size crop_size : Nat)
    (mirror : Bool) (item_id : Nat) (rng : Rand) :
    ((dataAccesses phase channels height width size crop_size mirror item_id rng).map
        Prod.fst).Perm
      (List.range' (item_id * slotSize channels size crop_size)
        (slotSize channels size crop_size)) := by
  unfold dataAccesses slotSize
  by_cases hc : 0 < crop_size
  · simp only [hc, if_true]
    exact cropAccesses_perm _ _ _ _ _ _ _ _
  · simp only [hc, if_false]
    rw [wholeAccesses_dst]


/-- With valid geometry the crop offsets keep the crop window inside the
image, in both phases. -/
theorem cropOffsets_le (phase : Phase) (height width crop_size : Nat) (rng : Rand)
    (hh : crop_size < height) (hw : crop_size < width) :
    (cropOffsets phase height width crop_size rng).1.1 ≤ height - crop_size
    ∧ (cropOffsets phase height width crop_size rng).1.2 ≤ width - crop_size := by
  cases phase with
  | TRAIN =>
    exact ⟨Nat.le_of_lt (Nat.mod_lt _ (by omega)), Nat.le_of_lt (Nat.mod_lt _ (by omega))⟩
  | TEST => exact ⟨Nat.div_le_self _ _, Nat.div_le_self _ _⟩

/-- A source index of the crop window lies inside the image. -/
theorem source_index_lt {channels height width crop_size c h w h_off w_off : Nat}
    (hc : c < channels) (hh : h < crop_size) (hw : w < crop_size)
    (hho : h_off + crop_size ≤ height) (hwo : w_off + crop_size ≤ width) :
    (c * height + h + h_off) * width + w + w_off < channels * height * width := by
  have h1 : (c + 1) * height ≤ channels * height := Nat.mul_le_mul_right _ hc
  rw [Nat.succ_mul] at h1
  have h2 : c * height + h + h_off + 1 ≤ channels * height := by omega
  have h3 : (c * height + h + h_off + 1) * width ≤ channels * height * width :=
    Nat.mul_le_mul_right _ h2
  rw [Nat.succ_mul] at h3
  omega

/-- C18. A call of `ProcessImageDatum` for slot `item_id` that passes its
checks, with `size = channels * height * width` as the layer sets it, stores
in the data buffer at exactly the indices `item_id * S .. (item_id + 1) * S - 1`,
at each of them once, where `S = channels * crop * crop` with a crop and
`S = channels * height * width` without: its stores are the accesses of
`dataAccesses` in order, and their indices are a permutation of that range,
in the normal and in the mirrored branch alike. It stores in the label buffer
at index `item_id` only. Every other element of the two buffers is left as
it was. -/
theorem ProcessImageDatum_writes_exactly_slot [IntCast D] (phase : Phase)
    (channels height width size crop_size : Nat) (mirror : Bool) (mean : Buf D) (scale : D)
    (datum : Datum D) (item_id : Nat) (top : Top D) (rng : Rand)
    (hgeo : 0 < crop_size → crop_size < height ∧ crop_size < width ∧ datum.data.length ≠ 0)
    (hsize : size = channels * height * width) :
    ∃ (out : Top D) (rng' : Rand),
      ProcessImageDatum phase channels height width size crop_size mirror mean scale datum
          item_id top rng = Except.ok (out, rng')
      ∧ slotSize channels size crop_size
          = (if 0 < crop_size then channels * crop_size * crop_size
              else channels * height * width)
      ∧ out.top_data
          = storeAll (sampleAt mean scale datum)
              (dataAccesses phase channels height width size crop_size mirror item_id rng)
              top.top_data
      ∧ ((dataAccesses phase channels height width size crop_size mirror item_id rng).map
            Prod.fst).Perm
          (List.range' (item_id * slotSize channels size crop_size)
            (slotSize channels size crop_size))
      ∧ (∀ (mirrored : Bool) (h_off w_off : Nat),
          ((cropAccesses mirrored channels height width crop_size item_id h_off w_off).map
              Prod.fst).Perm
            (List.range' (item_id * (channels * crop_size * crop_size))
              (channels * crop_size * crop_size)))
      ∧ (∀ k, (k < item_id * slotSize channels size crop_size
            ∨ (item_id + 1) * slotSize channels size crop_size ≤ k) →
          out.top_data k = top.top_data k)
      ∧ out.top_label = top.top_label.write item_id (datum.label : D)
      ∧ out.top_label item_id = (datum.label : D)
      ∧ ∀ k, k ≠ item_id → out.top_label k = top.top_label k := by
  obtain ⟨rng', hrun⟩ := ProcessImageDatum_eq_storeAll phase channels height width size
    crop_size mirror mean scale datum item_id top rng hgeo
  have hperm := dataAccesses_perm phase channels height width size crop_size mirror item_id rng
  refine ⟨_, rng', hrun, ?_, rfl, hperm, fun m ho wo => cropAccesses_perm m _ _ _ _ _ ho wo,
    ?_, rfl, Buf.write_same _ _ _, fun k hk => Buf.write_other _ _ hk⟩
  · unfold slotSize
    rw [hsize]
  · intro k hk
    apply storeAll_not_mem
    intro hmem
    have hin := (hperm.mem_iff).mp hmem
    rw [List.mem_range'_1] at hin
    have hsucc : (item_id + 1) * slotSize channels size crop_size
        = item_id * slotSize channels size crop_size + slotSize channels size crop_size :=
      Nat.succ_mul _ _
    omega

/-- The statement of C18 on the 4 x 4 image `exDatum4` with a 2 x 2 crop in the
training phase, slot 1: the mirrored branch is taken and stores at the indices
5, 4, 7, 6. -/
theorem ProcessImageDatum_writes_exactly_slot_witness :
    (∃ (out : Top Int) (rng' : Rand),
      ProcessImageDatum Phase.TRAIN 1 4 4 16 2 true exMean 2 exDatum4 1 exTop exRand
        = Except.ok (out, rng')
      ∧ slotSize 1 16 2 = (if 0 < 2 then 1 * 2 * 2 else 1 * 4 * 4)
      ∧ out.top_data
          = storeAll (sampleAt exMean 2 exDatum4)
              (dataAccesses Phase.TRAIN 1 4 4 16 2 true 1 exRand) exTop.top_data
      ∧ ((dataAccesses Phase.TRAIN 1 4 4 16 2 true 1 exRand).map Prod.fst).Perm
          (List.range' (1 * slotSize 1 16 2) (slotSize 1 16 2))
      ∧ (∀ (mirrored : Bool) (h_off w_off : Nat),
          ((cropAccesses mirrored 1 4 4 2 1 h_off w_off).map Prod.fst).Perm
            (List.range' (1 * (1 * 2 * 2)) (1 * 2 * 2)))
      ∧ (∀ k, (k < 1 * slotSize 1 16 2 ∨ (1 + 1) * slotSize 1 16 2 ≤ k) →
          out.top_data k = exTop.top_data k)
      ∧ out.top_label = exTop.top_label.write 1 (exDatum4.label : Int)
      ∧ out.top_label 1 = (exDatum4.label : Int)
      ∧ ∀ k, k ≠ 1 → out.top_label k = exTop.top_label k)
    ∧ (dataAccesses Phase.TRAIN 1 4 4 16 2 true 1 exRand).map Prod.fst = [5, 4, 7, 6] :=
  ⟨ProcessImageDatum_writes_exactly_slot Phase.TRAIN 1 4 4 16 2 true exMean 2 exDatum4 1 exTop
      exRand (fun _ => ⟨by decide, by decide, by decide⟩) rfl,
    by decide⟩

/-- C19. With `crop > 0`, `height > crop`, `width > crop`, `item_id <
batchSize` and a byte payload of `channels * height * width` bytes: in both
phases and for every random draw, every access of `ProcessImageDatum` reads
the image and the mean at an index below `channels * height * width` and
stores at an index below `batchSize * channels * crop * crop`. The call
performs exactly these accesses when there is a channel, and fails at the
check of line 37 without any access when there is none. -/
theorem ProcessImageDatum_accesses_in_range [IntCast D] (phase : Phase)
    (channels height width size crop_size batch_size : Nat) (mirror : Bool) (mean : Buf D)
    (scale : D) (datum : Datum D) (item_id : Nat) (top : Top D) (rng : Rand)
    (hcrop : 0 < crop_size) (hh : crop_size < height) (hw : crop_size < width)
    (hitem : item_id < batch_size)
    (hlen : datum.data.length = channels * height * width) :
    (∀ a, a ∈ dataAccesses phase channels height width size crop_size mirror item_id rng →
        a.2 < channels * height * width ∧ a.2 < datum.data.length
        ∧ a.1 < batch_size * (channels * crop_size * crop_size))
    ∧ (0 < channels → ∃ rng' : Rand,
        ProcessImageDatum phase channels height width size crop_size mirror mean scale datum
            item_id top rng
          = Except.ok (⟨storeAll (sampleAt mean scale datum)
                (dataAccesses phase channels height width size crop_size mirror item_id rng)
                top.top_data,
              top.top_label.write item_id (datum.label : D)⟩, rng'))
    ∧ (channels = 0 →
        ProcessImageDatum phase channels height width size crop_size mirror mean scale datum
            item_id top rng = Except.error Failure.cropNoBytes) := by
  refine ⟨?_, ?_, ?_⟩
  · intro a ha
    have hperm := dataAccesses_perm phase channels height width size crop_size mirror
      item_id rng
    have hdst : a.1 ∈ List.range' (item_id * slotSize channels size crop_size)
        (slotSize channels size crop_size) :=
      (hperm.mem_iff).mp (List.mem_map_of_mem Prod.fst ha)
    have hS : slotSize channels size crop_size = channels * crop_size * crop_size := by
      simp [slotSize, hcrop]
    rw [hS, List.mem_range'_1] at hdst
    have hB : (item_id + 1) * (channels * crop_size * crop_size)
        ≤ batch_size * (channels * crop_size * crop_size) := Nat.mul_le_mul_right _ hitem
    rw [Nat.succ_mul] at hB
    unfold dataAccesses at ha
    simp only [hcrop, if_true] at ha
    obtain ⟨c, h, w, hc, hh1, hw1, rfl⟩ := (mem_cropAccesses _ _ _ _ _ _ _ _ a).mp ha
    obtain ⟨ho1, ho2⟩ := cropOffsets_le phase height width crop_size rng hh hw
    have hsrc := @source_index_lt channels height width crop_size c h w
      (cropOffsets phase height width crop_size rng).1.1
      (cropOffsets phase height width crop_size rng).1.2 hc hh1 hw1 (by omega) (by omega)
    refine ⟨hsrc, by rw [hlen]; exact hsrc, by omega⟩
  · intro hch
    have hpos : 0 < channels * height * width :=
      Nat.mul_pos (Nat.mul_pos hch (by omega)) (by omega)
    exact ProcessImageDatum_eq_storeAll phase channels height width size crop_size mirror mean
      scale datum item_id top rng (fun _ => ⟨hh, hw, by omega⟩)
  · intro hch
    unfold ProcessImageDatum
    have h0 : datum.data.length = 0 := by rw [hlen, hch]; simp
    simp only [hcrop, hh, hw, h0, if_true, not_true_eq_false, if_false]

/-- The statement of C19 on the 4 x 4 image `exDatum4` with a 2 x 2 crop,
slot 1 of a batch of 2, in the training phase with the mirror flag set. -/
theorem ProcessImageDatum_accesses_in_range_witness :
    (∀ a, a ∈ dataAccesses Phase.TRAIN 1 4 4 16 2 true 1 exRand →
        a.2 < 1 * 4 * 4 ∧ a.2 < exDatum4.data.length ∧ a.1 < 2 * (1 * 2 * 2))
    ∧ (0 < 1 → ∃ rng' : Rand,
        ProcessImageDatum Phase.TRAIN 1 4 4 16 2 true exMean 2 exDatum4 1 exTop exRand
          = Except.ok (⟨storeAll (sampleAt exMean 2 exDatum4)
                (dataAccesses Phase.TRAIN 1 4 4 16 2 true 1 exRand) exTop.top_data,
              exTop.top_label.write 1 (exDatum4.label : Int)⟩, rng'))
    ∧ (1 = 0 →
        ProcessImageDatum Phase.TRAIN 1 4 4 16 2 true exMean 2 exDatum4 1 exTop exRand
          = Except.error Failure.cropNoBytes) :=
  ProcessImageDatum_accesses_in_range Phase.TRAIN 1 4 4 16 2 2 true exMean 2 exDatum4 1 exTop
    exRand (by decide) (by decide) (by decide) (by decide) (by decide)

end AccessClaims

/-! ## Frame of a producer run -/

section Frame

variable {D : Type} [NatCast D] [IntCast D] [Sub D] [Mul D]

/-- A call of `ProcessImageDatum` that returns has passed the crop checks. -/
theorem ProcessImageDatum_ok_geo (phase : Phase) (channels height width size crop_size : Nat)
    (mirror : Bool) (mean : Buf D) (scale : D) (datum : Datum D) (item_id : Nat)
    (top : Top D) (rng : Rand) (out : Top D × Rand)
    (h : ProcessImageDatum phase channels height width size crop_size mirror mean scale datum
      item_id top rng = Except.ok out) :
    0 < crop_size → crop_size < height ∧ crop_size < width ∧ datum.data.length ≠ 0 := by
  intro hc
  unfold ProcessImageDatum at h
  simp only [hc, if_true] at h
  by_cases h1 : crop_size < height
  · by_cases h2 : crop_size < width
    · by_cases h3 : datum.data.length = 0
      · simp [h1, h2, h3] at h
      · exact ⟨h1, h2, h3⟩
    · simp [h1, h2] at h
  · simp [h1] at h

/-- A call of `ProcessImageDatum` that returns has stored the label at
`item_id` and has left the data outside slot `item_id` as it was. -/
theorem ProcessImageDatum_frame (phase : Phase) (channels height width size crop_size : Nat)
    (mirror : Bool) (mean : Buf D) (scale : D) (datum : Datum D) (item_id : Nat)
    (top : Top D) (rng : Rand) (out : Top D × Rand)
    (h : ProcessImageDatum phase channels height width size crop_size mirror mean scale datum
      item_id top rng = Except.ok out) :
    out.1.top_label = top.top_label.write item_id (datum.label : D)
    ∧ ∀ k, (k < item_id * slotSize channels size crop_size
          ∨ (item_id + 1) * slotSize channels size crop_size ≤ k) →
        out.1.top_data k = top.top_data k := by
  obtain ⟨rng', hrun⟩ := ProcessImageDatum_eq_storeAll phase channels height width size
    crop_size mirror mean scale datum item_id top rng
    (ProcessImageDatum_ok_geo phase channels height width size crop_size mirror mean scale
      datum item_id top rng out h)
  rw [hrun] at h
  injection h with h
  subst h
  refine ⟨rfl, ?_⟩
  intro k hk
  apply storeAll_not_mem
  intro hmem
  have hin := ((dataAccesses_perm phase channels height width size crop_size mirror item_id
    rng).mem_iff).mp hmem
  rw [List.mem_range'_1] at hin
  have hsucc : (item_id + 1) * slotSize channels size crop_size
      = item_id * slotSize channels size crop_size + slotSize channels size crop_size :=
    Nat.succ_mul _ _
  omega

/-- A loop iteration whose decode succeeds and whose transform returns. -/
theorem prefetchItem_of_transform_ok (env : Env D) (lines_size : Nat)
    (layer : ImageDataLayer D) (item_id : Nat) (d : Datum D) (out : Top D × Rand)
    (hid : layer.lines_id_ < lines_size)
    (hdec : env.imread layer.reads_ (layer.lines_.getD layer.lines_id_ ("", 0)).1
      layer.layer_param_.new_height layer.layer_param_.new_width
      layer.layer_param_.images_in_color = some d)
    (hpid : ProcessImageDatum env.phase layer.datum_channels_ layer.datum_height_
      layer.datum_width_ layer.datum_size_ layer.layer_param_.crop_size
      layer.layer_param_.mirror layer.data_mean_.cpu_data layer.layer_param_.scale
      ({ d with label := (layer.lines_.getD layer.lines_id_ ("", 0)).2 } : Datum D) item_id
      ⟨layer.prefetch_data_.cpu_data, layer.prefetch_label_.cpu_data⟩ layer.rand_
        = Except.ok out) :
    ∃ (rng : Rand) (lines : List Entry),
      prefetchItem env lines_size layer item_id
        = Except.ok (layer.after out.1.top_data
            (layer.prefetch_label_.cpu_data.write item_id
              (((layer.lines_.getD layer.lines_id_ ("", 0)).2 : Int) : D))
            rng lines ((layer.lines_id_ + 1) % lines_size) (layer.reads_ + 1))
      ∧ (lines = layer.lines_ ∨ ∃ r, lines = (env.random_shuffle r layer.lines_).1) := by
  have hg := ProcessImageDatum_ok_geo _ _ _ _ _ _ _ _ _ _ _ _ _ out hpid
  obtain ⟨td, rng0, lines0, hstep, hlines⟩ := prefetchItem_fill env lines_size layer item_id d
    hid hdec hg
  have hstep2 := hstep
  unfold prefetchItem at hstep2
  simp only [hid, not_true_eq_false, if_false, ReadImageToDatum, hdec, Option.map_some',
    hpid] at hstep2
  have htd : td = out.1.top_data := by
    split at hstep2
    · split at hstep2
      · injection hstep2 with h1
        have := congrArg (fun l => l.prefetch_data_.cpu_data) h1
        exact this.symm
      · injection hstep2 with h1
        have := congrArg (fun l => l.prefetch_data_.cpu_data) h1
        exact this.symm
    · injection hstep2 with h1
      have := congrArg (fun l => l.prefetch_data_.cpu_data) h1
      exact this.symm
  subst htd
  refine ⟨rng0, lines0, hstep, ?_⟩
  rcases hlines with h | ⟨_, _, r, hr⟩
  · exact Or.inl h
  · exact Or.inr ⟨r, hr⟩

/-- A loop iteration whose transform fails, fails with it. -/
theorem prefetchItem_of_transform_error (env : Env D) (lines_size : Nat)
    (layer : ImageDataLayer D) (item_id : Nat) (d : Datum D) (e : Failure)
    (hid : layer.lines_id_ < lines_size)
    (hdec : env.imread layer.reads_ (layer.lines_.getD layer.lines_id_ ("", 0)).1
      layer.layer_param_.new_height layer.layer_param_.new_width
      layer.layer_param_.images_in_color = some d)
    (hpid : ProcessImageDatum env.phase layer.datum_channels_ layer.datum_height_
      layer.datum_width_ layer.datum_size_ layer.layer_param_.crop_size
      layer.layer_param_.mirror layer.data_mean_.cpu_data layer.layer_param_.scale
      ({ d with label := (layer.lines_.getD layer.lines_id_ ("", 0)).2 } : Datum D) item_id
      ⟨layer.prefetch_data_.cpu_data, layer.prefetch_label_.cpu_data⟩ layer.rand_
        = Except.error e) :
    prefetchItem env lines_size layer item_id = Except.error e := by
  unfold prefetchItem
  simp only [hid, not_true_eq_false, if_false, ReadImageToDatum, hdec, Option.map_some', hpid]


/-- A loop iteration that returns has found the cursor in range and leaves it
in range; it has changed only the working members of the layer, has left the
data outside slot `item_id` and the labels other than `item_id` as they were,
and has changed neither buffer when its decode failed. -/
theorem prefetchItem_ok_frame (env : Env D) (lines_size : Nat) (layer l1 : ImageDataLayer D)
    (item_id : Nat) (h : prefetchItem env lines_size layer item_id = Except.ok l1) :
    layer.lines_id_ < lines_size
    ∧ ∃ (td lab : Buf D) (rng : Rand) (lines : List Entry) (id : Nat),
        l1 = layer.after td lab rng lines id (layer.reads_ + 1)
        ∧ id < lines_size
        ∧ (∀ k, (k < item_id * slotSize layer.datum_channels_ layer.datum_size_
                layer.layer_param_.crop_size
              ∨ (item_id + 1) * slotSize layer.datum_channels_ layer.datum_size_
                layer.layer_param_.crop_size ≤ k) →
            td k = layer.prefetch_data_.cpu_data k)
        ∧ (∀ i, i ≠ item_id → lab i = layer.prefetch_label_.cpu_data i)
        ∧ (env.imread layer.reads_ (layer.lines_.getD layer.lines_id_ ("", 0)).1
              layer.layer_param_.new_height layer.layer_param_.new_width
              layer.layer_param_.images_in_color = none →
            td = layer.prefetch_data_.cpu_data ∧ lab = layer.prefetch_label_.cpu_data) := by
  by_cases hid : layer.lines_id_ < lines_size
  · refine ⟨hid, ?_⟩
    cases hdec : env.imread layer.reads_ (layer.lines_.getD layer.lines_id_ ("", 0)).1
        layer.layer_param_.new_height layer.layer_param_.new_width
        layer.layer_param_.images_in_color with
    | none =>
      rw [prefetchItem_skip env lines_size layer item_id hid hdec] at h
      injection h with h
      exact ⟨_, _, _, _, _, h.symm, hid, fun _ _ => rfl, fun _ _ => rfl, fun _ => ⟨rfl, rfl⟩⟩
    | some d =>
      cases hpid : ProcessImageDatum env.phase layer.datum_channels_ layer.datum_height_
          layer.datum_width_ layer.datum_size_ layer.layer_param_.crop_size
          layer.layer_param_.mirror layer.data_mean_.cpu_data layer.layer_param_.scale
          ({ d with label := (layer.lines_.getD layer.lines_id_ ("", 0)).2 } : Datum D)
          item_id ⟨layer.prefetch_data_.cpu_data, layer.prefetch_label_.cpu_data⟩
          layer.rand_ with
      | error e =>
        rw [prefetchItem_of_transform_error env lines_size layer item_id d e hid hdec hpid] at h
        exact absurd h (by simp)
      | ok out =>
        obtain ⟨rng, lines, hstep, _⟩ := prefetchItem_of_transform_ok env lines_size layer
          item_id d out hid hdec hpid
        obtain ⟨_, hdata⟩ := ProcessImageDatum_frame _ _ _ _ _ _ _ _ _ _ _ _ _ out hpid
        rw [hstep] at h
        injection h with h
        refine ⟨_, _, _, _, _, h.symm, Nat.mod_lt _ (by omega), hdata,
          fun i hi => Buf.write_other _ _ hi, fun hnone => ?_⟩
        exact absurd hnone (by simp)
  · unfold prefetchItem at h
    simp [hid] at h

/-- A run of loop iterations that returns has changed only the working
members of the layer, and has left as they were the data outside the slots of
its iterations and the labels other than theirs. -/
theorem prefetch_run_frame (env : Env D) (lines_size : Nat) (ids : List Nat) :
    ∀ (layer layer' : ImageDataLayer D),
      ids.foldlM (prefetchItem env lines_size) layer = Except.ok layer' →
      ∃ (td lab : Buf D) (rng : Rand) (lines : List Entry) (id reads : Nat),
        layer' = layer.after td lab rng lines id reads
        ∧ (∀ k, (∀ j, j ∈ ids →
              k < j * slotSize layer.datum_channels_ layer.datum_size_
                layer.layer_param_.crop_size
              ∨ (j + 1) * slotSize layer.datum_channels_ layer.datum_size_
                layer.layer_param_.crop_size ≤ k) →
            td k = layer.prefetch_data_.cpu_data k)
        ∧ (∀ i, i ∉ ids → lab i = layer.prefetch_label_.cpu_data i) := by
  induction ids with
  | nil =>
    intro layer layer' h
    have h' : (Except.ok layer : Except Failure (ImageDataLayer D)) = Except.ok layer' := h
    injection h' with h'
    exact ⟨_, _, _, _, _, _, h'.symm, fun _ _ => rfl, fun _ _ => rfl⟩
  | cons item ids ih =>
    intro layer layer' h
    rw [List.foldlM_cons] at h
    cases hstep : prefetchItem env lines_size layer item with
    | error e =>
      rw [hstep, Except.error_bind] at h
      exact absurd h (by simp)
    | ok l1 =>
      rw [hstep, Except.ok_bind] at h
      obtain ⟨_, td1, lab1, rng1, lines1, id1, hl1, _, hd1, hb1, _⟩ :=
        prefetchItem_ok_frame env lines_size layer l1 item hstep
      subst hl1
      obtain ⟨td, lab, rng, lines, id, reads, hl', hd, hb⟩ := ih _ layer' h
      refine ⟨td, lab, rng, lines, id, reads, ?_, ?_, ?_⟩
      · rw [hl', ImageDataLayer.after_after]
      · intro k hk
        rw [hd k (fun j hj => hk j (List.mem_cons_of_mem _ hj))]
        exact hd1 k (hk item (List.mem_cons_self _ _))
      · intro i hi
        rw [hb i (fun hmem => hi (List.mem_cons_of_mem _ hmem))]
        exact hb1 i (fun he => hi (he ▸ List.mem_cons_self _ _))

/-- A run of loop iterations started with the cursor in range never fails the
check of line 126 and, when it returns, leaves the cursor in range. -/
theorem prefetch_run_cursor (env : Env D) (lines_size : Nat) (ids : List Nat) :
    ∀ (layer : ImageDataLayer D), layer.lines_id_ < lines_size →
      ids.foldlM (prefetchItem env lines_size) layer ≠ Except.error Failure.cursorRange
      ∧ ∀ layer', ids.foldlM (prefetchItem env lines_size) layer = Except.ok layer' →
          layer'.lines_id_ < lines_size := by
  induction ids with
  | nil =>
    intro layer hp
    refine ⟨fun h => ?_, fun layer' h => ?_⟩
    · have h' : (Except.ok layer : Except Failure (ImageDataLayer D))
          = Except.error Failure.cursorRange := h
      exact absurd h' (by simp)
    · have h' : (Except.ok layer : Except Failure (ImageDataLayer D)) = Except.ok layer' := h
      injection h' with h'
      rw [← h']
      exact hp
  | cons item ids ih =>
    intro layer hp
    rw [List.foldlM_cons]
    cases hstep : prefetchItem env lines_size layer item with
    | error e =>
      rw [Except.error_bind]
      refine ⟨fun h => ?_, fun layer' h => absurd h (by simp)⟩
      injection h with h
      subst h
      cases hdec : env.imread layer.reads_ (layer.lines_.getD layer.lines_id_ ("", 0)).1
          layer.layer_param_.new_height layer.layer_param_.new_width
          layer.layer_param_.images_in_color with
      | none =>
        rw [prefetchItem_skip env lines_size layer item hp hdec] at hstep
        exact absurd hstep (by simp)
      | some d =>
        cases hpid : ProcessImageDatum env.phase layer.datum_channels_ layer.datum_height_
            layer.datum_width_ layer.datum_size_ layer.layer_param_.crop_size
            layer.layer_param_.mirror layer.data_mean_.cpu_data layer.layer_param_.scale
            ({ d with label := (layer.lines_.getD layer.lines_id_ ("", 0)).2 } : Datum D)
            item ⟨layer.prefetch_data_.cpu_data, layer.prefetch_label_.cpu_data⟩
            layer.rand_ with
        | error e =>
          rw [prefetchItem_of_transform_error env lines_size layer item d e hp hdec hpid]
            at hstep
          injection hstep with hstep
          subst hstep
          obtain ⟨_, h | h | h⟩ := ProcessImageDatum_error _ _ _ _ _ _ _ _ _ _ _ _ _ _ hpid
          · exact absurd h.1 (by decide)
          · exact absurd h.1 (by decide)
          · exact absurd h.1 (by decide)
        | ok out =>
          obtain ⟨rng, lines, hok, _⟩ := prefetchItem_of_transform_ok env lines_size layer
            item d out hp hdec hpid
          rw [hok] at hstep
          exact absurd hstep (by simp)
    | ok l1 =>
      rw [Except.ok_bind]
      obtain ⟨_, td1, lab1, rng1, lines1, id1, hl1, hid1, _⟩ :=
        prefetchItem_ok_frame env lines_size layer l1 item hstep
      subst hl1
      exact ih _ hid1

/-- With valid geometry and byte payloads, a run of loop iterations started
with the cursor in range returns, whichever decodes fail. -/
theorem prefetch_run_total (env : Env D) (lines_size : Nat) (ids : List Nat) :
    ∀ (layer : ImageDataLayer D), layer.lines_id_ < lines_size →
      (0 < layer.layer_param_.crop_size →
        layer.layer_param_.crop_size < layer.datum_height_
        ∧ layer.layer_param_.crop_size < layer.datum_width_) →
      (∀ (call : Nat) (path : String) (d : Datum D),
        env.imread call path layer.layer_param_.new_height layer.layer_param_.new_width
            layer.layer_param_.images_in_color = some d →
        0 < layer.layer_param_.crop_size → d.data.length ≠ 0) →
      ∃ layer', ids.foldlM (prefetchItem env lines_size) layer = Except.ok layer' := by
  induction ids with
  | nil => intro layer _ _ _; exact ⟨layer, rfl⟩
  | cons item ids ih =>
    intro layer hp hgeo hbytes
    rw [List.foldlM_cons]
    have hL : 0 < lines_size := by omega
    cases hdec : env.imread layer.reads_ (layer.lines_.getD layer.lines_id_ ("", 0)).1
        layer.layer_param_.new_height layer.layer_param_.new_width
        layer.layer_param_.images_in_color with
    | none =>
      rw [prefetchItem_skip env lines_size layer item hp hdec, Except.ok_bind]
      exact ih _ hp hgeo hbytes
    | some d =>
      obtain ⟨td, rng, lines, hstep, _⟩ := prefetchItem_fill env lines_size layer item d hp
        hdec (fun hc => ⟨(hgeo hc).1, (hgeo hc).2, hbytes _ _ d hdec hc⟩)
      rw [hstep, Except.ok_bind]
      exact ih _ (Nat.mod_lt _ hL) hgeo hbytes


/-- The slots of different batch positions do not overlap. -/
theorem slot_disjoint {S i j k : Nat} (hij : j ≠ i) (hlo : i * S ≤ k) (hhi : k < (i + 1) * S) :
    k < j * S ∨ (j + 1) * S ≤ k := by
  rcases Nat.lt_or_gt_of_ne hij with h | h
  · have : (j + 1) * S ≤ i * S := Nat.mul_le_mul_right _ h
    exact Or.inr (by omega)
  · have : (i + 1) * S ≤ j * S := Nat.mul_le_mul_right _ h
    exact Or.inl (by omega)

/-- The slot indices of a run, split at position `i`. -/
theorem range_split (B i : Nat) (hi : i < B) :
    List.range B = List.range i ++ i :: List.range' (i + 1) (B - i - 1) := by
  have h1 : B - i = (B - i - 1) + 1 := by omega
  have h2 := List.range'_append 0 i (B - i) 1
  rw [Nat.one_mul, Nat.zero_add, h1, List.range'_succ, ← h1] at h2
  rw [List.range_eq_range', List.range_eq_range', h2]
  congr 1
  omega

/-- C16. If the decode at iteration `item_id` of a producer run fails, the
run, when it returns, has left data slot `item_id` and label slot `item_id`
exactly as they were before the run, whatever the buffers held, whatever the
list is and whichever other decodes fail. With valid geometry and byte
payloads the run does return. -/
theorem prefetch_failed_decode_keeps_slot (env : Env D) (layer before_item layer'
    : ImageDataLayer D) (item_id : Nat)
    (hi : item_id < layer.layer_param_.batch_size)
    (hpre : (List.range item_id).foldlM (prefetchItem env layer.lines_.length) layer
      = Except.ok before_item)
    (hfail : env.imread before_item.reads_
      (before_item.lines_.getD before_item.lines_id_ ("", 0)).1
      layer.layer_param_.new_height layer.layer_param_.new_width
      layer.layer_param_.images_in_color = none)
    (hrun : ImageDataLayerPrefetch env layer = Except.ok layer') :
    (∀ k, item_id * slotSize layer.datum_channels_ layer.datum_size_
            layer.layer_param_.crop_size ≤ k →
        k < (item_id + 1) * slotSize layer.datum_channels_ layer.datum_size_
            layer.layer_param_.crop_size →
        layer'.prefetch_data_.cpu_data k = layer.prefetch_data_.cpu_data k)
    ∧ layer'.prefetch_label_.cpu_data item_id = layer.prefetch_label_.cpu_data item_id
    ∧ (layer.lines_id_ < layer.lines_.length →
        (0 < layer.layer_param_.crop_size →
          layer.layer_param_.crop_size < layer.datum_height_
          ∧ layer.layer_param_.crop_size < layer.datum_width_) →
        (∀ (call : Nat) (path : String) (d : Datum D),
          env.imread call path layer.layer_param_.new_height layer.layer_param_.new_width
              layer.layer_param_.images_in_color = some d →
          0 < layer.layer_param_.crop_size → d.data.length ≠ 0) →
        ∀ ids : List Nat, ∃ l,
          ids.foldlM (prefetchItem env layer.lines_.length) layer = Except.ok l) := by
  have key : ∃ (td1 lab1 td3 lab3 : Buf D),
      layer'.prefetch_data_.cpu_data = td3 ∧ layer'.prefetch_label_.cpu_data = lab3
      ∧ (∀ k, (∀ j, j ∈ List.range item_id →
            k < j * slotSize layer.datum_channels_ layer.datum_size_
              layer.layer_param_.crop_size
            ∨ (j + 1) * slotSize layer.datum_channels_ layer.datum_size_
              layer.layer_param_.crop_size ≤ k) →
          td1 k = layer.prefetch_data_.cpu_data k)
      ∧ (∀ i, i ∉ List.range item_id → lab1 i = layer.prefetch_label_.cpu_data i)
      ∧ (∀ k, (∀ j, j ∈ List.range' (item_id + 1) (layer.layer_param_.batch_size - item_id - 1) →
            k < j * slotSize layer.datum_channels_ layer.datum_size_
              layer.layer_param_.crop_size
            ∨ (j + 1) * slotSize layer.datum_channels_ layer.datum_size_
              layer.layer_param_.crop_size ≤ k) →
          td3 k = td1 k)
      ∧ (∀ i, i ∉ List.range' (item_id + 1) (layer.layer_param_.batch_size - item_id - 1) →
          lab3 i = lab1 i) := by
    have hloop : (List.range layer.layer_param_.batch_size).foldlM
        (prefetchItem env layer.lines_.length) layer = Except.ok layer' := by
      unfold ImageDataLayerPrefetch at hrun
      by_cases hg : (layer.layer_param_.mirror && layer.layer_param_.crop_size == 0) = true
      · simp [hg] at hrun
      · simpa only [hg, Bool.false_eq_true, if_false] using hrun
    rw [range_split _ _ hi, List.foldlM_append, hpre, Except.ok_bind, List.foldlM_cons] at hloop
    obtain ⟨td1, lab1, rng1, lines1, id1, reads1, hb, hd1, hl1⟩ :=
      prefetch_run_frame env layer.lines_.length (List.range item_id) layer before_item hpre
    subst hb
    cases hstep : prefetchItem env layer.lines_.length
        (layer.after td1 lab1 rng1 lines1 id1 reads1) item_id with
    | error e =>
      rw [hstep, Except.error_bind] at hloop
      exact absurd hloop (by simp)
    | ok l2 =>
      rw [hstep, Except.ok_bind] at hloop
      obtain ⟨_, td2, lab2, rng2, lines2, id2, hl2, _, _, _, hsame⟩ :=
        prefetchItem_ok_frame env layer.lines_.length _ l2 item_id hstep
      obtain ⟨htd, hlab⟩ := hsame hfail
      subst hl2
      obtain ⟨td3, lab3, rng3, lines3, id3, reads3, hl3, hd3, hb3⟩ :=
        prefetch_run_frame env layer.lines_.length _ _ layer' hloop
      subst hl3
      refine ⟨td1, lab1, td3, lab3, rfl, rfl, hd1, hl1, ?_, ?_⟩
      · intro k hk
        rw [hd3 k hk]
        exact congrFun htd k
      · intro i hi'
        rw [hb3 i hi']
        exact congrFun hlab i
  obtain ⟨td1, lab1, td3, lab3, h3d, h3l, hd1, hl1, hd3, hb3⟩ := key
  refine ⟨?_, ?_, fun hp hgeo hbytes ids =>
    prefetch_run_total env layer.lines_.length ids layer hp hgeo hbytes⟩
  · intro k hlo hhi
    rw [h3d, hd3 k (fun j hj => slot_disjoint (by
      have := (List.mem_range'_1.mp hj).1
      omega) hlo hhi)]
    exact hd1 k (fun j hj => slot_disjoint (by
      have := List.mem_range.mp hj
      omega) hlo hhi)
  · rw [h3l, hb3 item_id (fun hmem => by
      have := (List.mem_range'_1.mp hmem).1
      omega)]
    exact hl1 item_id (fun hmem => by
      have := List.mem_range.mp hmem
      omega)

/-- The statement of C16 on the layer `exLayerStale`: the decode of
"bad.jpg" fails at iteration 1, and after the run slot 1 still holds the
sample 77 and the label 88 of the earlier run, next to the fresh slot 0. -/
theorem prefetch_failed_decode_keeps_slot_witness :
    ∃ before_item layer' : ImageDataLayer Int,
      (List.range 1).foldlM (prefetchItem exEnv exLayerStale.lines_.length) exLayerStale
        = Except.ok before_item
      ∧ exEnv.imread before_item.reads_
          (before_item.lines_.getD before_item.lines_id_ ("", 0)).1 0 0 false = none
      ∧ ImageDataLayerPrefetch exEnv exLayerStale = Except.ok layer'
      ∧ (List.range 3).map layer'.prefetch_data_.cpu_data = [9, 77, 77]
      ∧ (List.range 3).map layer'.prefetch_label_.cpu_data = [1, 88, 88]
      ∧ ((∀ k, 1 * slotSize 1 1 0 ≤ k → k < (1 + 1) * slotSize 1 1 0 →
            layer'.prefetch_data_.cpu_data k = exLayerStale.prefetch_data_.cpu_data k)
        ∧ layer'.prefetch_label_.cpu_data 1 = exLayerStale.prefetch_label_.cpu_data 1
        ∧ (exLayerStale.lines_id_ < exLayerStale.lines_.length →
            (0 < 0 → 0 < 1 ∧ 0 < 1) →
            (∀ (call : Nat) (path : String) (d : Datum Int),
              exEnv.imread call path 0 0 false = some d → 0 < 0 → d.data.length ≠ 0) →
            ∀ ids : List Nat, ∃ l,
              ids.foldlM (prefetchItem exEnv exLayerStale.lines_.length) exLayerStale
                = Except.ok l)) :=
  ⟨_, _, rfl, rfl, rfl, by decide, by decide,
    prefetch_failed_decode_keeps_slot exEnv exLayerStale _ _ 1 (by decide) rfl rfl rfl⟩


/-- C17. If the cursor is in range before a producer run on a non-empty list,
`0 <= lines_id_ < lines_.size()`, then after every number `k` of loop
iterations the check of line 126 has not failed, and the state reached has
the cursor in range of the list, whose length is unchanged: every list access
is in range. This holds for every batch size, shuffle setting and pattern of
decode failures, `std::random_shuffle` being a permutation of its argument;
so the run never fails at line 126 and leaves the cursor in range. With valid
geometry and byte payloads the run returns. -/
theorem prefetch_cursor_invariant (env : Env D) (layer : ImageDataLayer D)
    (hstd : ∀ (r : Rand) (l : List Entry), (env.random_shuffle r l).1.Perm l)
    (hp : layer.lines_id_ < layer.lines_.length) :
    (∀ k : Nat,
      (List.range k).foldlM (prefetchItem env layer.lines_.length) layer
        ≠ Except.error Failure.cursorRange
      ∧ ∀ after_k,
          (List.range k).foldlM (prefetchItem env layer.lines_.length) layer
            = Except.ok after_k →
          after_k.lines_id_ < after_k.lines_.length
          ∧ after_k.lines_.length = layer.lines_.length)
    ∧ ImageDataLayerPrefetch env layer ≠ Except.error Failure.cursorRange
    ∧ (∀ layer', ImageDataLayerPrefetch env layer = Except.ok layer' →
        layer'.lines_id_ < layer'.lines_.length
        ∧ layer'.lines_.length = layer.lines_.length)
    ∧ (¬ (layer.layer_param_.mirror = true ∧ layer.layer_param_.crop_size = 0) →
        (0 < layer.layer_param_.crop_size →
          layer.layer_param_.crop_size < layer.datum_height_
          ∧ layer.layer_param_.crop_size < layer.datum_width_) →
        (∀ (call : Nat) (path : String) (d : Datum D),
          env.imread call path layer.layer_param_.new_height layer.layer_param_.new_width
              layer.layer_param_.images_in_color = some d →
          0 < layer.layer_param_.crop_size → d.data.length ≠ 0) →
        ∃ layer', ImageDataLayerPrefetch env layer = Except.ok layer') := by
  have hiter : ∀ k : Nat,
      (List.range k).foldlM (prefetchItem env layer.lines_.length) layer
        ≠ Except.error Failure.cursorRange
      ∧ ∀ after_k,
          (List.range k).foldlM (prefetchItem env layer.lines_.length) layer
            = Except.ok after_k →
          after_k.lines_id_ < after_k.lines_.length
          ∧ after_k.lines_.length = layer.lines_.length := by
    intro k
    obtain ⟨h1, h2⟩ := prefetch_run_cursor env layer.lines_.length (List.range k) layer hp
    refine ⟨h1, fun after_k hk => ?_⟩
    have hlen : after_k.lines_.length = layer.lines_.length :=
      (prefetch_lines_perm env layer.lines_.length hstd (List.range k) layer after_k
        hk).length_eq
    exact ⟨by rw [hlen]; exact h2 after_k hk, hlen⟩
  refine ⟨hiter, ?_, ?_, ?_⟩
  · intro h
    by_cases hg : layer.layer_param_.mirror = true ∧ layer.layer_param_.crop_size = 0
    · rw [ImageDataLayerPrefetch_mirror_guard env layer hg.1 hg.2] at h
      exact absurd h (by simp)
    · rw [ImageDataLayerPrefetch_eq_loop env layer hg] at h
      exact (hiter _).1 h
  · intro layer' h
    by_cases hg : layer.layer_param_.mirror = true ∧ layer.layer_param_.crop_size = 0
    · rw [ImageDataLayerPrefetch_mirror_guard env layer hg.1 hg.2] at h
      exact absurd h (by simp)
    · rw [ImageDataLayerPrefetch_eq_loop env layer hg] at h
      exact (hiter _).2 layer' h
  · intro hg hgeo hbytes
    rw [ImageDataLayerPrefetch_eq_loop env layer hg]
    exact prefetch_run_total env layer.lines_.length _ layer hp hgeo hbytes

/-- The statement of C17 on the layer `exLayerStale`, where the decode of
"bad.jpg" fails at the iterations 1 and 2: the run returns with the cursor at
1, in range of the three entries. -/
theorem prefetch_cursor_invariant_witness :
    ((∀ k : Nat,
        (List.range k).foldlM (prefetchItem exEnv exLayerStale.lines_.length) exLayerStale
          ≠ Except.error Failure.cursorRange
        ∧ ∀ after_k,
            (List.range k).foldlM (prefetchItem exEnv exLayerStale.lines_.length) exLayerStale
              = Except.ok after_k →
            after_k.lines_id_ < after_k.lines_.length
            ∧ after_k.lines_.length = exLayerStale.lines_.length)
      ∧ ImageDataLayerPrefetch exEnv exLayerStale ≠ Except.error Failure.cursorRange
      ∧ (∀ layer', ImageDataLayerPrefetch exEnv exLayerStale = Except.ok layer' →
          layer'.lines_id_ < layer'.lines_.length
          ∧ layer'.lines_.length = exLayerStale.lines_.length)
      ∧ (¬ (exLayerStale.layer_param_.mirror = true
            ∧ exLayerStale.layer_param_.crop_size = 0) →
          (0 < exLayerStale.layer_param_.crop_size →
            exLayerStale.layer_param_.crop_size < exLayerStale.datum_height_
            ∧ exLayerStale.layer_param_.crop_size < exLayerStale.datum_width_) →
          (∀ (call : Nat) (path : String) (d : Datum Int),
            exEnv.imread call path exLayerStale.layer_param_.new_height
                exLayerStale.layer_param_.new_width
                exLayerStale.layer_param_.images_in_color = some d →
            0 < exLayerStale.layer_param_.crop_size → d.data.length ≠ 0) →
          ∃ layer', ImageDataLayerPrefetch exEnv exLayerStale = Except.ok layer'))
    ∧ cursorOf (ImageDataLayerPrefetch exEnv exLayerStale) = some 1
    ∧ exLayerStale.lines_.length = 3 :=
  ⟨prefetch_cursor_invariant exEnv exLayerStale (fun r l => ShuffleImages_perm r l)
      (by decide),
    by decide, by decide⟩

end Frame

end Caffe
